import Mathlib

/-!
# cb-tumblebug: cached request executor and resource provisioning

A shallow embedding of

* `src/core/common/client.go` (`ExecuteHttpRequest`, `StartRequest`, `EndRequest`),
* `src/core/mcir/sshkey.go` (`CreateSshKey`),
* `src/core/mcir/securitygroup.go` (`CreateSecurityGroup`),
* `src/core/infra/snapshot.go` (`CreateVmSnapshot`, `Difference_dataDisks`),
* `src/api/rest/server/mcis/control.go` (`RestGetControlMcis`, `RestGetControlMcisVm`,
  `RestPutMcisVmWithCmd`, `RestPostMcisVmWithCmd`),

together with the properties proved about them.

Conventions.  Process-wide maps (`clientCache`, the key store) are passed
explicitly.  Everything the functions obtain from outside (the HTTP client, the
RPC handle, the clock, validators, helpers of other packages) is a parameter.
Each run records the outward actions it performs, in order, in a trace.
A Go `error` is its message (`none` is `nil`); instants and durations are
integers (nanoseconds).
-/

namespace Tumblebug

namespace common

/-! ## `client.go` -/

/-- CacheItem is a struct to store cached item (client.go, lines 29-32). -/
structure CacheItem (T : Type) where
  Response : T
  ExpiresAt : Int
deriving DecidableEq, Repr

/-- A value held by `clientCache`, as a call with result type `T` finds it.
`clientCache` is one `sync.Map` for every instantiation of
`ExecuteHttpRequest` (line 34) and the key carries no type (lines 79, 82), so
the value under a key is a `CacheItem[T]`, or a `CacheItem[U]` stored by a call
with another result type `U`.  Of the latter only `ExpiresAt` is kept: its
`Response` is no `T`, and the type assertion on line 86 panics on it. -/
inductive CacheEntry (T : Type) where
  | item (cachedItem : CacheItem T)
  | other (ExpiresAt : Int)
deriving DecidableEq, Repr

/-- The field `ExpiresAt` of the stored `CacheItem`, whatever its result type. -/
def CacheEntry.ExpiresAt {T : Type} : CacheEntry T → Int
  | CacheEntry.item cachedItem => cachedItem.ExpiresAt
  | CacheEntry.other expiresAt => expiresAt

/-- The map `clientCache` (line 34), as a call with result type `T` finds it. -/
abbrev Cache (T : Type) := String → Option (CacheEntry T)

/-- The map `clientCache` right after start: `sync.Map` with no entry. -/
def Cache.empty {T : Type} : Cache T := fun _ => none

/-- Effect of `clientCache.Store(key, item)`. -/
def Cache.Store {T : Type} (c : Cache T) (key : String) (item : CacheItem T) : Cache T :=
  fun k => if k = key then some (CacheEntry.item item) else c k

/-- Effect, for a call with result type `T`, of the `clientCache.Store(key, item)`
of line 152 run by a call with another result type: the key now holds a
`CacheItem` that is no `CacheItem[T]`. -/
def Cache.StoreOther {T : Type} (c : Cache T) (key : String) (ExpiresAt : Int) : Cache T :=
  fun k => if k = key then some (CacheEntry.other ExpiresAt) else c k

/-- Effect of `clientCache.Delete(key)`. -/
def Cache.Delete {T : Type} (c : Cache T) (key : String) : Cache T :=
  fun k => if k = key then none else c k

/-- NoBody is a constant for empty body (line 46). -/
def NoBody : String := "NOBODY"

/-- SetUseBody returns false if the given body is NoBody (lines 49-54);
`requestBody` is `some str` when its dynamic type is `string`. -/
def SetUseBody (requestBody : Option String) : Bool :=
  match requestBody with
  | some str => str != NoBody
  | none => true

/-- The request handed to resty: `req.Get(url)`, `req.Post(url)`, ... with the
headers and body set on lines 107-115. -/
structure Request (B : Type) where
  method : String
  url : String
  headers : List (String × String)
  body : Option B
deriving DecidableEq, Repr

/-- What resty hands back from `req.Get(url)` etc.: the pair `(resp, err)`.
`err` is `err.Error()` when the transport failed; `statusCode` is
`resp.StatusCode()`, `status` is `resp.Status()`; `decoded` is the value resty
wrote through the pointer given to `SetResult`, when it wrote one. -/
structure HttpResponse (T : Type) where
  err : Option String
  statusCode : Int
  status : String
  decoded : Option T
deriving DecidableEq, Repr

/-- The method `IsError` of resty `Response`: HTTP status code >= 400. -/
def HttpResponse.IsError {T : Type} (resp : HttpResponse T) : Bool :=
  decide (resp.statusCode > 399)

/-- Outward actions of one `ExecuteHttpRequest` run. -/
inductive Event (B T : Type) where
  | cacheDelete (key : String)
  | cacheStore (key : String) (item : CacheItem T)
  | remote (req : Request B)
deriving DecidableEq, Repr

/-- How a call ends: it returns an `error` value (`none` is `nil`), or the
goroutine panics. -/
inductive Ret where
  | returned (err : Option String)
  | panicked
deriving DecidableEq, Repr

/-- Everything observable after one `ExecuteHttpRequest` call.  `result` is
what the pointer `result` points to afterwards (`none`: the pointer is nil). -/
structure Exec (B T : Type) where
  ret : Ret
  result : Option T
  cache : Cache T
  trace : List (Event B T)

/-- Number of transport invocations recorded in a trace. -/
def remoteCalls {B T : Type} : List (Event B T) → Nat
  | [] => 0
  | Event.remote _ :: es => remoteCalls es + 1
  | _ :: es => remoteCalls es

/-- Lines 69-83: the cache key of a GET request.  `marshal` is `json.Marshal`
at the body type. -/
def cacheKey {B : Type} (marshal : B → Except String String)
    (method url : String) (useBody : Bool) (body : B) : Except String String :=
  if useBody then
    match marshal body with
    | .error e => .error ("JSON marshaling failed: " ++ e)
    | .ok bodyString => .ok (method ++ "_" ++ url ++ "_" ++ bodyString)
  else
    .ok (method ++ "_" ++ url)

/-- Lines 107-115: the request built for the live call, with the fixed
`Content-Type` header, the caller headers when `headers != nil`, and the body
when `useBody`. -/
def liveRequest {B : Type} (method url : String) (headers : Option (List (String × String)))
    (useBody : Bool) (body : B) : Request B :=
  { method := method, url := url,
    headers := ("Content-Type", "application/json") :: headers.getD [],
    body := if useBody then some body else none }

/-- Lines 102-158 of `ExecuteHttpRequest`: the live request and the cache
update.  `cache` and `trace` are the cache and the actions as the lookup left
them, `key` is the variable `cacheKey`, `storeTime` is `time.Now()` on line
152. -/
def performRequest {B T : Type} (client : Request B → HttpResponse T) (storeTime : Int)
    (method url : String) (headers : Option (List (String × String)))
    (useBody : Bool) (body : B) (result : Option T) (cacheDuration : Int)
    (key : String) (cache : Cache T) (trace : List (Event B T)) : Exec B T :=
  if method = "GET" ∨ method = "POST" ∨ method = "PUT" ∨ method = "DELETE" then
    let req := liveRequest method url headers useBody body
    let resp := client req
    let trace1 := trace ++ [Event.remote req]
    let result1 : Option T := result.map (fun old => resp.decoded.getD old)
    match resp.err with
    | some e =>
      ⟨Ret.returned (some ("[Error from: " ++ url ++ "] Message: " ++ e)), result1, cache, trace1⟩
    | none =>
      if resp.IsError then
        ⟨Ret.returned (some ("[Error from: " ++ url ++ "] Status code: " ++ resp.status)),
          result1, cache, trace1⟩
      else if method = "GET" then
        match result1 with
        | none => ⟨Ret.returned none, none, cache, trace1⟩
        | some v =>
          let item : CacheItem T := ⟨v, storeTime + cacheDuration⟩
          ⟨Ret.returned none, some v, cache.Store key item, trace1 ++ [Event.cacheStore key item]⟩
      else
        ⟨Ret.returned none, result1, cache, trace1⟩
  else
    ⟨Ret.returned (some ("Unsupported rest method: " ++ method)), result, cache, trace⟩

/-- ExecuteHttpRequest performs the HTTP request and fills the result
(lines 57-158).  `now` is `time.Now()` on line 87.  The unchecked assertion
`item.(CacheItem[T])` on line 86 comes before the expiry test: on an entry of
another result type the call panics with nothing deleted and nothing sent.  On
line 89 `*result = ...` panics when the pointer is nil. -/
def ExecuteHttpRequest {B T : Type} (marshal : B → Except String String)
    (client : Request B → HttpResponse T) (now storeTime : Int) (cache : Cache T)
    (method url : String) (headers : Option (List (String × String)))
    (useBody : Bool) (body : B) (result : Option T) (cacheDuration : Int) : Exec B T :=
  if method = "GET" then
    match cacheKey marshal method url useBody body with
    | .error e => ⟨Ret.returned (some e), result, cache, []⟩
    | .ok key =>
      match cache key with
      | some (CacheEntry.other _) => ⟨Ret.panicked, result, cache, []⟩
      | some (CacheEntry.item cachedItem) =>
        if now < cachedItem.ExpiresAt then
          match result with
          | none => ⟨Ret.panicked, none, cache, []⟩
          | some _ => ⟨Ret.returned none, some cachedItem.Response, cache, []⟩
        else
          performRequest client storeTime method url headers useBody body result cacheDuration
            key (cache.Delete key) [Event.cacheDelete key]
      | none =>
        performRequest client storeTime method url headers useBody body result cacheDuration
          key cache []
  else
    performRequest client storeTime method url headers useBody body result cacheDuration
      "" cache []

/-- The four methods the switch on lines 121-132 accepts. -/
def supported (method : String) : Prop :=
  method = "GET" ∨ method = "POST" ∨ method = "PUT" ∨ method = "DELETE"

/-- A message carries `url` when `url` occurs in it. -/
def carriesUrl (msg url : String) : Prop := ∃ pre post : String, msg = pre ++ url ++ post

/-! ## Types of package `common` used by the resource code -/

/-- Modelled from the spec: the type `common.IID` (its declaration is not among
the sources): the identifier pair `NameId`, `SystemId` every driver response
exposes. -/
structure IID where
  NameId : String := ""
  SystemId : String := ""
deriving DecidableEq, Repr

/-- Modelled from the spec: the type `common.KeyValue` (its declaration is not
among the sources): one pair of the key/value list returned by the driver. -/
structure KeyValue where
  Key : String := ""
  Value : String := ""
deriving DecidableEq, Repr

/-- Modelled from the spec: the key store (`common.CBStore`, `kvstore`), a flat
map from key strings to JSON values. -/
abbrev Store := String → Option String

/-- Modelled from the spec: the store after a successful `put(key, value)`. -/
def Store.put (s : Store) (key value : String) : Store :=
  fun k => if k = key then some value else s k

/-- How a call that yields `(value, error)` ends: it returns the pair (`none`
is the nil error), or the goroutine panics. -/
inductive Outcome (α : Type) where
  | returned (value : α) (err : Option String)
  | panicked
deriving DecidableEq, Repr

/-- The HTTP response resty hands back: `resp.StatusCode()`, `resp.Body()` and
`resp.Result()`, the value behind the pointer given to `SetResult`. -/
structure RestResponse (α : Type) where
  statusCode : Int
  body : String
  result : α
deriving DecidableEq, Repr

/-- The pair `(resp, err)` of `req.Post(url)` / `req.Get(url)`; `resp` is `none`
when the pointer is nil. -/
structure RestResult (α : Type) where
  resp : Option (RestResponse α)
  err : Option String
deriving DecidableEq, Repr

end common

end Tumblebug

namespace Tumblebug

namespace mcir

open common (IID KeyValue Store Outcome RestResponse RestResult)

/-! ## `sshkey.go` and `securitygroup.go`: types -/

/-- SpiderKeyPairInfo (sshkey.go, lines 34-45). -/
structure SpiderKeyPairInfo where
  Name : String := ""
  IId : IID := {}
  Fingerprint : String := ""
  PublicKey : String := ""
  PrivateKey : String := ""
  VMUserID : String := ""
  KeyValueList : List KeyValue := []
deriving DecidableEq, Repr

/-- SpiderKeyPairReqInfoWrapper (sshkey.go, lines 29-32). -/
structure SpiderKeyPairReqInfoWrapper where
  ConnectionName : String := ""
  ReqInfo : SpiderKeyPairInfo := {}
deriving DecidableEq, Repr

/-- TbSshKeyReq (sshkey.go, lines 47-51). -/
structure TbSshKeyReq where
  Name : String := ""
  ConnectionName : String := ""
  Description : String := ""
deriving DecidableEq, Repr

/-- TbSshKeyInfo (sshkey.go, lines 64-78). -/
structure TbSshKeyInfo where
  Id : String := ""
  Name : String := ""
  ConnectionName : String := ""
  Description : String := ""
  CspSshKeyName : String := ""
  Fingerprint : String := ""
  Username : String := ""
  VerifiedUsername : String := ""
  PublicKey : String := ""
  PrivateKey : String := ""
  KeyValueList : List KeyValue := []
  AssociatedObjectList : List String := []
  IsAutoGenerated : Bool := false
deriving DecidableEq, Repr

/-- SpiderSecurityRuleInfo is a struct to handle security group rule info
from/to CB-Spider (securitygroup.go, lines 47-53). -/
structure SpiderSecurityRuleInfo where
  FromPort : String := ""
  ToPort : String := ""
  IPProtocol : String := ""
  Direction : String := ""
  CIDR : String := ""
deriving DecidableEq, Repr

/-- SpiderSecurityInfo (securitygroup.go, lines 56-70). -/
structure SpiderSecurityInfo where
  Name : String := ""
  VPCName : String := ""
  CSPId : String := ""
  SecurityRules : List SpiderSecurityRuleInfo := []
  IId : IID := {}
  VpcIID : IID := {}
  Direction : String := ""
  KeyValueList : List KeyValue := []
deriving DecidableEq, Repr

/-- SpiderSecurityReqInfoWrapper is a wrapper struct to create JSON body of
the create security group request (securitygroup.go, lines 30-33). -/
structure SpiderSecurityReqInfoWrapper where
  ConnectionName : String := ""
  ReqInfo : SpiderSecurityInfo := {}
deriving DecidableEq, Repr

/-- TbFirewallRuleInfo is a struct to handle firewall rule info of CB-Tumblebug
(securitygroup.go, lines 85-91). -/
structure TbFirewallRuleInfo where
  FromPort : String := ""
  ToPort : String := ""
  IPProtocol : String := ""
  Direction : String := ""
  CIDR : String := ""
deriving DecidableEq, Repr

/-- TbSecurityGroupReq (securitygroup.go, lines 73-82).  `FirewallRules` is a
pointer to a slice: `none` is the nil pointer. -/
structure TbSecurityGroupReq where
  Name : String := ""
  ConnectionName : String := ""
  VNetId : String := ""
  Description : String := ""
  FirewallRules : Option (List TbFirewallRuleInfo) := none
  CspSecurityGroupId : String := ""
deriving DecidableEq, Repr

/-- TbSecurityGroupInfo is a struct that represents TB security group object
(securitygroup.go, lines 106-124). -/
structure TbSecurityGroupInfo where
  Id : String := ""
  Name : String := ""
  ConnectionName : String := ""
  VNetId : String := ""
  Description : String := ""
  FirewallRules : List TbFirewallRuleInfo := []
  CspSecurityGroupId : String := ""
  CspSecurityGroupName : String := ""
  KeyValueList : List KeyValue := []
  AssociatedObjectList : List String := []
  IsAutoGenerated : Bool := false
  SystemLabel : String := ""
deriving DecidableEq, Repr

/-- Modelled from the spec: the type `TbVNetInfo` (declared in a file of package
mcir that is not among the sources), with the three fields
`CreateSecurityGroup` reads: the owning network record of a security group. -/
structure TbVNetInfo where
  Id : String := ""
  ConnectionName : String := ""
  CspVNetName : String := ""
deriving DecidableEq, Repr

/-- Outward actions of a provisioning call, in the order performed: requests to
the driver over REST, calls on the RPC handle `ccm`, and key store calls. -/
inductive Event where
  | restKeyPair (method url : String) (body : SpiderKeyPairReqInfoWrapper)
  | restSecurity (method url : String) (body : SpiderSecurityReqInfoWrapper)
  | rpcSetConfigPath (path : String)
  | rpcOpen
  | rpcClose
  | rpcCall (verb payload : String)
  | storePut (key value : String)
  | storeGet (key : String)
deriving DecidableEq, Repr

/-- Everything observable after one provisioning call. -/
structure Run (α : Type) where
  ret : Outcome α
  store : Store
  trace : List Event

/-- What the provisioning code obtains from outside itself: helpers of packages
that are not among the sources, the validator, the process environment, the
driver behind both transports, JSON coding, and the answers of the key
store. -/
structure Env where
  /-- The constant `common.StrSSHKey`. -/
  StrSSHKey : String
  /-- The constant `common.StrSecurityGroup`. -/
  StrSecurityGroup : String
  /-- The constant `common.StrVNet`. -/
  StrVNet : String
  /-- The variable `common.SpiderRestUrl`. -/
  SpiderRestUrl : String
  /-- The function `os.Getenv`. -/
  Getenv : String → String
  /-- The function `common.CheckString`. -/
  CheckString : String → Option String
  /-- The call `validate.Struct(u)` on an SSH key request. -/
  validateSshKeyReq : TbSshKeyReq → Option String
  /-- The call `validate.Var(u.FirewallRules, "required")`. -/
  validateFirewallRules : Option (List TbFirewallRuleInfo) → Option String
  /-- The call `validate.Struct(u)` on a security group request. -/
  validateSecurityGroupReq : TbSecurityGroupReq → Option String
  /-- The function `CheckResource(nsId, resourceType, resourceId)`. -/
  CheckResource : Store → String → String → String → Bool × Option String
  /-- The function `ListResource(nsId, common.StrVNet)`, already asserted to
  `[]TbVNetInfo`. -/
  ListResource : Store → String → String → Except String (List TbVNetInfo)
  /-- The function `GetResource(nsId, resourceType, resourceId)`; the value is
  the returned interface value. -/
  GetResource : Store → String → String → String → Except String String
  /-- The function `common.CopySrcToDest` into a `TbVNetInfo`. -/
  CopySrcToDest : String → Except String TbVNetInfo
  /-- The function `common.GenResourceKey(nsId, resourceType, resourceId)`. -/
  GenResourceKey : String → String → String → String
  /-- The driver behind `POST /keypair`. -/
  restKeyPair : String → String → SpiderKeyPairReqInfoWrapper → RestResult SpiderKeyPairInfo
  /-- The driver behind the security group REST calls. -/
  restSecurity : String → String → SpiderSecurityReqInfoWrapper → RestResult SpiderSecurityInfo
  /-- The call `ccm.SetConfigPath(path)`. -/
  SetConfigPath : String → Option String
  /-- The call `ccm.Open()`. -/
  Open : Option String
  /-- The calls `ccm.CreateKey`, `ccm.CreateVPC`, `ccm.GetVPC`: verb, payload. -/
  rpc : String → String → Except String String
  /-- The calls `json.MarshalIndent(tempReq, "", "  ")` / `json.Marshal(tempReq)`. -/
  marshalKeyPairReq : SpiderKeyPairReqInfoWrapper → String
  /-- The call `json.Marshal(tempReq)` on a security group wrapper. -/
  marshalSecurityReq : SpiderSecurityReqInfoWrapper → String
  /-- The call `json.Unmarshal` into `**SpiderKeyPairInfo`; `ok none` is the JSON
  value `null`, which leaves the pointer nil. -/
  unmarshalKeyPairInfo : String → Except String (Option SpiderKeyPairInfo)
  /-- The call `json.Unmarshal` into `**SpiderSecurityInfo`. -/
  unmarshalSecurityInfo : String → Except String (Option SpiderSecurityInfo)
  /-- The call `json.Marshal(content)` on an SSH key record. -/
  marshalSshKeyInfo : TbSshKeyInfo → String
  /-- The call `json.Marshal(content)` on a security group record. -/
  marshalSecurityGroupInfo : TbSecurityGroupInfo → String
  /-- The error `common.CBStore.Put(key, value)` returns; a `Put` that returns
  an error is taken to have written nothing. -/
  Put : Store → String → String → Option String
  /-- The pair `common.CBStore.Get(key)` returns; the first component is `none`
  when the returned pointer is nil. -/
  Get : Store → String → Option KeyValue × Option String

/-! ## `sshkey.go`: `CreateSshKey` -/

/-- Lines 211-223 of `CreateSshKey`: the record built from the request and the
driver response. -/
def sshKeyContent (u : TbSshKeyReq) (tempSpiderKeyPairInfo : SpiderKeyPairInfo) :
    TbSshKeyInfo :=
  { Id := u.Name
    Name := u.Name
    ConnectionName := u.ConnectionName
    CspSshKeyName := tempSpiderKeyPairInfo.IId.NameId
    Fingerprint := tempSpiderKeyPairInfo.Fingerprint
    Username := tempSpiderKeyPairInfo.VMUserID
    PublicKey := tempSpiderKeyPairInfo.PublicKey
    PrivateKey := tempSpiderKeyPairInfo.PrivateKey
    Description := u.Description
    KeyValueList := tempSpiderKeyPairInfo.KeyValueList
    AssociatedObjectList := [] }

/-- Lines 211-238 of `CreateSshKey`: the record is built and written to the
store.  `trace` holds the actions performed so far; `deferred` holds the
actions deferred to the return (the `defer ccm.Close()` of line 191 under the
RPC transport). -/
def storeSshKey (env : Env) (store : Store) (nsId : String) (u : TbSshKeyReq)
    (tempSpiderKeyPairInfo : SpiderKeyPairInfo) (trace deferred : List Event) :
    Run TbSshKeyInfo :=
  let content := sshKeyContent u tempSpiderKeyPairInfo
  let Key := env.GenResourceKey nsId env.StrSSHKey content.Id
  let Val := env.marshalSshKeyInfo content
  match env.Put store Key Val with
  | some err =>
    ⟨Outcome.returned content (some err), store, trace ++ [Event.storePut Key Val] ++ deferred⟩
  | none =>
    ⟨Outcome.returned content none, store.put Key Val,
      trace ++ [Event.storePut Key Val] ++ deferred⟩

/-- Lines 139-141 of `CreateSshKey`: the wrapper sent to the driver. -/
def keyPairReq (u : TbSshKeyReq) : SpiderKeyPairReqInfoWrapper :=
  { ConnectionName := u.ConnectionName, ReqInfo := { Name := u.Name } }

/-- CreateSshKey accepts SSH key creation request, creates and returns an TB
sshKey object (sshkey.go, lines 81-238).  The message of
`fmt.Errorf(string(resp.Body()))` is taken to be the body. -/
def CreateSshKey (env : Env) (store : Store) (nsId : String) (u : TbSshKeyReq) :
    Run TbSshKeyInfo :=
  match env.CheckString nsId with
  | some err => ⟨Outcome.returned {} (some err), store, []⟩
  | none =>
  match env.validateSshKeyReq u with
  | some err => ⟨Outcome.returned {} (some err), store, []⟩
  | none =>
  if (env.CheckResource store nsId env.StrSSHKey u.Name).1 then
    ⟨Outcome.returned {} (some ("The sshKey " ++ u.Name ++ " already exists.")), store, []⟩
  else if (env.CheckResource store nsId env.StrSSHKey u.Name).2.isSome then
    ⟨Outcome.returned {}
      (some ("Failed to check the existence of the sshKey " ++ u.Name ++ ".")), store, []⟩
  else
  let tempReq := keyPairReq u
  if env.Getenv "SPIDER_CALL_METHOD" = "REST" then
    let url := env.SpiderRestUrl ++ "/keypair"
    let trace := [Event.restKeyPair "POST" url tempReq]
    match (env.restKeyPair "POST" url tempReq).err with
    | some _ =>
      ⟨Outcome.returned {} (some "an error occurred while requesting to CB-Spider"),
        store, trace⟩
    | none =>
      match (env.restKeyPair "POST" url tempReq).resp with
      | none => ⟨Outcome.panicked, store, trace⟩
      | some resp =>
        if resp.statusCode ≥ 400 ∨ resp.statusCode < 200 then
          ⟨Outcome.returned {} (some resp.body), store, trace⟩
        else
          storeSshKey env store nsId u resp.result trace []
  else
    let path := env.Getenv "CBTUMBLEBUG_ROOT" ++ "/conf/grpc_conf.yaml"
    match env.SetConfigPath path with
    | some err => ⟨Outcome.returned {} (some err), store, [Event.rpcSetConfigPath path]⟩
    | none =>
    match env.Open with
    | some err =>
      ⟨Outcome.returned {} (some err), store, [Event.rpcSetConfigPath path, Event.rpcOpen]⟩
    | none =>
    let payload := env.marshalKeyPairReq tempReq
    let trace := [Event.rpcSetConfigPath path, Event.rpcOpen, Event.rpcCall "CreateKey" payload]
    match env.rpc "CreateKey" payload with
    | .error err => ⟨Outcome.returned {} (some err), store, trace ++ [Event.rpcClose]⟩
    | .ok result =>
      match env.unmarshalKeyPairInfo result with
      | .error err => ⟨Outcome.returned {} (some err), store, trace ++ [Event.rpcClose]⟩
      | .ok none => ⟨Outcome.panicked, store, trace ++ [Event.rpcClose]⟩
      | .ok (some tempSpiderKeyPairInfo) =>
        storeSshKey env store nsId u tempSpiderKeyPairInfo trace [Event.rpcClose]

/-! ## `securitygroup.go`: `CreateSecurityGroup` -/

/-- Lines 213-217: the loop over the vNet records that assigns `u.VNetId`. -/
def assignVNetId (vNets : List TbVNetInfo) (connectionName vNetId : String) : String :=
  vNets.foldl (fun id r => if r.ConnectionName = connectionName then r.Id else id) vNetId

/-- Lines 239-254: each firewall rule of the request is carried over to a
`SpiderSecurityRuleInfo` through JSON; both structs have the same five
untagged string fields. -/
def toSpiderRule (v : TbFirewallRuleInfo) : SpiderSecurityRuleInfo :=
  { FromPort := v.FromPort, ToPort := v.ToPort, IPProtocol := v.IPProtocol,
    Direction := v.Direction, CIDR := v.CIDR }

/-- Line 356: the conversion `TbFirewallRuleInfo(v)`. -/
def toTbRule (v : SpiderSecurityRuleInfo) : TbFirewallRuleInfo :=
  { FromPort := v.FromPort, ToPort := v.ToPort, IPProtocol := v.IPProtocol,
    Direction := v.Direction, CIDR := v.CIDR }

/-- Lines 342-365 of `CreateSecurityGroup`: the record built from the request
and the driver response, with its `SystemLabel`. -/
def securityGroupContent (u : TbSecurityGroupReq) (option : String)
    (tempSpiderSecurityInfo : SpiderSecurityInfo) : TbSecurityGroupInfo :=
  { Id := u.Name
    Name := u.Name
    ConnectionName := u.ConnectionName
    VNetId := tempSpiderSecurityInfo.VpcIID.NameId
    CspSecurityGroupId := tempSpiderSecurityInfo.IId.SystemId
    CspSecurityGroupName := tempSpiderSecurityInfo.IId.NameId
    Description := u.Description
    KeyValueList := tempSpiderSecurityInfo.KeyValueList
    AssociatedObjectList := []
    FirewallRules := tempSpiderSecurityInfo.SecurityRules.map toTbRule
    SystemLabel :=
      if option = "register" ∧ u.CspSecurityGroupId = "" then
        "Registered from CB-Spider resource"
      else if option = "register" ∧ u.CspSecurityGroupId ≠ "" then
        "Registered from CSP resource"
      else "" }

/-- Lines 342-388 of `CreateSecurityGroup`: the record is built, written to the
store and read back; line 385 reads through the pointer `CBStore.Get`
returned.  `trace` and `deferred` as in `storeSshKey`. -/
def storeSecurityGroup (env : Env) (store : Store) (nsId : String) (u : TbSecurityGroupReq)
    (option : String) (tempSpiderSecurityInfo : SpiderSecurityInfo)
    (trace deferred : List Event) : Run TbSecurityGroupInfo :=
  let content := securityGroupContent u option tempSpiderSecurityInfo
  let Key := env.GenResourceKey nsId env.StrSecurityGroup content.Id
  let Val := env.marshalSecurityGroupInfo content
  match env.Put store Key Val with
  | some err =>
    ⟨Outcome.returned content (some err), store, trace ++ [Event.storePut Key Val] ++ deferred⟩
  | none =>
    let store1 := store.put Key Val
    let trace1 := trace ++ [Event.storePut Key Val, Event.storeGet Key]
    match (env.Get store1 Key).1 with
    | none => ⟨Outcome.panicked, store1, trace1 ++ deferred⟩
    | some _ => ⟨Outcome.returned content none, store1, trace1 ++ deferred⟩

/-- Lines 232-254 of `CreateSecurityGroup`: the wrapper sent to the driver. -/
def securityReq (nsId : String) (u : TbSecurityGroupReq) (vNetInfo : TbVNetInfo) :
    SpiderSecurityReqInfoWrapper :=
  { ConnectionName := u.ConnectionName
    ReqInfo :=
      { Name := nsId ++ "-" ++ u.Name
        VPCName := vNetInfo.CspVNetName
        CSPId := u.CspSecurityGroupId
        SecurityRules :=
          match u.FirewallRules with
          | none => []
          | some rules => rules.map toSpiderRule } }

/-- Lines 272-282: the HTTP method of the REST request (`req.Get` in the first
branch, `req.Post` in the other two). -/
def securityRestMethod (u : TbSecurityGroupReq) (option : String) : String :=
  if option = "register" ∧ u.CspSecurityGroupId = "" then "GET"
  else if option = "register" ∧ u.CspSecurityGroupId ≠ "" then "POST"
  else "POST"

/-- Lines 272-282: the url of the REST request. -/
def securityRestUrl (env : Env) (u : TbSecurityGroupReq) (option : String) : String :=
  if option = "register" ∧ u.CspSecurityGroupId = "" then
    env.SpiderRestUrl ++ "/securitygroup/" ++ u.Name
  else if option = "register" ∧ u.CspSecurityGroupId ≠ "" then
    env.SpiderRestUrl ++ "/regsecuritygroup"
  else
    env.SpiderRestUrl ++ "/securitygroup"

/-- Lines 323-327: the method called on the RPC handle. -/
def securityRpcVerb (option : String) : String :=
  if option = "register" then "CreateVPC" else "GetVPC"

/-- Lines 232-340 of `CreateSecurityGroup`: the driver request is built from
the request and the vNet record and sent over the transport selected by
`SPIDER_CALL_METHOD`. -/
def callSecurityDriver (env : Env) (store : Store) (nsId : String) (u : TbSecurityGroupReq)
    (option : String) (vNetInfo : TbVNetInfo) : Run TbSecurityGroupInfo :=
  let tempReq := securityReq nsId u vNetInfo
  if env.Getenv "SPIDER_CALL_METHOD" = "REST" then
    let method := securityRestMethod u option
    let url := securityRestUrl env u option
    let trace := [Event.restSecurity method url tempReq]
    match (env.restSecurity method url tempReq).err with
    | some _ =>
      ⟨Outcome.returned {} (some "an error occurred while requesting to CB-Spider"),
        store, trace⟩
    | none =>
      match (env.restSecurity method url tempReq).resp with
      | none => ⟨Outcome.panicked, store, trace⟩
      | some resp =>
        if resp.statusCode ≥ 400 ∨ resp.statusCode < 200 then
          ⟨Outcome.returned {} (some resp.body), store, trace⟩
        else
          storeSecurityGroup env store nsId u option resp.result trace []
  else
    let path := env.Getenv "CBTUMBLEBUG_ROOT" ++ "/conf/grpc_conf.yaml"
    match env.SetConfigPath path with
    | some err => ⟨Outcome.returned {} (some err), store, [Event.rpcSetConfigPath path]⟩
    | none =>
    match env.Open with
    | some err =>
      ⟨Outcome.returned {} (some err), store, [Event.rpcSetConfigPath path, Event.rpcOpen]⟩
    | none =>
    let payload := env.marshalSecurityReq tempReq
    let verb := securityRpcVerb option
    let trace := [Event.rpcSetConfigPath path, Event.rpcOpen, Event.rpcCall verb payload]
    match env.rpc verb payload with
    | .error err => ⟨Outcome.returned {} (some err), store, trace ++ [Event.rpcClose]⟩
    | .ok result =>
      match env.unmarshalSecurityInfo result with
      | .error err => ⟨Outcome.returned {} (some err), store, trace ++ [Event.rpcClose]⟩
      | .ok none => ⟨Outcome.panicked, store, trace ++ [Event.rpcClose]⟩
      | .ok (some tempSpiderSecurityInfo) =>
        storeSecurityGroup env store nsId u option tempSpiderSecurityInfo trace [Event.rpcClose]

/-- Lines 220-230 of `CreateSecurityGroup`: the vNet record named by `u.VNetId`
is fetched; then the driver is called. -/
def resolveVNet (env : Env) (store : Store) (nsId : String) (u : TbSecurityGroupReq)
    (option : String) : Run TbSecurityGroupInfo :=
  match env.GetResource store nsId env.StrVNet u.VNetId with
  | .error _ =>
    ⟨Outcome.returned {} (some ("Failed to get the TbVNetInfo " ++ u.VNetId ++ ".")), store, []⟩
  | .ok tempInterface =>
    match env.CopySrcToDest tempInterface with
    | .error _ =>
      ⟨Outcome.returned {}
        (some ("Failed to get the TbVNetInfo-CopySrcToDest() " ++ u.VNetId ++ ".")), store, []⟩
    | .ok vNetInfo => callSecurityDriver env store nsId u option vNetInfo

/-- CreateSecurityGroup accepts SG creation request, creates and returns an TB
SG object (securitygroup.go, lines 127-388). -/
def CreateSecurityGroup (env : Env) (store : Store) (nsId : String) (u : TbSecurityGroupReq)
    (option : String) : Run TbSecurityGroupInfo :=
  match env.CheckString nsId with
  | some err => ⟨Outcome.returned {} (some err), store, []⟩
  | none =>
  match (if option ≠ "register" then env.validateFirewallRules u.FirewallRules else none) with
  | some err => ⟨Outcome.returned {} (some err), store, []⟩
  | none =>
  match env.validateSecurityGroupReq u with
  | some err => ⟨Outcome.returned {} (some err), store, []⟩
  | none =>
  if (env.CheckResource store nsId env.StrSecurityGroup u.Name).1 then
    ⟨Outcome.returned {} (some ("The securityGroup " ++ u.Name ++ " already exists.")),
      store, []⟩
  else if (env.CheckResource store nsId env.StrSecurityGroup u.Name).2.isSome then
    ⟨Outcome.returned {} (some "Cannot create securityGroup"), store, []⟩
  else if option = "register" ∧ u.VNetId = "not defined" then
    match env.ListResource store nsId env.StrVNet with
    | .error _ =>
      ⟨Outcome.returned {} (some "Cannot list vNet Ids for securityGroup"), store, []⟩
    | .ok vNets =>
      if vNets.length = 0 then
        ⟨Outcome.returned {} (some ("There is no " ++ env.StrVNet ++ " resource in " ++ nsId)),
          store, []⟩
      else
        resolveVNet env store nsId
          { u with VNetId := assignVNetId vNets u.ConnectionName u.VNetId } option
  else
    resolveVNet env store nsId u option

end mcir

end Tumblebug

namespace Tumblebug

namespace infra

open common (IID KeyValue Store Outcome RestResponse RestResult)

/-! ## `snapshot.go`: `CreateVmSnapshot` -/

/-- Modelled from the spec: the type `model.TbVmInfo` (its declaration is not
among the sources), with the fields `CreateVmSnapshot` reads: the connection
binding and the name identifier `CspViewVmDetail.IId.NameId` of the VM. -/
structure TbVmInfo where
  ConnectionName : String := ""
  CspViewVmDetailIId : IID := {}
deriving DecidableEq, Repr

/-- Modelled from the spec: the type `model.SpiderMyImageReq` (its declaration
is not among the sources), as the literal on lines 48-57 fills it. -/
structure SpiderMyImageReq where
  ConnectionName : String := ""
  Name : String := ""
  SourceVM : String := ""
deriving DecidableEq, Repr

/-- Modelled from the spec: the type `model.SpiderMyImageInfo` (its declaration
is not among the sources), with the fields read on lines 100-106. -/
structure SpiderMyImageInfo where
  IId : IID := {}
  CreatedTime : String := ""
  Status : String := ""
  KeyValueList : List KeyValue := []
deriving DecidableEq, Repr

/-- Modelled from the spec: the type `model.TbCustomImageInfo` (its declaration
is not among the sources), with the fields of the literal on lines 94-110. -/
structure TbCustomImageInfo where
  Namespace : String := ""
  Id : String := ""
  Name : String := ""
  ConnectionName : String := ""
  SourceVmId : String := ""
  CspCustomImageId : String := ""
  CspCustomImageName : String := ""
  Description : String := ""
  CreationDate : String := ""
  GuestOS : String := ""
  Status : String := ""
  KeyValueList : List KeyValue := []
  AssociatedObjectList : List String := []
  IsAutoGenerated : Bool := false
  SystemLabel : String := ""
deriving DecidableEq, Repr

/-- Outward actions of `CreateVmSnapshot`: the request to the driver and the
call that registers (persists) the custom image. -/
inductive Event where
  | restMyImage (method url : String) (body : SpiderMyImageReq)
  | registerCustomImage (nsId : String) (content : TbCustomImageInfo)
deriving DecidableEq, Repr

/-- Everything observable after one `CreateVmSnapshot` call. -/
structure Run where
  ret : Outcome TbCustomImageInfo
  store : Store
  trace : List Event

/-- What `CreateVmSnapshot` obtains from outside itself. -/
structure Env where
  /-- The variable `model.SpiderRestUrl`. -/
  SpiderRestUrl : String
  /-- The function `common.GenMciKey(nsId, mciId, vmId)`. -/
  GenMciKey : String → String → String → String
  /-- The function `kvstore.GetKv(key)`: the key/value pair and the error. -/
  GetKv : Store → String → KeyValue × Option String
  /-- The call `json.Unmarshal([]byte(keyValue.Value), &vm)` on a zero
  `TbVmInfo`; its error is dropped on line 42. -/
  unmarshalVm : String → TbVmInfo
  /-- The function `common.GenUid()`. -/
  GenUid : String
  /-- The driver behind `POST /myimage`. -/
  restMyImage : String → String → SpiderMyImageReq → RestResult SpiderMyImageInfo
  /-- The function `resource.RegisterCustomImageWithInfo(nsId, content)`: the
  record and error it returns, and the store it leaves. -/
  RegisterCustomImageWithInfo :
    Store → String → TbCustomImageInfo → TbCustomImageInfo × Option String × Store

/-- CreateVmSnapshot is func to create VM snapshot (snapshot.go, lines 30-148).
The error of `req.Post(url)` on line 81 is assigned and not inspected; the
message of `fmt.Errorf(string(resp.Body()))` is taken to be the body. -/
def CreateVmSnapshot (env : Env) (store : Store) (nsId mciId vmId snapshotName : String) :
    Run :=
  let vmKey := env.GenMciKey nsId mciId vmId
  let keyValue := (env.GetKv store vmKey).1
  if keyValue = {} ∨ (env.GetKv store vmKey).2.isSome then
    ⟨Outcome.returned {}
      (some ("Failed to find 'ns/mci/vm': " ++ nsId ++ "/" ++ mciId ++ "/" ++ vmId ++ " \n")),
      store, []⟩
  else
  let vm := env.unmarshalVm keyValue.Value
  let snapshotName := if snapshotName = "" then env.GenUid else snapshotName
  let requestBody : SpiderMyImageReq :=
    { ConnectionName := vm.ConnectionName
      Name := snapshotName
      SourceVM := vm.CspViewVmDetailIId.NameId }
  let url := env.SpiderRestUrl ++ "/myimage"
  let trace := [Event.restMyImage "POST" url requestBody]
  match (env.restMyImage "POST" url requestBody).resp with
  | none => ⟨Outcome.panicked, store, trace⟩
  | some resp =>
    if resp.statusCode ≥ 400 ∨ resp.statusCode < 200 then
      ⟨Outcome.returned {} (some resp.body), store, trace⟩
    else
      let tempSpiderMyImageInfo := resp.result
      let tempTbCustomImageInfo : TbCustomImageInfo :=
        { Namespace := nsId
          Id := ""
          Name := snapshotName
          ConnectionName := vm.ConnectionName
          SourceVmId := vmId
          CspCustomImageId := tempSpiderMyImageInfo.IId.SystemId
          CspCustomImageName := tempSpiderMyImageInfo.IId.NameId
          Description := ""
          CreationDate := tempSpiderMyImageInfo.CreatedTime
          GuestOS := ""
          Status := tempSpiderMyImageInfo.Status
          KeyValueList := tempSpiderMyImageInfo.KeyValueList
          AssociatedObjectList := []
          IsAutoGenerated := false
          SystemLabel := "" }
      let registered := env.RegisterCustomImageWithInfo store nsId tempTbCustomImageInfo
      let trace1 := trace ++ [Event.registerCustomImage nsId tempTbCustomImageInfo]
      match registered.2.1 with
      | some _ =>
        ⟨Outcome.returned {}
          (some ("Failed to find 'ns/mci/vm': " ++ nsId ++ "/" ++ mciId ++ "/" ++ vmId ++ " \n")),
          registered.2.2, trace1⟩
      | none => ⟨Outcome.returned registered.1 none, registered.2.2, trace1⟩

/-- Modelled from the spec: `resource.RegisterCustomImageWithInfo` (package
resource, not among the sources), after section 4.3 of the spec: the `Id` is
assigned (here from the name), an existing record under the same key is a
conflict, and otherwise the serialized record is written to the store under
the key of namespace, kind and id and returned. -/
def RegisterCustomImageWithInfo (genResourceKey : String → String → String → String)
    (marshal : TbCustomImageInfo → String) (store : Store) (nsId : String)
    (content : TbCustomImageInfo) : TbCustomImageInfo × Option String × Store :=
  let content1 := { content with Namespace := nsId, Id := content.Name }
  let Key := genResourceKey nsId "customImage" content1.Id
  match store Key with
  | some _ => ({}, some ("The customImage " ++ content1.Id ++ " already exists."), store)
  | none => (content1, none, store.put Key (marshal content1))

end infra

end Tumblebug

namespace Tumblebug

/-! ## Sample environments

Concrete collaborators on which the code is evaluated. -/

namespace common

/-- The key store with no record. -/
def Store.empty : Store := fun _ => none

end common

namespace mcir

open common (IID KeyValue Store Outcome RestResponse RestResult)

/-- A driver and a key store that always answer: every validation passes, a
resource exists when the store holds its key, the namespace has the one vNet
`vnet01` on connection `conn01`, the driver answers 200 over REST and echoes
over RPC, and the store accepts every write.  `callMethod` is the value of
`SPIDER_CALL_METHOD`. -/
def sampleEnv (callMethod : String) : Env where
  StrSSHKey := "sshKey"
  StrSecurityGroup := "securityGroup"
  StrVNet := "vNet"
  SpiderRestUrl := "http://localhost:1024/spider"
  Getenv := fun name => if name = "SPIDER_CALL_METHOD" then callMethod else "/tb"
  CheckString := fun _ => none
  validateSshKeyReq := fun _ => none
  validateFirewallRules := fun _ => none
  validateSecurityGroupReq := fun _ => none
  CheckResource := fun store nsId resourceType resourceId =>
    ((store ("/ns/" ++ nsId ++ "/resources/" ++ resourceType ++ "/" ++ resourceId)).isSome, none)
  ListResource := fun _ _ _ => .ok [{ Id := "vnet01", ConnectionName := "conn01",
                                      CspVNetName := "ns01-vnet01" }]
  GetResource := fun _ _ _ resourceId => .ok resourceId
  CopySrcToDest := fun resourceId =>
    .ok { Id := resourceId, ConnectionName := "conn01", CspVNetName := "ns01-" ++ resourceId }
  GenResourceKey := fun nsId resourceType resourceId =>
    "/ns/" ++ nsId ++ "/resources/" ++ resourceType ++ "/" ++ resourceId
  restKeyPair := fun _ _ req =>
    { resp := some { statusCode := 200, body := "",
                     result := { IId := { NameId := req.ReqInfo.Name, SystemId := "key-0001" } } },
      err := none }
  restSecurity := fun _ _ req =>
    { resp := some { statusCode := 200, body := "",
                     result := { IId := { NameId := req.ReqInfo.Name, SystemId := "sg-0001" } } },
      err := none }
  SetConfigPath := fun _ => none
  Open := none
  rpc := fun _ payload => .ok payload
  marshalKeyPairReq := fun req => req.ReqInfo.Name
  marshalSecurityReq := fun req => req.ReqInfo.Name
  unmarshalKeyPairInfo := fun s => .ok (some { IId := { NameId := s, SystemId := "key-0001" } })
  unmarshalSecurityInfo := fun s => .ok (some { IId := { NameId := s, SystemId := "sg-0001" } })
  marshalSshKeyInfo := fun content => content.Id
  marshalSecurityGroupInfo := fun content => content.Id
  Put := fun _ _ _ => none
  Get := fun store key => ((store key).map (fun v => { Key := key, Value := v }), none)

/-! ## Predicates used in the statements -/

/-- The driver invocation of `CreateSshKey` fails: over REST a transport error
or a status outside [200,400); over RPC an error of `CreateKey` or a payload
that does not decode. -/
def keyPairDriverFails (env : Env) (u : TbSshKeyReq) : Prop :=
  if env.Getenv "SPIDER_CALL_METHOD" = "REST" then
    (env.restKeyPair "POST" (env.SpiderRestUrl ++ "/keypair") (keyPairReq u)).err ≠ none ∨
    ∃ resp, (env.restKeyPair "POST" (env.SpiderRestUrl ++ "/keypair") (keyPairReq u)).resp
        = some resp ∧ (resp.statusCode ≥ 400 ∨ resp.statusCode < 200)
  else
    (∃ e, env.rpc "CreateKey" (env.marshalKeyPairReq (keyPairReq u)) = .error e) ∨
    ∃ r e, env.rpc "CreateKey" (env.marshalKeyPairReq (keyPairReq u)) = .ok r ∧
      env.unmarshalKeyPairInfo r = .error e

/-- No store write among the actions. -/
def noStorePut (trace : List Event) : Prop := ∀ k v, Event.storePut k v ∉ trace

/-- The call ended by returning a non-nil error. -/
def returnedError {α : Type} (ret : Outcome α) : Prop := ∃ v e, ret = Outcome.returned v (some e)

/-- The driver invocation of `CreateSecurityGroup` fails, for the request `u`
and vNet record it is made with. -/
def securityDriverFails (env : Env) (nsId : String) (u : TbSecurityGroupReq) (option : String)
    (vNetInfo : TbVNetInfo) : Prop :=
  if env.Getenv "SPIDER_CALL_METHOD" = "REST" then
    (env.restSecurity (securityRestMethod u option) (securityRestUrl env u option)
      (securityReq nsId u vNetInfo)).err ≠ none ∨
    ∃ resp, (env.restSecurity (securityRestMethod u option) (securityRestUrl env u option)
      (securityReq nsId u vNetInfo)).resp = some resp ∧
        (resp.statusCode ≥ 400 ∨ resp.statusCode < 200)
  else
    (∃ e, env.rpc (securityRpcVerb option) (env.marshalSecurityReq (securityReq nsId u vNetInfo))
      = .error e) ∨
    ∃ r e, env.rpc (securityRpcVerb option) (env.marshalSecurityReq (securityReq nsId u vNetInfo))
      = .ok r ∧ env.unmarshalSecurityInfo r = .error e

/-- The request as lines 191-218 of `CreateSecurityGroup` leave it. -/
def resolvedReq (env : Env) (store : Store) (nsId : String) (u : TbSecurityGroupReq)
    (option : String) : TbSecurityGroupReq :=
  if option = "register" ∧ u.VNetId = "not defined" then
    match env.ListResource store nsId env.StrVNet with
    | .error _ => u
    | .ok vNets => { u with VNetId := assignVNetId vNets u.ConnectionName u.VNetId }
  else u

end mcir

namespace infra

open common (IID KeyValue Store Outcome RestResponse RestResult)

/-- A key store holding the record of VM `vm01` of `mci01` in `ns01`. -/
def vmStore : Store := common.Store.empty.put "/ns/ns01/mci/mci01/vm/vm01" "vm01-json"

/-- An environment in which `POST /myimage` ends in a redirect loop: resty
hands back the last 302 response together with the error of the HTTP client.
The custom image is registered as the spec describes. -/
def redirectEnv : Env where
  SpiderRestUrl := "http://localhost:1024/spider"
  GenMciKey := fun nsId mciId vmId => "/ns/" ++ nsId ++ "/mci/" ++ mciId ++ "/vm/" ++ vmId
  GetKv := fun store key =>
    (match store key with
      | some v => { Key := key, Value := v }
      | none => {}, none)
  unmarshalVm := fun _ =>
    { ConnectionName := "conn01", CspViewVmDetailIId := { NameId := "vm01", SystemId := "i-01" } }
  GenUid := "uid"
  restMyImage := fun _ _ _ =>
    { resp := some { statusCode := 302, body := "", result := {} },
      err := some "stopped after 10 redirects" }
  RegisterCustomImageWithInfo :=
    RegisterCustomImageWithInfo
      (fun nsId resourceType resourceId =>
        "/ns/" ++ nsId ++ "/resources/" ++ resourceType ++ "/" ++ resourceId)
      (fun content => content.Id)

end infra

end Tumblebug

namespace Tumblebug

namespace common

/-! ## `client.go`: the request ledger -/

/-- RequestDetails struct for request details (client.go, lines 161-168).
`RequestData` and `ResponseData` are interface values (`none` is nil), the
times are instants with 0 for the zero `time.Time`, `ErrorResponse` is the
error (`none` is nil). -/
structure RequestDetails (Req Resp : Type) where
  StartTime : Int := 0
  EndTime : Int := 0
  Status : String := ""
  RequestData : Option Req := none
  ResponseData : Option Resp := none
  ErrorResponse : Option String := none
deriving DecidableEq, Repr

/-- RequestMap is a map for request details (line 171), seen at the one value
type the assertion `v.(RequestDetails)` on line 188 expects. -/
abbrev RequestMap (Req Resp : Type) := String → Option (RequestDetails Req Resp)

/-- Effect of `RequestMap.Store(reqID, details)`. -/
def RequestMap.Store {Req Resp : Type} (m : RequestMap Req Resp) (reqID : String)
    (details : RequestDetails Req Resp) : RequestMap Req Resp :=
  fun k => if k = reqID then some details else m k

/-- StartRequest func is to start a request (lines 174-183).  `unixNano` is
`time.Now().UnixNano()` on line 175, `now` is `time.Now()` on line 177,
`request` is `c.Request()`.  The result is the returned id and the map. -/
def StartRequest {Req Resp : Type} (m : RequestMap Req Resp) (unixNano now : Int)
    (request : Req) : String × RequestMap Req Resp :=
  let reqID := toString unixNano
  let details : RequestDetails Req Resp :=
    { StartTime := now, Status := "Handling", RequestData := some request }
  (reqID, m.Store reqID details)

/-- The body handed to `c.JSON`: a map with the one key `message`, or the
response data. -/
inductive JsonBody (Resp : Type) where
  | message (text : String)
  | data (responseData : Option Resp)
deriving DecidableEq, Repr

/-- What `EndRequest` leaves: the map, the status code and body given to
`c.JSON`, and the value of the response header `X-Request-ID` when set. -/
structure Ended (Req Resp : Type) where
  requestMap : RequestMap Req Resp
  code : Nat
  body : JsonBody Resp
  header : Option String

/-- EndRequest func is to end a request (lines 186-205).  `now` is
`time.Now()` on line 189. -/
def EndRequest {Req Resp : Type} (m : RequestMap Req Resp) (now : Int) (reqID : String)
    (err : Option String) (responseData : Option Resp) : Ended Req Resp :=
  match m reqID with
  | some v =>
    let details := { v with EndTime := now }
    match err with
    | some e =>
      let details1 := { details with Status := "Error", ErrorResponse := some e }
      ⟨m.Store reqID details1, 500, JsonBody.message e, some reqID⟩
    | none =>
      let details1 := { details with Status := "Success", ResponseData := responseData }
      ⟨m.Store reqID details1, 200, JsonBody.data responseData, some reqID⟩
  | none => ⟨m, 500, JsonBody.message "Invalid Request ID", none⟩

/-- The three status values of a request record. -/
def validStatus (status : String) : Prop :=
  status = "Handling" ∨ status = "Success" ∨ status = "Error"

/-- Every record of the map has one of the three status values. -/
def RequestMap.wellFormed {Req Resp : Type} (m : RequestMap Req Resp) : Prop :=
  ∀ reqID details, m reqID = some details → validStatus details.Status

end common

namespace rest

/-! ## `control.go`: the control handlers -/

/-- The part of `echo.Context` the control handlers read: path parameters and
the query string.  `query name` is `none` when the query has no parameter
`name`. -/
structure Context where
  Param : String → String
  query : String → Option String

/-- The method `QueryParam` of `echo.Context`: the value of the parameter, the
empty string when it is absent. -/
def Context.QueryParam (c : Context) (name : String) : String :=
  (c.query name).getD ""

/-- The functions of package `src/core/mcis` the handlers call; each returns
`(result, err)`. -/
structure Core where
  /-- The function `mcis.HandleMcisAction(nsId, mcisId, action, force)`. -/
  HandleMcisAction : String → String → String → Bool → Except String String
  /-- The function `mcis.CoreGetMcisVmAction(nsId, mcisId, vmId, action)`. -/
  CoreGetMcisVmAction : String → String → String → String → Except String String

/-- Calls into the core made by a handler, with their arguments. -/
inductive Call where
  | handleMcisAction (nsId mcisId action : String) (force : Bool)
  | coreGetMcisVmAction (nsId mcisId vmId action : String)
deriving DecidableEq, Repr

/-- What a handler leaves: the status code and the `message` of the JSON map
given to `c.JSON`, and the calls it made into the core. -/
structure Handled where
  code : Nat
  message : String
  calls : List Call
deriving DecidableEq, Repr

/-- RestGetControlMcis: control the lifecycle of MCIS (control.go, lines 40-66). -/
def RestGetControlMcis (core : Core) (c : Context) : Handled :=
  let nsId := c.Param "nsId"
  let mcisId := c.Param "mcisId"
  let action := c.QueryParam "action"
  let force := c.QueryParam "force"
  let forceOption := if force = "true" then true else false
  if action = "suspend" ∨ action = "resume" ∨ action = "reboot" ∨ action = "terminate"
      ∨ action = "refine" then
    match core.HandleMcisAction nsId mcisId action forceOption with
    | .error err => ⟨500, err, [Call.handleMcisAction nsId mcisId action forceOption]⟩
    | .ok result => ⟨200, result, [Call.handleMcisAction nsId mcisId action forceOption]⟩
  else
    ⟨400, "'action' should be one of these: suspend, resume, reboot, terminate, refine", []⟩

/-- RestGetControlMcisVm: control the lifecycle of VM (control.go, lines 82-105). -/
def RestGetControlMcisVm (core : Core) (c : Context) : Handled :=
  let nsId := c.Param "nsId"
  let mcisId := c.Param "mcisId"
  let vmId := c.Param "vmId"
  let action := c.QueryParam "action"
  if action = "suspend" ∨ action = "resume" ∨ action = "reboot" ∨ action = "terminate" then
    match core.CoreGetMcisVmAction nsId mcisId vmId action with
    | .error err => ⟨500, err, [Call.coreGetMcisVmAction nsId mcisId vmId action]⟩
    | .ok result => ⟨200, result, [Call.coreGetMcisVmAction nsId mcisId vmId action]⟩
  else
    ⟨400, "'action' should be one of these: suspend, resume, reboot, terminate", []⟩

/-- Modelled from the spec: the dispatcher of section 4.4 for one VM, which is
not among the sources (package `src/core/mcis`).  With `force` false the
action needs its precondition on the recorded status and otherwise fails
without a driver call; with `force` true, or when the precondition holds, the
action is sent to the driver once.  `precondition status action` says whether
the precondition holds.  The result is the outcome and the number of driver
calls. -/
def dispatch (precondition : String → String → Bool) (recorded action : String)
    (force : Bool) : Except String String × Nat :=
  if force = false ∧ precondition recorded action = false then
    (.error ("The VM is " ++ recorded ++ ": cannot " ++ action), 0)
  else
    (.ok ("The action has been sent: " ++ action), 1)

/-- Modelled from the spec: the precondition of the concrete scenario of
section 8, a VM recorded as `Terminated` cannot be terminated again. -/
def notTerminatedTwice (recorded action : String) : Bool :=
  !(recorded = "Terminated" ∧ action = "terminate")

/-- Modelled from the spec: a core in which every VM is recorded as
`Terminated`.  `CoreGetMcisVmAction` takes no force flag, so it dispatches with
the default `force=false`; `HandleMcisAction` dispatches with the flag it is
given. -/
def terminatedCore : Core where
  HandleMcisAction := fun _ _ action force =>
    (dispatch notTerminatedTwice "Terminated" action force).1
  CoreGetMcisVmAction := fun _ _ _ action =>
    (dispatch notTerminatedTwice "Terminated" action false).1

/-- The request `GET /ns/ns01/control/mcis/mcis01/vm/vm01` with the given query
parameters `action` and `force`. -/
def controlRequest (action : String) (force : Option String) : Context where
  Param := fun name =>
    if name = "nsId" then "ns01" else if name = "mcisId" then "mcis01"
    else if name = "vmId" then "vm01" else ""
  query := fun name =>
    if name = "action" then some action else if name = "force" then force else none

end rest

namespace mcir

open common (IID KeyValue Store Outcome RestResponse RestResult)

/-! ## Further predicates and sample environments -/

/-- The driver answered the request of `CreateSshKey` with `d`: over REST a
response without transport error and with a status in [200,400) whose result
is `d`; over RPC a payload of `CreateKey` that decodes to `d`. -/
def keyPairDriverAnswer (env : Env) (u : TbSshKeyReq) (d : SpiderKeyPairInfo) : Prop :=
  if env.Getenv "SPIDER_CALL_METHOD" = "REST" then
    (env.restKeyPair "POST" (env.SpiderRestUrl ++ "/keypair") (keyPairReq u)).err = none ∧
    ∃ resp, (env.restKeyPair "POST" (env.SpiderRestUrl ++ "/keypair") (keyPairReq u)).resp
        = some resp ∧ ¬ (resp.statusCode ≥ 400 ∨ resp.statusCode < 200) ∧ resp.result = d
  else
    env.SetConfigPath (env.Getenv "CBTUMBLEBUG_ROOT" ++ "/conf/grpc_conf.yaml") = none ∧
    env.Open = none ∧
    ∃ r, env.rpc "CreateKey" (env.marshalKeyPairReq (keyPairReq u)) = .ok r ∧
      env.unmarshalKeyPairInfo r = .ok (some d)

/-- The driver answered the request of `CreateSecurityGroup` with `d`, for the
request `u` and vNet record the call is made with. -/
def securityDriverAnswer (env : Env) (nsId : String) (u : TbSecurityGroupReq) (option : String)
    (vNetInfo : TbVNetInfo) (d : SpiderSecurityInfo) : Prop :=
  if env.Getenv "SPIDER_CALL_METHOD" = "REST" then
    (env.restSecurity (securityRestMethod u option) (securityRestUrl env u option)
      (securityReq nsId u vNetInfo)).err = none ∧
    ∃ resp, (env.restSecurity (securityRestMethod u option) (securityRestUrl env u option)
      (securityReq nsId u vNetInfo)).resp = some resp ∧
        ¬ (resp.statusCode ≥ 400 ∨ resp.statusCode < 200) ∧ resp.result = d
  else
    env.SetConfigPath (env.Getenv "CBTUMBLEBUG_ROOT" ++ "/conf/grpc_conf.yaml") = none ∧
    env.Open = none ∧
    ∃ r, env.rpc (securityRpcVerb option) (env.marshalSecurityReq (securityReq nsId u vNetInfo))
      = .ok r ∧ env.unmarshalSecurityInfo r = .ok (some d)

/-- Lines 139-238 of `CreateSshKey` on their own: the driver request is sent
over the transport selected by `SPIDER_CALL_METHOD` and the answer is
persisted.  `CreateSshKey` is this step once its checks have passed. -/
def callKeyPairDriver (env : Env) (store : Store) (nsId : String) (u : TbSshKeyReq) :
    Run TbSshKeyInfo :=
  let tempReq := keyPairReq u
  if env.Getenv "SPIDER_CALL_METHOD" = "REST" then
    let url := env.SpiderRestUrl ++ "/keypair"
    let trace := [Event.restKeyPair "POST" url tempReq]
    match (env.restKeyPair "POST" url tempReq).err with
    | some _ =>
      ⟨Outcome.returned {} (some "an error occurred while requesting to CB-Spider"),
        store, trace⟩
    | none =>
      match (env.restKeyPair "POST" url tempReq).resp with
      | none => ⟨Outcome.panicked, store, trace⟩
      | some resp =>
        if resp.statusCode ≥ 400 ∨ resp.statusCode < 200 then
          ⟨Outcome.returned {} (some resp.body), store, trace⟩
        else
          storeSshKey env store nsId u resp.result trace []
  else
    let path := env.Getenv "CBTUMBLEBUG_ROOT" ++ "/conf/grpc_conf.yaml"
    match env.SetConfigPath path with
    | some err => ⟨Outcome.returned {} (some err), store, [Event.rpcSetConfigPath path]⟩
    | none =>
    match env.Open with
    | some err =>
      ⟨Outcome.returned {} (some err), store, [Event.rpcSetConfigPath path, Event.rpcOpen]⟩
    | none =>
    let payload := env.marshalKeyPairReq tempReq
    let trace := [Event.rpcSetConfigPath path, Event.rpcOpen, Event.rpcCall "CreateKey" payload]
    match env.rpc "CreateKey" payload with
    | .error err => ⟨Outcome.returned {} (some err), store, trace ++ [Event.rpcClose]⟩
    | .ok result =>
      match env.unmarshalKeyPairInfo result with
      | .error err => ⟨Outcome.returned {} (some err), store, trace ++ [Event.rpcClose]⟩
      | .ok none => ⟨Outcome.panicked, store, trace ++ [Event.rpcClose]⟩
      | .ok (some tempSpiderKeyPairInfo) =>
        storeSshKey env store nsId u tempSpiderKeyPairInfo trace [Event.rpcClose]

/-- The store writes among the actions. -/
def storePuts (trace : List Event) : List Event :=
  trace.filter (fun e => match e with
    | Event.storePut _ _ => true
    | _ => false)

/-- The calls on the RPC handle (`CreateKey`, `CreateVPC`, `GetVPC`) among the
actions. -/
def rpcCalls (trace : List Event) : List Event :=
  trace.filter (fun e => match e with
    | Event.rpcCall _ _ => true
    | _ => false)

/-- The sample environment whose store cannot be read back: `CBStore.Get`
returns a nil pointer and an error. -/
def unreadableEnv (callMethod : String) : Env :=
  { sampleEnv callMethod with Get := fun _ _ => (none, some "store: read failed") }

/-- The sample environment over REST with two vNets on connection `conn01`,
`vnet01` listed before `vnet02`. -/
def twoVNetsEnv : Env :=
  { sampleEnv "REST" with
    ListResource := fun _ _ _ =>
      .ok [{ Id := "vnet01", ConnectionName := "conn01", CspVNetName := "ns01-vnet01" },
           { Id := "vnet02", ConnectionName := "conn01", CspVNetName := "ns01-vnet02" }] }

end mcir

end Tumblebug

namespace Tumblebug

namespace rest

/-! ## `control.go`: the command handlers -/

/-- The segments of a character sequence between the occurrences of `sep`. -/
def splitChars (sep : Char) : List Char → List (List Char)
  | [] => [[]]
  | c :: cs =>
    if c = sep then [] :: splitChars sep cs
    else
      match splitChars sep cs with
      | [] => [[c]]
      | seg :: segs => (c :: seg) :: segs

/-- The function `strings.Split(s, sep)` for a separator of one character: the
substrings of `s` between the separators, in order (one more than there are
separators). -/
def Split (s : String) (sep : Char) : List String :=
  (splitChars sep s.data).map String.mk

/-- Lines 128 and 176: `strings.Split(c.Path(), "/")[8]`; `none` when the slice
has no index 8, where the index expression panics. -/
def commandOf (path : String) : Option String :=
  (Split path '/')[8]?

/-- The part of `echo.Context` the command handlers read: path parameters, the
path of the route (`c.Path()`), and what `c.Bind(u)` yields, the error or the
one field of the bound request that is used (`u.DataDiskId`, `u.Name`). -/
structure CommandContext where
  Param : String → String
  Path : String
  Bind : Except String String

/-- The constants and functions of package `src/core/mcis` the command
handlers use; each function returns `(result, err)`, the result in its JSON
form. -/
structure CommandCore where
  /-- The constant `mcis.AttachDataDisk`. -/
  AttachDataDisk : String
  /-- The constant `mcis.DetachDataDisk`. -/
  DetachDataDisk : String
  /-- The function `mcis.AttachDetachDataDisk(nsId, mcisId, vmId, command,
  dataDiskId)`. -/
  AttachDetachDataDisk : String → String → String → String → String → Except String String
  /-- The function `mcis.CreateVmSnapshot(nsId, mcisId, vmId, name)`. -/
  CreateVmSnapshot : String → String → String → String → Except String String

/-- Calls into the core made by a command handler, with their arguments. -/
inductive CommandCall where
  | attachDetachDataDisk (nsId mcisId vmId command dataDiskId : String)
  | createVmSnapshot (nsId mcisId vmId name : String)
deriving DecidableEq, Repr

/-- How a command handler ends: the goroutine panics, or the handler returns
the error of `c.Bind`, or it answers through `c.JSON` with a status code and a
body (the `message` of the map, or the result) after the calls it made into
the core. -/
inductive CommandHandled where
  | panicked
  | bindFailed (err : String)
  | responded (code : Nat) (body : String) (calls : List CommandCall)
deriving DecidableEq, Repr

/-- RestPutMcisVmWithCmd: attach/detach data disk to/from VM (control.go,
lines 122-154). -/
def RestPutMcisVmWithCmd (core : CommandCore) (c : CommandContext) : CommandHandled :=
  let nsId := c.Param "nsId"
  let mcisId := c.Param "mcisId"
  let vmId := c.Param "vmId"
  match commandOf c.Path with
  | none => CommandHandled.panicked
  | some command =>
    match c.Bind with
    | .error err => CommandHandled.bindFailed err
    | .ok dataDiskId =>
      if command = core.AttachDataDisk ∨ command = core.DetachDataDisk then
        match core.AttachDetachDataDisk nsId mcisId vmId command dataDiskId with
        | .error err =>
          CommandHandled.responded 404 err
            [CommandCall.attachDetachDataDisk nsId mcisId vmId command dataDiskId]
        | .ok result =>
          CommandHandled.responded 200 result
            [CommandCall.attachDetachDataDisk nsId mcisId vmId command dataDiskId]
      else
        CommandHandled.responded 404 "Supported commands: attachDataDisk, detachDataDisk" []

/-- RestPostMcisVmWithCmd: create VM snapshot (control.go, lines 170-200). -/
def RestPostMcisVmWithCmd (core : CommandCore) (c : CommandContext) : CommandHandled :=
  let nsId := c.Param "nsId"
  let mcisId := c.Param "mcisId"
  let vmId := c.Param "vmId"
  match commandOf c.Path with
  | none => CommandHandled.panicked
  | some command =>
    match c.Bind with
    | .error err => CommandHandled.bindFailed err
    | .ok name =>
      if command = "snapshot" then
        match core.CreateVmSnapshot nsId mcisId vmId name with
        | .error err =>
          CommandHandled.responded 404 err [CommandCall.createVmSnapshot nsId mcisId vmId name]
        | .ok result =>
          CommandHandled.responded 200 result
            [CommandCall.createVmSnapshot nsId mcisId vmId name]
      else
        CommandHandled.responded 404 "Supported commands: snapshot" []

/-- A string without the character `/`. -/
def slashFree (s : String) : Prop := '/' ∉ s.data

instance slashFreeDecidable (s : String) : Decidable (slashFree s) :=
  inferInstanceAs (Decidable ('/' ∉ s.data))

/-- The route path with the leading segment `tumblebug`, as in the comments on
lines 129 and 177. -/
def prefixedRoute (a b c cmd : String) : String :=
  "/tumblebug/ns/" ++ a ++ "/mcis/" ++ b ++ "/vm/" ++ c ++ "/" ++ cmd

/-- The route path in the form of the `@Router` lines 121 and 169, without a
leading segment. -/
def bareRoute (a b c cmd : String) : String :=
  "/ns/" ++ a ++ "/mcis/" ++ b ++ "/vm/" ++ c ++ "/" ++ cmd

/-- The router path of lines 121 and 169 as written there, placeholders in
braces. -/
def documentedRoute : String :=
  bareRoute "\x7bnsId\x7d" "\x7bmcisId\x7d" "\x7bvmId\x7d" "\x7bcommand\x7d"

/-- A core that accepts every command, with the constants as the messages of
lines 150 and 196 name them. -/
def sampleCommandCore : CommandCore where
  AttachDataDisk := "attachDataDisk"
  DetachDataDisk := "detachDataDisk"
  AttachDetachDataDisk := fun _ _ vmId _ _ => .ok vmId
  CreateVmSnapshot := fun _ _ _ name => .ok name

/-- A request to a command handler registered under `path`, for `ns01`,
`mcis01`, `vm01`, whose body binds to `bound`. -/
def commandRequest (path bound : String) : CommandContext where
  Param := fun name =>
    if name = "nsId" then "ns01" else if name = "mcisId" then "mcis01"
    else if name = "vmId" then "vm01" else ""
  Path := path
  Bind := .ok bound

end rest

namespace infra

/-! ## `snapshot.go`: `Difference_dataDisks` -/

/-- Lines 151-154 of `Difference_dataDisks`: the map `mb` after the loop over
`b`, as its membership test; `mb x` says whether `mb[x]` is found. -/
def keysOf {α : Type} [DecidableEq α] (b : List α) : α → Bool :=
  b.foldl (fun mb x => fun y => if y = x then true else mb y) (fun _ => false)

/-- Difference_dataDisks (snapshot.go, lines 150-162), for an element type with
a decidable equality; the type `model.ResourceOnTumblebugInfo` is declared
outside the sources and only its use as a map key enters the function. -/
def Difference_dataDisks {α : Type} [DecidableEq α] (a b : List α) : List α :=
  let mb := keysOf b
  a.foldl (fun diff x => if mb x then diff else diff ++ [x]) []

/-- The difference as the specification words it: `a` filtered to the elements
that do not occur in `b`, in the order and with the multiplicities of `a`. -/
def differenceSpec {α : Type} [DecidableEq α] (a b : List α) : List α :=
  a.filter (fun x => decide (x ∉ b))

end infra

end Tumblebug

/-! # Theorems -/

namespace Tumblebug
namespace common

/-! ## Properties of `ExecuteHttpRequest` -/

section liveCall

variable {B T : Type} (marshal : B → Except String String)
  (client : Request B → HttpResponse T) (now storeTime : Int) (cache : Cache T)
  (method url : String) (headers : Option (List (String × String))) (useBody : Bool) (body : B)
  (result : Option T) (cacheDuration : Int) (key : String) (trace : List (Event B T))

theorem performRequest_transport_error (hm : supported method) (e : String)
    (herr : (client (liveRequest method url headers useBody body)).err = some e) :
    performRequest client storeTime method url headers useBody body result cacheDuration
        key cache trace
      = ⟨Ret.returned (some ("[Error from: " ++ url ++ "] Message: " ++ e)),
          result.map (fun old =>
            (client (liveRequest method url headers useBody body)).decoded.getD old),
          cache, trace ++ [Event.remote (liveRequest method url headers useBody body)]⟩ := by
  unfold supported at hm
  unfold performRequest
  simp only [hm, if_true]
  rw [herr]

theorem performRequest_status_error (hm : supported method)
    (herr : (client (liveRequest method url headers useBody body)).err = none)
    (hcode : 399 < (client (liveRequest method url headers useBody body)).statusCode) :
    performRequest client storeTime method url headers useBody body result cacheDuration
        key cache trace
      = ⟨Ret.returned (some ("[Error from: " ++ url ++ "] Status code: "
            ++ (client (liveRequest method url headers useBody body)).status)),
          result.map (fun old =>
            (client (liveRequest method url headers useBody body)).decoded.getD old),
          cache, trace ++ [Event.remote (liveRequest method url headers useBody body)]⟩ := by
  unfold supported at hm
  unfold performRequest
  simp only [hm, if_true]
  rw [herr]
  simp [HttpResponse.IsError, hcode]

theorem performRequest_ok_write (hm : method = "POST" ∨ method = "PUT" ∨ method = "DELETE")
    (herr : (client (liveRequest method url headers useBody body)).err = none)
    (hcode : (client (liveRequest method url headers useBody body)).statusCode ≤ 399) :
    performRequest client storeTime method url headers useBody body result cacheDuration
        key cache trace
      = ⟨Ret.returned none,
          result.map (fun old =>
            (client (liveRequest method url headers useBody body)).decoded.getD old),
          cache, trace ++ [Event.remote (liveRequest method url headers useBody body)]⟩ := by
  have hget : method ≠ "GET" := by
    rcases hm with rfl | rfl | rfl <;> decide
  unfold performRequest
  simp only [hm, or_true, if_true]
  rw [herr]
  simp [HttpResponse.IsError, not_lt.mpr hcode, hget]

theorem performRequest_ok_get_nil
    (herr : (client (liveRequest "GET" url headers useBody body)).err = none)
    (hcode : (client (liveRequest "GET" url headers useBody body)).statusCode ≤ 399) :
    performRequest client storeTime "GET" url headers useBody body none cacheDuration
        key cache trace
      = ⟨Ret.returned none, none, cache,
          trace ++ [Event.remote (liveRequest "GET" url headers useBody body)]⟩ := by
  unfold performRequest
  simp only [true_or, if_true]
  rw [herr]
  simp [HttpResponse.IsError, not_lt.mpr hcode]

theorem performRequest_ok_get (r0 : T)
    (herr : (client (liveRequest "GET" url headers useBody body)).err = none)
    (hcode : (client (liveRequest "GET" url headers useBody body)).statusCode ≤ 399) :
    performRequest client storeTime "GET" url headers useBody body (some r0) cacheDuration
        key cache trace
      = ⟨Ret.returned none,
          some ((client (liveRequest "GET" url headers useBody body)).decoded.getD r0),
          cache.Store key
            ⟨(client (liveRequest "GET" url headers useBody body)).decoded.getD r0,
              storeTime + cacheDuration⟩,
          trace ++ [Event.remote (liveRequest "GET" url headers useBody body),
            Event.cacheStore key
              ⟨(client (liveRequest "GET" url headers useBody body)).decoded.getD r0,
                storeTime + cacheDuration⟩]⟩ := by
  unfold performRequest
  simp only [true_or, if_true]
  rw [herr]
  simp [HttpResponse.IsError, not_lt.mpr hcode]

theorem performRequest_unsupported (hm : ¬ supported method) :
    performRequest client storeTime method url headers useBody body result cacheDuration
        key cache trace
      = ⟨Ret.returned (some ("Unsupported rest method: " ++ method)), result, cache, trace⟩ := by
  unfold supported at hm
  unfold performRequest
  simp only [hm, if_false]

end liveCall


section lookup

variable {B T : Type} (marshal : B → Except String String)
  (client : Request B → HttpResponse T) (now storeTime : Int) (cache : Cache T)
  (method url : String) (headers : Option (List (String × String))) (useBody : Bool) (body : B)
  (result : Option T) (cacheDuration : Int) (key : String) (trace : List (Event B T))

theorem ExecuteHttpRequest_of_not_get (hm : method ≠ "GET") :
    ExecuteHttpRequest marshal client now storeTime cache method url headers useBody body
        result cacheDuration
      = performRequest client storeTime method url headers useBody body result cacheDuration
          "" cache [] := by
  simp [ExecuteHttpRequest, hm]

theorem ExecuteHttpRequest_of_absent
    (hkey : cacheKey marshal "GET" url useBody body = .ok key) (habsent : cache key = none) :
    ExecuteHttpRequest marshal client now storeTime cache "GET" url headers useBody body
        result cacheDuration
      = performRequest client storeTime "GET" url headers useBody body result cacheDuration
          key cache [] := by
  simp [ExecuteHttpRequest, hkey, habsent]

theorem ExecuteHttpRequest_of_expired (item : CacheItem T)
    (hkey : cacheKey marshal "GET" url useBody body = .ok key)
    (hfound : cache key = some (CacheEntry.item item)) (hexpired : item.ExpiresAt ≤ now) :
    ExecuteHttpRequest marshal client now storeTime cache "GET" url headers useBody body
        result cacheDuration
      = performRequest client storeTime "GET" url headers useBody body result cacheDuration
          key (cache.Delete key) [Event.cacheDelete key] := by
  simp [ExecuteHttpRequest, hkey, hfound, not_lt.mpr hexpired]

theorem ExecuteHttpRequest_of_fresh (item : CacheItem T)
    (hkey : cacheKey marshal "GET" url useBody body = .ok key)
    (hfound : cache key = some (CacheEntry.item item)) (hfresh : now < item.ExpiresAt) :
    (ExecuteHttpRequest marshal client now storeTime cache "GET" url headers useBody body
        result cacheDuration).trace = [] ∧
    (ExecuteHttpRequest marshal client now storeTime cache "GET" url headers useBody body
        result cacheDuration).cache = cache := by
  cases result <;> simp [ExecuteHttpRequest, hkey, hfound, hfresh]

/-- The assertion on line 86 fails on an entry of another result type: the
call panics before the expiry test, with nothing deleted and nothing sent. -/
theorem ExecuteHttpRequest_of_other (expiresAt : Int)
    (hkey : cacheKey marshal "GET" url useBody body = .ok key)
    (hfound : cache key = some (CacheEntry.other expiresAt)) :
    ExecuteHttpRequest marshal client now storeTime cache "GET" url headers useBody body
        result cacheDuration
      = ⟨Ret.panicked, result, cache, []⟩ := by
  simp [ExecuteHttpRequest, hkey, hfound]

theorem supported_get : supported "GET" := Or.inl rfl

/-- The value returned after a live call, and the request that was sent. -/
theorem performRequest_live (req : Request B)
    (hpre : Event.remote req ∉ trace)
    (hlive : Event.remote req ∈ (performRequest client storeTime method url headers useBody body
        result cacheDuration key cache trace).trace) :
    supported method ∧ req = liveRequest method url headers useBody body ∧
    (performRequest client storeTime method url headers useBody body
        result cacheDuration key cache trace).ret
      = (match (client req).err with
          | some e => Ret.returned (some ("[Error from: " ++ url ++ "] Message: " ++ e))
          | none =>
            if 399 < (client req).statusCode then
              Ret.returned (some ("[Error from: " ++ url ++ "] Status code: " ++ (client req).status))
            else Ret.returned none) := by
  by_cases hm : supported method
  · have hreq : req = liveRequest method url headers useBody body := by
      rcases herr : (client (liveRequest method url headers useBody body)).err with _ | e
      · by_cases hcode : 399 < (client (liveRequest method url headers useBody body)).statusCode
        · rw [performRequest_status_error client storeTime cache method url headers useBody body
            result cacheDuration key trace hm herr hcode] at hlive
          simpa [hpre] using hlive
        · have hcode2 := not_lt.mp hcode
          rcases hm with rfl | hw
          · cases result with
            | none =>
              rw [performRequest_ok_get_nil client storeTime cache url headers useBody body
                cacheDuration key trace herr hcode2] at hlive
              simpa [hpre] using hlive
            | some r0 =>
              rw [performRequest_ok_get client storeTime cache url headers useBody body
                cacheDuration key trace r0 herr hcode2] at hlive
              simpa [hpre] using hlive
          · rw [performRequest_ok_write client storeTime cache method url headers useBody body
              result cacheDuration key trace hw herr hcode2] at hlive
            simpa [hpre] using hlive
      · rw [performRequest_transport_error client storeTime cache method url headers useBody body
          result cacheDuration key trace hm e herr] at hlive
        simpa [hpre] using hlive
    refine ⟨hm, hreq, ?_⟩
    subst hreq
    rcases herr : (client (liveRequest method url headers useBody body)).err with _ | e
    · by_cases hcode : 399 < (client (liveRequest method url headers useBody body)).statusCode
      · rw [performRequest_status_error client storeTime cache method url headers useBody body
          result cacheDuration key trace hm herr hcode]
        simp [hcode]
      · have hcode2 := not_lt.mp hcode
        rcases hm with rfl | hw
        · cases result with
          | none =>
            rw [performRequest_ok_get_nil client storeTime cache url headers useBody body
              cacheDuration key trace herr hcode2]
            simp [hcode]
          | some r0 =>
            rw [performRequest_ok_get client storeTime cache url headers useBody body
              cacheDuration key trace r0 herr hcode2]
            simp [hcode]
        · rw [performRequest_ok_write client storeTime cache method url headers useBody body
            result cacheDuration key trace hw herr hcode2]
          simp [hcode]
    · rw [performRequest_transport_error client storeTime cache method url headers useBody body
        result cacheDuration key trace hm e herr]
  · rw [performRequest_unsupported client storeTime cache method url headers useBody body
      result cacheDuration key trace hm] at hlive
    exact absurd hlive hpre

/-- Every way `ExecuteHttpRequest` reaches the transport goes through
`performRequest` with no earlier transport call. -/
theorem ExecuteHttpRequest_live (req : Request B)
    (hlive : Event.remote req ∈ (ExecuteHttpRequest marshal client now storeTime cache method url
        headers useBody body result cacheDuration).trace) :
    supported method ∧ req = liveRequest method url headers useBody body ∧
    (ExecuteHttpRequest marshal client now storeTime cache method url
        headers useBody body result cacheDuration).ret
      = (match (client req).err with
          | some e => Ret.returned (some ("[Error from: " ++ url ++ "] Message: " ++ e))
          | none =>
            if 399 < (client req).statusCode then
              Ret.returned (some ("[Error from: " ++ url ++ "] Status code: " ++ (client req).status))
            else Ret.returned none) := by
  by_cases hm : method = "GET"
  · subst hm
    rcases hkey : cacheKey marshal "GET" url useBody body with e | key
    · simp [ExecuteHttpRequest, hkey] at hlive
    · rcases hfound : cache key with _ | (item | expiresAt)
      · rw [ExecuteHttpRequest_of_absent marshal client now storeTime cache url headers useBody
          body result cacheDuration key hkey hfound] at hlive ⊢
        exact performRequest_live client storeTime cache "GET" url headers useBody body result
          cacheDuration key [] req (by simp) hlive
      · by_cases hfresh : now < item.ExpiresAt
        · rw [(ExecuteHttpRequest_of_fresh marshal client now storeTime cache url headers useBody
            body result cacheDuration key item hkey hfound hfresh).1] at hlive
          simp at hlive
        · rw [ExecuteHttpRequest_of_expired marshal client now storeTime cache url headers useBody
            body result cacheDuration key item hkey hfound (not_lt.mp hfresh)] at hlive ⊢
          exact performRequest_live client storeTime (cache.Delete key) "GET" url headers useBody
            body result cacheDuration key [Event.cacheDelete key] req (by simp) hlive
      · rw [ExecuteHttpRequest_of_other marshal client now storeTime cache url headers useBody
          body result cacheDuration key expiresAt hkey hfound] at hlive
        simp at hlive
  · rw [ExecuteHttpRequest_of_not_get marshal client now storeTime cache method url headers useBody
      body result cacheDuration hm] at hlive ⊢
    exact performRequest_live client storeTime cache method url headers useBody body result
      cacheDuration "" [] req (by simp) hlive

end lookup


section counting

variable {B T : Type} (marshal : B → Except String String)
  (client : Request B → HttpResponse T) (now storeTime : Int) (cache : Cache T)
  (method url : String) (headers : Option (List (String × String))) (useBody : Bool) (body : B)
  (result : Option T) (cacheDuration : Int) (key : String) (trace : List (Event B T))

theorem remoteCalls_append (xs ys : List (Event B T)) :
    remoteCalls (xs ++ ys) = remoteCalls xs + remoteCalls ys := by
  induction xs with
  | nil => simp [remoteCalls]
  | cons x xs ih =>
    cases x <;> simp [remoteCalls, ih]
    omega

theorem remoteCalls_performRequest (hm : supported method) :
    remoteCalls (performRequest client storeTime method url headers useBody body
        result cacheDuration key cache trace).trace = remoteCalls trace + 1 := by
  rcases herr : (client (liveRequest method url headers useBody body)).err with _ | e
  · by_cases hcode : 399 < (client (liveRequest method url headers useBody body)).statusCode
    · rw [performRequest_status_error client storeTime cache method url headers useBody body
        result cacheDuration key trace hm herr hcode]
      simp [remoteCalls_append, remoteCalls]
    · have hcode2 := not_lt.mp hcode
      rcases hm with rfl | hw
      · cases result with
        | none =>
          rw [performRequest_ok_get_nil client storeTime cache url headers useBody body
            cacheDuration key trace herr hcode2]
          simp [remoteCalls_append, remoteCalls]
        | some r0 =>
          rw [performRequest_ok_get client storeTime cache url headers useBody body
            cacheDuration key trace r0 herr hcode2]
          simp [remoteCalls_append, remoteCalls]
      · rw [performRequest_ok_write client storeTime cache method url headers useBody body
          result cacheDuration key trace hw herr hcode2]
        simp [remoteCalls_append, remoteCalls]
  · rw [performRequest_transport_error client storeTime cache method url headers useBody body
      result cacheDuration key trace hm e herr]
    simp [remoteCalls_append, remoteCalls]

/-- A GET call with a non-nil result pointer that returns nil after a live call
leaves the fresh entry under its key. -/
theorem ExecuteHttpRequest_live_success_stores (r0 : T)
    (hkey : cacheKey marshal "GET" url useBody body = .ok key)
    (hok : (ExecuteHttpRequest marshal client now storeTime cache "GET" url
        headers useBody body (some r0) cacheDuration).ret = Ret.returned none)
    (hlive : remoteCalls (ExecuteHttpRequest marshal client now storeTime cache "GET" url
        headers useBody body (some r0) cacheDuration).trace ≠ 0) :
    (ExecuteHttpRequest marshal client now storeTime cache "GET" url
        headers useBody body (some r0) cacheDuration).result
      = some ((client (liveRequest "GET" url headers useBody body)).decoded.getD r0) ∧
    (ExecuteHttpRequest marshal client now storeTime cache "GET" url
        headers useBody body (some r0) cacheDuration).cache
      = cache.Store key ⟨(client (liveRequest "GET" url headers useBody body)).decoded.getD r0,
          storeTime + cacheDuration⟩ := by
  have main : ∀ (c : Cache T) (tr : List (Event B T)),
      (∀ k, k ≠ key → c k = cache k) →
      (performRequest client storeTime "GET" url headers useBody body (some r0) cacheDuration
          key c tr).ret = Ret.returned none →
      (performRequest client storeTime "GET" url headers useBody body (some r0) cacheDuration
          key c tr).result
        = some ((client (liveRequest "GET" url headers useBody body)).decoded.getD r0) ∧
      (performRequest client storeTime "GET" url headers useBody body (some r0) cacheDuration
          key c tr).cache
        = cache.Store key ⟨(client (liveRequest "GET" url headers useBody body)).decoded.getD r0,
            storeTime + cacheDuration⟩ := by
    intro c tr hc hret
    rcases herr : (client (liveRequest "GET" url headers useBody body)).err with _ | e
    · by_cases hcode : 399 < (client (liveRequest "GET" url headers useBody body)).statusCode
      · rw [performRequest_status_error client storeTime c "GET" url headers useBody body
          (some r0) cacheDuration key tr supported_get herr hcode] at hret
        simp at hret
      · rw [performRequest_ok_get client storeTime c url headers useBody body
          cacheDuration key tr r0 herr (not_lt.mp hcode)]
        refine ⟨rfl, ?_⟩
        funext k
        by_cases hk : k = key
        · simp [Cache.Store, hk]
        · simp [Cache.Store, hk, hc k hk]
    · rw [performRequest_transport_error client storeTime c "GET" url headers useBody body
        (some r0) cacheDuration key tr supported_get e herr] at hret
      simp at hret
  rcases hfound : cache key with _ | (item | expiresAt)
  · rw [ExecuteHttpRequest_of_absent marshal client now storeTime cache url headers useBody
      body (some r0) cacheDuration key hkey hfound] at hok ⊢
    exact main cache [] (fun _ _ => rfl) hok
  · by_cases hfresh : now < item.ExpiresAt
    · rw [(ExecuteHttpRequest_of_fresh marshal client now storeTime cache url headers useBody
        body (some r0) cacheDuration key item hkey hfound hfresh).1] at hlive
      simp [remoteCalls] at hlive
    · rw [ExecuteHttpRequest_of_expired marshal client now storeTime cache url headers useBody
        body (some r0) cacheDuration key item hkey hfound (not_lt.mp hfresh)] at hok ⊢
      exact main (cache.Delete key) [Event.cacheDelete key]
        (fun k hk => by simp [Cache.Delete, hk]) hok
  · rw [ExecuteHttpRequest_of_other marshal client now storeTime cache url headers useBody
      body (some r0) cacheDuration key expiresAt hkey hfound] at hok
    simp at hok

end counting


section hitAndMiss

variable {B T : Type} (marshal : B → Except String String)
  (client : Request B → HttpResponse T) (now storeTime : Int) (cache : Cache T)
  (method url : String) (headers : Option (List (String × String))) (useBody : Bool) (body : B)
  (result : Option T) (cacheDuration : Int) (key : String)

/-- Cache hit through a usable pointer: a GET call with a non-nil result pointer
whose cache key holds a `CacheItem[T]` with `now < ExpiresAt` returns nil with
`*result` set to the cached response, performs no action at all (no remote
call, no cache operation) and leaves the cache as it was. -/
theorem ExecuteHttpRequest_cache_hit (r0 : T) (item : CacheItem T)
    (hkey : cacheKey marshal "GET" url useBody body = .ok key)
    (hfound : cache key = some (CacheEntry.item item)) (hfresh : now < item.ExpiresAt) :
    (ExecuteHttpRequest marshal client now storeTime cache "GET" url headers useBody body
        (some r0) cacheDuration).ret = Ret.returned none ∧
    (ExecuteHttpRequest marshal client now storeTime cache "GET" url headers useBody body
        (some r0) cacheDuration).result = some item.Response ∧
    (ExecuteHttpRequest marshal client now storeTime cache "GET" url headers useBody body
        (some r0) cacheDuration).trace = [] ∧
    (ExecuteHttpRequest marshal client now storeTime cache "GET" url headers useBody body
        (some r0) cacheDuration).cache = cache := by
  simp [ExecuteHttpRequest, hkey, hfound, hfresh]

theorem ExecuteHttpRequest_cache_hit_witness :
    (ExecuteHttpRequest (B := Unit) (T := Nat) (fun _ => .ok "null")
        (fun _ => ⟨none, 200, "200 OK", some 9⟩) 5 6
        (Cache.empty.Store "GET_http://spider/vpc" ⟨7, 10⟩)
        "GET" "http://spider/vpc" none false () (some 0) 2).result = some 7 :=
  (ExecuteHttpRequest_cache_hit (fun _ => .ok "null") (fun _ => ⟨none, 200, "200 OK", some 9⟩)
    5 6 (Cache.empty.Store "GET_http://spider/vpc" ⟨7, 10⟩) "http://spider/vpc" none false ()
    2 "GET_http://spider/vpc" 0 ⟨7, 10⟩ rfl (by decide) (by decide)).2.1

/-- Cache hit through a nil pointer: every GET call with a nil result pointer
whose cache key holds a `CacheItem[T]` with `now < ExpiresAt` panics on line 89,
with no action performed and the cache as it was. -/
theorem ExecuteHttpRequest_cache_hit_nil (item : CacheItem T)
    (hkey : cacheKey marshal "GET" url useBody body = .ok key)
    (hfound : cache key = some (CacheEntry.item item)) (hfresh : now < item.ExpiresAt) :
    (ExecuteHttpRequest marshal client now storeTime cache "GET" url headers useBody body
        none cacheDuration).ret = Ret.panicked ∧
    (ExecuteHttpRequest marshal client now storeTime cache "GET" url headers useBody body
        none cacheDuration).result = none ∧
    (ExecuteHttpRequest marshal client now storeTime cache "GET" url headers useBody body
        none cacheDuration).trace = [] ∧
    (ExecuteHttpRequest marshal client now storeTime cache "GET" url headers useBody body
        none cacheDuration).cache = cache := by
  simp [ExecuteHttpRequest, hkey, hfound, hfresh]

/-- C3 (code defect).  First: at time 5 the key `GET_http://spider/vpc` holds
a `CacheItem[T]` with response 7 that expires at 10, and the GET call for it
with a nil result pointer panics (line 89) instead of returning nil; nothing is
sent and the entry stays.  The same call with a non-nil pointer returns nil
with `*result` 7.  Second: when the key holds an entry that a call with another
result type stored, also expiring at 10, the GET call with a non-nil pointer
panics (line 86), `*result` keeps its old value 0 and nothing is sent. -/
theorem ExecuteHttpRequest_cache_hit_panics :
    (cacheKey (fun _ : Unit => .ok "null") "GET" "http://spider/vpc" false ()
        = .ok "GET_http://spider/vpc" ∧
      (Cache.empty.Store "GET_http://spider/vpc" (⟨7, 10⟩ : CacheItem Nat))
          "GET_http://spider/vpc" = some (CacheEntry.item ⟨7, 10⟩) ∧
      (5 : Int) < (⟨7, 10⟩ : CacheItem Nat).ExpiresAt ∧
      (ExecuteHttpRequest (B := Unit) (T := Nat) (fun _ => .ok "null")
          (fun _ => ⟨none, 200, "200 OK", some 9⟩) 5 6
          (Cache.empty.Store "GET_http://spider/vpc" ⟨7, 10⟩)
          "GET" "http://spider/vpc" none false () none 2).ret = Ret.panicked ∧
      (ExecuteHttpRequest (B := Unit) (T := Nat) (fun _ => .ok "null")
          (fun _ => ⟨none, 200, "200 OK", some 9⟩) 5 6
          (Cache.empty.Store "GET_http://spider/vpc" ⟨7, 10⟩)
          "GET" "http://spider/vpc" none false () none 2).trace = [] ∧
      (ExecuteHttpRequest (B := Unit) (T := Nat) (fun _ => .ok "null")
          (fun _ => ⟨none, 200, "200 OK", some 9⟩) 5 6
          (Cache.empty.Store "GET_http://spider/vpc" ⟨7, 10⟩)
          "GET" "http://spider/vpc" none false () none 2).cache "GET_http://spider/vpc"
        = some (CacheEntry.item ⟨7, 10⟩) ∧
      (ExecuteHttpRequest (B := Unit) (T := Nat) (fun _ => .ok "null")
          (fun _ => ⟨none, 200, "200 OK", some 9⟩) 5 6
          (Cache.empty.Store "GET_http://spider/vpc" ⟨7, 10⟩)
          "GET" "http://spider/vpc" none false () (some 0) 2).ret = Ret.returned none ∧
      (ExecuteHttpRequest (B := Unit) (T := Nat) (fun _ => .ok "null")
          (fun _ => ⟨none, 200, "200 OK", some 9⟩) 5 6
          (Cache.empty.Store "GET_http://spider/vpc" ⟨7, 10⟩)
          "GET" "http://spider/vpc" none false () (some 0) 2).result = some 7) ∧
    ((Cache.empty.StoreOther "GET_http://spider/vpc" 10 : Cache Nat) "GET_http://spider/vpc"
        = some (CacheEntry.other 10) ∧
      (5 : Int) < (CacheEntry.other 10 : CacheEntry Nat).ExpiresAt ∧
      (ExecuteHttpRequest (B := Unit) (T := Nat) (fun _ => .ok "null")
          (fun _ => ⟨none, 200, "200 OK", some 9⟩) 5 6
          (Cache.empty.StoreOther "GET_http://spider/vpc" 10)
          "GET" "http://spider/vpc" none false () (some 0) 2).ret = Ret.panicked ∧
      (ExecuteHttpRequest (B := Unit) (T := Nat) (fun _ => .ok "null")
          (fun _ => ⟨none, 200, "200 OK", some 9⟩) 5 6
          (Cache.empty.StoreOther "GET_http://spider/vpc" 10)
          "GET" "http://spider/vpc" none false () (some 0) 2).result = some 0 ∧
      (ExecuteHttpRequest (B := Unit) (T := Nat) (fun _ => .ok "null")
          (fun _ => ⟨none, 200, "200 OK", some 9⟩) 5 6
          (Cache.empty.StoreOther "GET_http://spider/vpc" 10)
          "GET" "http://spider/vpc" none false () (some 0) 2).trace = []) := by
  refine ⟨⟨rfl, by decide, by decide, by decide, by decide, by decide, by decide, by decide⟩,
    by decide, by decide, by decide, by decide, by decide⟩

/-- Expired entry of the call's own result type: a GET call that finds a
`CacheItem[T]` with `ExpiresAt <= now` (equality included) deletes the entry
and goes on to the live request: the run is the live-call part started from the
cache without the entry, its first two actions are the deletion and the remote
call, and `*result` is what the transport wrote, not the cached response. -/
theorem ExecuteHttpRequest_expired_entry (item : CacheItem T)
    (hkey : cacheKey marshal "GET" url useBody body = .ok key)
    (hfound : cache key = some (CacheEntry.item item)) (hexpired : item.ExpiresAt ≤ now) :
    ExecuteHttpRequest marshal client now storeTime cache "GET" url headers useBody body
        result cacheDuration
      = performRequest client storeTime "GET" url headers useBody body result cacheDuration
          key (cache.Delete key) [Event.cacheDelete key] ∧
    (cache.Delete key) key = none ∧
    (ExecuteHttpRequest marshal client now storeTime cache "GET" url headers useBody body
        result cacheDuration).trace.take 2
      = [Event.cacheDelete key, Event.remote (liveRequest "GET" url headers useBody body)] ∧
    remoteCalls (ExecuteHttpRequest marshal client now storeTime cache "GET" url headers useBody
        body result cacheDuration).trace = 1 ∧
    (ExecuteHttpRequest marshal client now storeTime cache "GET" url headers useBody body
        result cacheDuration).result
      = result.map (fun old =>
          (client (liveRequest "GET" url headers useBody body)).decoded.getD old) := by
  have hrun := ExecuteHttpRequest_of_expired marshal client now storeTime cache url headers
    useBody body result cacheDuration key item hkey hfound hexpired
  refine ⟨hrun, by simp [Cache.Delete], ?_, ?_, ?_⟩
  · rw [hrun]
    rcases herr : (client (liveRequest "GET" url headers useBody body)).err with _ | e
    · by_cases hcode : 399 < (client (liveRequest "GET" url headers useBody body)).statusCode
      · rw [performRequest_status_error client storeTime _ "GET" url headers useBody body
          result cacheDuration key _ supported_get herr hcode]
        rfl
      · cases result with
        | none =>
          rw [performRequest_ok_get_nil client storeTime _ url headers useBody body
            cacheDuration key _ herr (not_lt.mp hcode)]
          rfl
        | some r0 =>
          rw [performRequest_ok_get client storeTime _ url headers useBody body
            cacheDuration key _ r0 herr (not_lt.mp hcode)]
          rfl
    · rw [performRequest_transport_error client storeTime _ "GET" url headers useBody body
        result cacheDuration key _ supported_get e herr]
      rfl
  · rw [hrun, remoteCalls_performRequest client storeTime _ "GET" url headers useBody body
      result cacheDuration key _ supported_get]
    simp [remoteCalls]
  · rw [hrun]
    rcases herr : (client (liveRequest "GET" url headers useBody body)).err with _ | e
    · by_cases hcode : 399 < (client (liveRequest "GET" url headers useBody body)).statusCode
      · rw [performRequest_status_error client storeTime _ "GET" url headers useBody body
          result cacheDuration key _ supported_get herr hcode]
      · cases result with
        | none =>
          rw [performRequest_ok_get_nil client storeTime _ url headers useBody body
            cacheDuration key _ herr (not_lt.mp hcode)]
          rfl
        | some r0 =>
          rw [performRequest_ok_get client storeTime _ url headers useBody body
            cacheDuration key _ r0 herr (not_lt.mp hcode)]
          rfl
    · rw [performRequest_transport_error client storeTime _ "GET" url headers useBody body
        result cacheDuration key _ supported_get e herr]

theorem ExecuteHttpRequest_expired_entry_witness :
    (ExecuteHttpRequest (B := Unit) (T := Nat) (fun _ => .ok "null")
        (fun _ => ⟨none, 200, "200 OK", some 9⟩) 10 11
        (Cache.empty.Store "GET_http://spider/vpc" ⟨7, 10⟩)
        "GET" "http://spider/vpc" none false () (some 0) 2).result
      = (some 0).map (fun old => (some 9 : Option Nat).getD old) :=
  (ExecuteHttpRequest_expired_entry (fun _ => .ok "null")
    (fun _ => ⟨none, 200, "200 OK", some 9⟩)
    10 11 (Cache.empty.Store "GET_http://spider/vpc" ⟨7, 10⟩) "http://spider/vpc" none false ()
    (some 0) 2 "GET_http://spider/vpc" ⟨7, 10⟩ rfl (by decide) (by decide)).2.2.2.2

/-- C4 (code defect): at time 10 the key `GET_http://spider/vpc` holds an
entry that a call with another result type stored and that expired at 10.  The
GET call for it panics on line 86, before the expiry test: its trace is empty,
so the entry is not deleted and no remote call is made, the entry is still in
the cache and `*result` keeps its old value.  With a `CacheItem[T]` that
expired at 10 under the key, the same call deletes the entry, makes the remote
call and returns nil with the fresh result 9. -/
theorem ExecuteHttpRequest_expired_entry_of_other_type_panics :
    (cacheKey (fun _ : Unit => .ok "null") "GET" "http://spider/vpc" false ()
        = .ok "GET_http://spider/vpc" ∧
      (Cache.empty.StoreOther "GET_http://spider/vpc" 10 : Cache Nat) "GET_http://spider/vpc"
        = some (CacheEntry.other 10) ∧
      (CacheEntry.other 10 : CacheEntry Nat).ExpiresAt ≤ 10 ∧
      (ExecuteHttpRequest (B := Unit) (T := Nat) (fun _ => .ok "null")
          (fun _ => ⟨none, 200, "200 OK", some 9⟩) 10 11
          (Cache.empty.StoreOther "GET_http://spider/vpc" 10)
          "GET" "http://spider/vpc" none false () (some 0) 2).ret = Ret.panicked ∧
      (ExecuteHttpRequest (B := Unit) (T := Nat) (fun _ => .ok "null")
          (fun _ => ⟨none, 200, "200 OK", some 9⟩) 10 11
          (Cache.empty.StoreOther "GET_http://spider/vpc" 10)
          "GET" "http://spider/vpc" none false () (some 0) 2).trace = [] ∧
      (ExecuteHttpRequest (B := Unit) (T := Nat) (fun _ => .ok "null")
          (fun _ => ⟨none, 200, "200 OK", some 9⟩) 10 11
          (Cache.empty.StoreOther "GET_http://spider/vpc" 10)
          "GET" "http://spider/vpc" none false () (some 0) 2).cache "GET_http://spider/vpc"
        = some (CacheEntry.other 10) ∧
      (ExecuteHttpRequest (B := Unit) (T := Nat) (fun _ => .ok "null")
          (fun _ => ⟨none, 200, "200 OK", some 9⟩) 10 11
          (Cache.empty.StoreOther "GET_http://spider/vpc" 10)
          "GET" "http://spider/vpc" none false () (some 0) 2).result = some 0) ∧
    ((ExecuteHttpRequest (B := Unit) (T := Nat) (fun _ => .ok "null")
          (fun _ => ⟨none, 200, "200 OK", some 9⟩) 10 11
          (Cache.empty.Store "GET_http://spider/vpc" ⟨7, 10⟩)
          "GET" "http://spider/vpc" none false () (some 0) 2).ret = Ret.returned none ∧
      (ExecuteHttpRequest (B := Unit) (T := Nat) (fun _ => .ok "null")
          (fun _ => ⟨none, 200, "200 OK", some 9⟩) 10 11
          (Cache.empty.Store "GET_http://spider/vpc" ⟨7, 10⟩)
          "GET" "http://spider/vpc" none false () (some 0) 2).trace
        = [Event.cacheDelete "GET_http://spider/vpc",
            Event.remote (liveRequest "GET" "http://spider/vpc" none false ()),
            Event.cacheStore "GET_http://spider/vpc" ⟨9, 13⟩] ∧
      (ExecuteHttpRequest (B := Unit) (T := Nat) (fun _ => .ok "null")
          (fun _ => ⟨none, 200, "200 OK", some 9⟩) 10 11
          (Cache.empty.Store "GET_http://spider/vpc" ⟨7, 10⟩)
          "GET" "http://spider/vpc" none false () (some 0) 2).result = some 9) := by
  refine ⟨⟨rfl, by decide, by decide, by decide, by decide, by decide, by decide⟩,
    by decide, by decide, by decide⟩

/-- C5: a call with method POST, PUT or DELETE performs exactly the remote call
and no cache operation, and the cache afterwards is the cache before, whatever
it held and whatever the transport answers. -/
theorem ExecuteHttpRequest_write_methods_bypass_cache
    (hm : method = "POST" ∨ method = "PUT" ∨ method = "DELETE") :
    (ExecuteHttpRequest marshal client now storeTime cache method url headers useBody body
        result cacheDuration).trace
      = [Event.remote (liveRequest method url headers useBody body)] ∧
    (ExecuteHttpRequest marshal client now storeTime cache method url headers useBody body
        result cacheDuration).cache = cache := by
  have hget : method ≠ "GET" := by
    rcases hm with rfl | rfl | rfl <;> decide
  have hs : supported method := Or.inr hm
  rw [ExecuteHttpRequest_of_not_get marshal client now storeTime cache method url headers useBody
    body result cacheDuration hget]
  rcases herr : (client (liveRequest method url headers useBody body)).err with _ | e
  · by_cases hcode : 399 < (client (liveRequest method url headers useBody body)).statusCode
    · rw [performRequest_status_error client storeTime _ method url headers useBody body
        result cacheDuration "" _ hs herr hcode]
      exact ⟨rfl, rfl⟩
    · rw [performRequest_ok_write client storeTime _ method url headers useBody body
        result cacheDuration "" _ hm herr (not_lt.mp hcode)]
      exact ⟨rfl, rfl⟩
  · rw [performRequest_transport_error client storeTime _ method url headers useBody body
      result cacheDuration "" _ hs e herr]
    exact ⟨rfl, rfl⟩

theorem ExecuteHttpRequest_write_methods_bypass_cache_witness :
    (ExecuteHttpRequest (B := Unit) (T := Nat) (fun _ => .ok "null")
        (fun _ => ⟨none, 200, "200 OK", some 9⟩) 10 11
        (Cache.empty.Store "GET_http://spider/vpc" ⟨7, 10⟩)
        "POST" "http://spider/vpc" none true () (some 0) 2).trace
      = [Event.remote (liveRequest "POST" "http://spider/vpc" none true ())] :=
  (ExecuteHttpRequest_write_methods_bypass_cache (fun _ => .ok "null")
    (fun _ => ⟨none, 200, "200 OK", some 9⟩)
    10 11 (Cache.empty.Store "GET_http://spider/vpc" ⟨7, 10⟩) "POST" "http://spider/vpc" none
    true () (some 0) 2 (Or.inl rfl)).1

end hitAndMiss


section errorPolicy

variable {B T : Type} (marshal : B → Except String String)
  (client : Request B → HttpResponse T) (now storeTime : Int) (cache : Cache T)
  (method url : String) (headers : Option (List (String × String))) (useBody : Bool) (body : B)
  (result : Option T) (cacheDuration : Int) (key : String)

/-- C6 (as stated, refuted): a live GET call answered with status 101, which
is outside [200,400), returns nil and even caches the result. -/
theorem ExecuteHttpRequest_status_below_200_succeeds :
    (ExecuteHttpRequest (B := Unit) (T := Nat) (fun _ => .ok "null")
        (fun _ => ⟨none, 101, "101 Switching Protocols", none⟩) 0 0 Cache.empty
        "GET" "http://spider/vpc" none false () (some 0) 2).ret = Ret.returned none ∧
    (ExecuteHttpRequest (B := Unit) (T := Nat) (fun _ => .ok "null")
        (fun _ => ⟨none, 101, "101 Switching Protocols", none⟩) 0 0 Cache.empty
        "GET" "http://spider/vpc" none false () (some 0) 2).trace
      = [Event.remote (liveRequest "GET" "http://spider/vpc" none false ()),
          Event.cacheStore "GET_http://spider/vpc" ⟨0, 2⟩] ∧
    ¬ ((200 : Int) ≤ 101 ∧ (101 : Int) < 400) := by
  decide

/-- C6 (amended): for every live call made by `ExecuteHttpRequest`, a transport
failure yields the error `[Error from: url] Message: ...`, a response status of
at least 400 yields the error `[Error from: url] Status code: ...`, every error
returned carries the url, and the call returns nil exactly when the transport
did not fail and the status is below 400 (statuses below 200 included). -/
theorem ExecuteHttpRequest_error_policy (req : Request B)
    (hlive : Event.remote req ∈ (ExecuteHttpRequest marshal client now storeTime cache method url
        headers useBody body result cacheDuration).trace) :
    (∀ e, (client req).err = some e →
      (ExecuteHttpRequest marshal client now storeTime cache method url headers useBody body
        result cacheDuration).ret
        = Ret.returned (some ("[Error from: " ++ url ++ "] Message: " ++ e))) ∧
    ((client req).err = none → 400 ≤ (client req).statusCode →
      (ExecuteHttpRequest marshal client now storeTime cache method url headers useBody body
        result cacheDuration).ret
        = Ret.returned (some ("[Error from: " ++ url ++ "] Status code: " ++ (client req).status))) ∧
    (∀ msg, (ExecuteHttpRequest marshal client now storeTime cache method url headers useBody body
        result cacheDuration).ret = Ret.returned (some msg) → carriesUrl msg url) ∧
    ((ExecuteHttpRequest marshal client now storeTime cache method url headers useBody body
        result cacheDuration).ret = Ret.returned none
      ↔ (client req).err = none ∧ (client req).statusCode < 400) := by
  obtain ⟨-, -, hret⟩ := ExecuteHttpRequest_live marshal client now storeTime cache method url
    headers useBody body result cacheDuration req hlive
  rw [hret]
  rcases herr : (client req).err with _ | e
  · by_cases hcode : 399 < (client req).statusCode
    · have h400 : ¬ (client req).statusCode < 400 := by omega
      simp only [hcode, if_true]
      refine ⟨by simp, by simp, ?_, by simp [h400]⟩
      intro msg hmsg
      simp only [Ret.returned.injEq, Option.some.injEq] at hmsg
      exact ⟨"[Error from: ", "] Status code: " ++ (client req).status, by
        rw [← hmsg]; simp [String.append_assoc]⟩
    · have h400 : (client req).statusCode < 400 := by omega
      simp only [hcode, if_false]
      refine ⟨by simp, fun _ h => absurd h (by omega), by simp, by simp [h400]⟩
  · refine ⟨fun e2 he => by simp at he; simp [he], by simp, ?_, by simp⟩
    intro msg hmsg
    simp only [Ret.returned.injEq, Option.some.injEq] at hmsg
    exact ⟨"[Error from: ", "] Message: " ++ e, by rw [← hmsg]; simp [String.append_assoc]⟩

theorem ExecuteHttpRequest_error_policy_witness :
    (ExecuteHttpRequest (B := Unit) (T := Nat) (fun _ => .ok "null")
        (fun _ => ⟨none, 404, "404 Not Found", none⟩) 0 0 Cache.empty
        "POST" "http://spider/keypair" none true () (some 0) 0).ret
      = Ret.returned (some ("[Error from: " ++ "http://spider/keypair" ++ "] Status code: "
          ++ "404 Not Found")) :=
  (ExecuteHttpRequest_error_policy (fun _ => .ok "null")
    (fun _ => ⟨none, 404, "404 Not Found", none⟩) 0 0 Cache.empty
    "POST" "http://spider/keypair" none true () (some 0) 0
    (liveRequest "POST" "http://spider/keypair" none true ()) (by decide)).2.1 rfl (by decide)

end errorPolicy


section twoCalls

variable {B T : Type} (marshal : B → Except String String)
  (client : Request B → HttpResponse T) (now storeTime : Int) (cache : Cache T)
  (method url : String) (headers : Option (List (String × String))) (useBody : Bool) (body : B)
  (result : Option T) (cacheDuration : Int) (key : String)

/-- C8 (as stated, refuted): a GET call with a nil result pointer whose live
call succeeds (status 200) returns nil and stores nothing: the cache holds no
entry for the key afterwards. -/
theorem ExecuteHttpRequest_nil_result_not_cached :
    (ExecuteHttpRequest (B := Unit) (T := Nat) (fun _ => .ok "null")
        (fun _ => ⟨none, 200, "200 OK", none⟩) 0 0 Cache.empty
        "GET" "http://spider/vpc" none false () none 2).ret = Ret.returned none ∧
    (ExecuteHttpRequest (B := Unit) (T := Nat) (fun _ => .ok "null")
        (fun _ => ⟨none, 200, "200 OK", none⟩) 0 0 Cache.empty
        "GET" "http://spider/vpc" none false () none 2).trace
      = [Event.remote (liveRequest "GET" "http://spider/vpc" none false ())] ∧
    cacheKey (fun _ : Unit => .ok "null") "GET" "http://spider/vpc" false ()
      = .ok "GET_http://spider/vpc" ∧
    (ExecuteHttpRequest (B := Unit) (T := Nat) (fun _ => .ok "null")
        (fun _ => ⟨none, 200, "200 OK", none⟩) 0 0 Cache.empty
        "GET" "http://spider/vpc" none false () none 2).cache "GET_http://spider/vpc" = none := by
  refine ⟨by decide, by decide, rfl, by decide⟩

/-- C8 (amended): for every GET call with a non-nil result pointer that makes
the live call and returns nil, `*result` is the fresh result, the cache
afterwards maps the cache key of the call to exactly that result with
`ExpiresAt` the time of the store plus `cacheDuration`, whatever the key held
before, and the entry of every other key is unchanged. -/
theorem ExecuteHttpRequest_success_overwrites_entry (r0 : T) (req : Request B)
    (hkey : cacheKey marshal "GET" url useBody body = .ok key)
    (hlive : Event.remote req ∈ (ExecuteHttpRequest marshal client now storeTime cache "GET" url
        headers useBody body (some r0) cacheDuration).trace)
    (hok : (ExecuteHttpRequest marshal client now storeTime cache "GET" url
        headers useBody body (some r0) cacheDuration).ret = Ret.returned none) :
    (ExecuteHttpRequest marshal client now storeTime cache "GET" url
        headers useBody body (some r0) cacheDuration).result
      = some ((client req).decoded.getD r0) ∧
    (ExecuteHttpRequest marshal client now storeTime cache "GET" url
        headers useBody body (some r0) cacheDuration).cache key
      = some (CacheEntry.item ⟨(client req).decoded.getD r0, storeTime + cacheDuration⟩) ∧
    (∀ k, k ≠ key →
      (ExecuteHttpRequest marshal client now storeTime cache "GET" url
        headers useBody body (some r0) cacheDuration).cache k = cache k) := by
  obtain ⟨-, hreq, -⟩ := ExecuteHttpRequest_live marshal client now storeTime cache "GET" url
    headers useBody body (some r0) cacheDuration req hlive
  have hcalls : remoteCalls (ExecuteHttpRequest marshal client now storeTime cache "GET" url
        headers useBody body (some r0) cacheDuration).trace ≠ 0 := by
    intro h0
    have hnone : ∀ (tr : List (Event B T)), remoteCalls tr = 0 → Event.remote req ∉ tr := by
      intro tr
      induction tr with
      | nil => simp
      | cons x xs ih =>
        cases x <;> simp [remoteCalls] <;> exact ih
    exact hnone _ h0 hlive
  obtain ⟨hres, hcache⟩ := ExecuteHttpRequest_live_success_stores marshal client now storeTime
    cache url headers useBody body cacheDuration key r0 hkey hok hcalls
  rw [hres, hcache, hreq]
  refine ⟨rfl, by simp [Cache.Store], fun k hk => by simp [Cache.Store, hk]⟩

theorem ExecuteHttpRequest_success_overwrites_entry_witness :
    (ExecuteHttpRequest (B := Unit) (T := Nat) (fun _ => .ok "null")
        (fun _ => ⟨none, 200, "200 OK", some 9⟩) 20 21
        (Cache.empty.Store "GET_http://spider/vpc" ⟨7, 10⟩)
        "GET" "http://spider/vpc" none false () (some 0) 2).cache "GET_http://spider/vpc"
      = some (CacheEntry.item ⟨(some 9 : Option Nat).getD 0, 21 + 2⟩) :=
  (ExecuteHttpRequest_success_overwrites_entry (fun _ => .ok "null")
    (fun _ => ⟨none, 200, "200 OK", some 9⟩) 20 21
    (Cache.empty.Store "GET_http://spider/vpc" ⟨7, 10⟩) "http://spider/vpc" none false () 2
    "GET_http://spider/vpc" 0 (liveRequest "GET" "http://spider/vpc" none false ())
    rfl (by decide) (by decide)).2.1

end twoCalls


section keys

variable {B : Type} (marshal : B → Except String String)

theorem cacheKey_no_body (method url : String) (body : B) :
    cacheKey marshal method url false body = .ok (method ++ "_" ++ url) := by
  simp [cacheKey]

theorem cacheKey_with_body (method url : String) (body : B) (k : String)
    (h : cacheKey marshal method url true body = .ok k) :
    ∃ s, marshal body = .ok s ∧ k = method ++ "_" ++ url ++ "_" ++ s := by
  unfold cacheKey at h
  simp only [if_true] at h
  rcases hm : marshal body with e | s
  · rw [hm] at h; simp at h
  · rw [hm] at h
    simp only [Except.ok.injEq] at h
    exact ⟨s, rfl, h.symm⟩

theorem split_at_first {α : Type} (a : α) :
    ∀ (l1 l2 r1 r2 : List α), a ∉ l1 → a ∉ l2 → l1 ++ a :: r1 = l2 ++ a :: r2 →
      l1 = l2 ∧ r1 = r2
  | [], [], _, _, _, _, h => by simpa using h
  | [], y :: l2, _, _, _, h2, h => by
      simp at h
      exact absurd h.1 (by intro hy; exact h2 (by simp [hy]))
  | x :: l1, [], _, _, h1, _, h => by
      simp at h
      exact absurd h.1 (by intro hx; exact h1 (by simp [hx]))
  | x :: l1, y :: l2, r1, r2, h1, h2, h => by
      simp at h
      have := split_at_first a l1 l2 r1 r2 (fun hm => h1 (by simp [hm]))
        (fun hm => h2 (by simp [hm])) h.2
      exact ⟨by rw [h.1, this.1], this.2⟩

/-- Equal cache keys of two GET requests, read off as far as the key
determines the request. -/
theorem cacheKey_eq_cases (u1 u2 : String) (ub1 ub2 : Bool) (b1 b2 : B) (k : String)
    (hk1 : cacheKey marshal "GET" u1 ub1 b1 = .ok k)
    (hk2 : cacheKey marshal "GET" u2 ub2 b2 = .ok k) :
    (ub1 = false → ub2 = false → u1 = u2) ∧
    (u1 = u2 → ub1 = ub2 ∧ (ub1 = true → marshal b1 = marshal b2)) ∧
    ('_' ∉ u1.data → '_' ∉ u2.data →
      u1 = u2 ∧ ub1 = ub2 ∧ (ub1 = true → marshal b1 = marshal b2)) := by
  have hdata : ∀ s t : String, s.data = t.data → s = t := fun s t h => String.ext h
  cases ub1 <;> cases ub2
  · rw [cacheKey_no_body] at hk1 hk2
    simp only [Except.ok.injEq] at hk1 hk2
    have h := congrArg String.data (hk1.trans hk2.symm)
    simp only [String.data_append, List.append_assoc, List.append_cancel_left_eq] at h
    have hu := hdata _ _ h
    exact ⟨fun _ _ => hu, fun _ => ⟨rfl, by simp⟩, fun _ _ => ⟨hu, rfl, by simp⟩⟩
  · rw [cacheKey_no_body] at hk1
    obtain ⟨s2, hs2, hk2⟩ := cacheKey_with_body marshal _ _ _ _ hk2
    simp only [Except.ok.injEq] at hk1
    have h := congrArg String.data (hk1.trans hk2)
    simp only [String.data_append, List.append_assoc, List.append_cancel_left_eq] at h
    refine ⟨by simp, ?_, ?_⟩
    · intro hu
      rw [hu] at h
      have := congrArg List.length h
      simp at this
    · intro h1 _
      exact absurd (show '_' ∈ u1.data by rw [h]; simp [show "_".data = ['_'] from rfl]) h1
  · rw [cacheKey_no_body] at hk2
    obtain ⟨s1, hs1, hk1⟩ := cacheKey_with_body marshal _ _ _ _ hk1
    simp only [Except.ok.injEq] at hk2
    have h := congrArg String.data (hk2.trans hk1)
    simp only [String.data_append, List.append_assoc, List.append_cancel_left_eq] at h
    refine ⟨by simp, ?_, ?_⟩
    · intro hu
      rw [hu] at h
      have := congrArg List.length h
      simp at this
    · intro _ h2
      exact absurd (show '_' ∈ u2.data by rw [h]; simp [show "_".data = ['_'] from rfl]) h2
  · obtain ⟨s1, hs1, hk1⟩ := cacheKey_with_body marshal _ _ _ _ hk1
    obtain ⟨s2, hs2, hk2⟩ := cacheKey_with_body marshal _ _ _ _ hk2
    have h := congrArg String.data (hk1.symm.trans hk2)
    simp only [String.data_append, List.append_assoc, List.append_cancel_left_eq] at h
    simp only [List.singleton_append] at h
    refine ⟨by simp, ?_, ?_⟩
    · intro hu
      rw [hu] at h
      simp only [List.append_cancel_left_eq, List.cons.injEq, true_and] at h
      exact ⟨rfl, fun _ => by rw [hs1, hs2, hdata _ _ h]⟩
    · intro h1 h2
      obtain ⟨hu, hs⟩ := split_at_first '_' _ _ _ _ h1 h2 h
      exact ⟨hdata _ _ hu, rfl, fun _ => by rw [hs1, hs2, hdata _ _ hs]⟩

/-- C9 (as stated, refuted): the GET request for url `http://spider/vm_null`
without a body and the GET request for url `http://spider/vm` with a body that
serializes to `null` differ in url and in whether a body is used, and have the
same cache key. -/
theorem cacheKey_collision :
    "http://spider/vm_null" ≠ "http://spider/vm" ∧ false ≠ true ∧
    cacheKey (fun _ : Unit => .ok "null") "GET" "http://spider/vm_null" false ()
      = cacheKey (fun _ : Unit => .ok "null") "GET" "http://spider/vm" true () ∧
    cacheKey (fun _ : Unit => .ok "null") "GET" "http://spider/vm" true ()
      = .ok "GET_http://spider/vm_null" := by
  refine ⟨by decide, by decide, rfl, rfl⟩

/-- C9 (amended): for GET requests r1 and r2 that both have a cache key:
if neither uses a body and the urls differ, the keys differ; if the urls are
equal and the requests differ in whether a body is used or in the serialized
body, the keys differ; and if neither url contains the character `_`, then
the keys differ as soon as the requests differ in url, in whether a body is
used, or in the serialized body. -/
theorem cacheKey_separates (u1 u2 : String) (ub1 ub2 : Bool) (b1 b2 : B) (k1 k2 : String)
    (hk1 : cacheKey marshal "GET" u1 ub1 b1 = .ok k1)
    (hk2 : cacheKey marshal "GET" u2 ub2 b2 = .ok k2) :
    (ub1 = false → ub2 = false → u1 ≠ u2 → k1 ≠ k2) ∧
    (u1 = u2 → (ub1 ≠ ub2 ∨ (ub1 = true ∧ marshal b1 ≠ marshal b2)) → k1 ≠ k2) ∧
    ('_' ∉ u1.data → '_' ∉ u2.data →
      (u1 ≠ u2 ∨ ub1 ≠ ub2 ∨ (ub1 = true ∧ marshal b1 ≠ marshal b2)) → k1 ≠ k2) := by
  refine ⟨?_, ?_, ?_⟩
  · intro h1 h2 hu hk
    subst hk
    exact hu ((cacheKey_eq_cases marshal u1 u2 ub1 ub2 b1 b2 k1 hk1 hk2).1 h1 h2)
  · intro hu hd hk
    subst hk
    obtain ⟨hub, hs⟩ := (cacheKey_eq_cases marshal u1 u2 ub1 ub2 b1 b2 k1 hk1 hk2).2.1 hu
    rcases hd with hd | ⟨ht, hd⟩
    · exact hd hub
    · exact hd (hs ht)
  · intro h1 h2 hd hk
    subst hk
    obtain ⟨hu, hub, hs⟩ := (cacheKey_eq_cases marshal u1 u2 ub1 ub2 b1 b2 k1 hk1 hk2).2.2 h1 h2
    rcases hd with hd | hd | ⟨ht, hd⟩
    · exact hd hu
    · exact hd hub
    · exact hd (hs ht)

theorem cacheKey_separates_witness :
    "GET_http://spider/vm" ≠ "GET_http://spider/vm_null" :=
  (cacheKey_separates (fun _ : Unit => .ok "null") "http://spider/vm" "http://spider/vm"
    false true () () "GET_http://spider/vm" "GET_http://spider/vm_null" rfl rfl).2.1 rfl
    (Or.inl (by decide))

end keys

end common
end Tumblebug

namespace Tumblebug
namespace mcir

open common (IID KeyValue Store Outcome RestResponse RestResult)

/-- C1: a create request that passes validation and whose name the uniqueness
check reports as existing fails with the already-exists error of its kind,
performs no action at all (no driver call over REST or RPC, no store call) and
leaves the store as it was; for `CreateSshKey` and for `CreateSecurityGroup`
in every mode. -/
theorem create_existing_resource_fails (env : Env) (store : Store) (nsId : String)
    (uk : TbSshKeyReq) (us : TbSecurityGroupReq) (option : String)
    (hns : env.CheckString nsId = none) :
    (env.validateSshKeyReq uk = none →
      (env.CheckResource store nsId env.StrSSHKey uk.Name).1 = true →
      (CreateSshKey env store nsId uk).ret
        = Outcome.returned {} (some ("The sshKey " ++ uk.Name ++ " already exists.")) ∧
      (CreateSshKey env store nsId uk).trace = [] ∧
      (CreateSshKey env store nsId uk).store = store) ∧
    ((option ≠ "register" → env.validateFirewallRules us.FirewallRules = none) →
      env.validateSecurityGroupReq us = none →
      (env.CheckResource store nsId env.StrSecurityGroup us.Name).1 = true →
      (CreateSecurityGroup env store nsId us option).ret
        = Outcome.returned {} (some ("The securityGroup " ++ us.Name ++ " already exists.")) ∧
      (CreateSecurityGroup env store nsId us option).trace = [] ∧
      (CreateSecurityGroup env store nsId us option).store = store) := by
  constructor
  · intro hval hcheck
    simp [CreateSshKey, hns, hval, hcheck]
  · intro hrules hval hcheck
    have hr : (if option ≠ "register" then env.validateFirewallRules us.FirewallRules else none)
        = none := by
      by_cases ho : option = "register"
      · simp [ho]
      · simp [ho, hrules ho]
    simp only [CreateSecurityGroup, hns, hr, hval, hcheck, if_true]
    simp

theorem create_existing_resource_fails_witness :
    (CreateSshKey (sampleEnv "REST")
        (common.Store.empty.put "/ns/ns01/resources/sshKey/key01" "key01") "ns01"
        { Name := "key01", ConnectionName := "conn01" }).trace = [] ∧
    (CreateSecurityGroup (sampleEnv "REST")
        (common.Store.empty.put "/ns/ns01/resources/securityGroup/sg01" "sg01") "ns01"
        { Name := "sg01", ConnectionName := "conn01", VNetId := "vnet01" } "register").trace
      = [] :=
  ⟨((create_existing_resource_fails (sampleEnv "REST")
      (common.Store.empty.put "/ns/ns01/resources/sshKey/key01" "key01") "ns01"
      { Name := "key01", ConnectionName := "conn01" } {} "" rfl).1 rfl (by decide)).2.1,
   ((create_existing_resource_fails (sampleEnv "REST")
      (common.Store.empty.put "/ns/ns01/resources/securityGroup/sg01" "sg01") "ns01"
      {} { Name := "sg01", ConnectionName := "conn01", VNetId := "vnet01" } "register" rfl).2
      (fun _ => rfl) rfl (by decide)).2.1⟩


/-- When the driver invocation fails, `CreateSshKey` returns an error, writes
nothing and leaves the store as it was. -/
theorem CreateSshKey_driver_failure (env : Env) (store : Store) (nsId : String)
    (u : TbSshKeyReq) (hfail : keyPairDriverFails env u) :
    returnedError (CreateSshKey env store nsId u).ret ∧
    (CreateSshKey env store nsId u).store = store ∧
    noStorePut (CreateSshKey env store nsId u).trace := by
  unfold keyPairDriverFails at hfail
  unfold CreateSshKey returnedError noStorePut
  split
  · simp
  · split
    · simp
    · split
      · simp
      · split
        · simp
        · by_cases hrest : env.Getenv "SPIDER_CALL_METHOD" = "REST"
          · simp only [hrest, if_true] at hfail ⊢
            rcases hfail with herr | ⟨resp, hresp, hcode⟩
            · rcases h : (env.restKeyPair "POST" (env.SpiderRestUrl ++ "/keypair")
                (keyPairReq u)).err with _ | e
              · exact absurd h herr
              · simp
            · rcases h : (env.restKeyPair "POST" (env.SpiderRestUrl ++ "/keypair")
                (keyPairReq u)).err with _ | e
              · simp [hresp, hcode]
              · simp
          · simp only [hrest, if_false] at hfail ⊢
            split
            · simp
            · split
              · simp
              · rcases hfail with ⟨e, he⟩ | ⟨r, e, hr, he⟩
                · simp [he]
                · simp [hr, he]


/-- The actions of the persist step: the earlier actions, then the store calls,
then the deferred actions. -/
theorem storeSecurityGroup_trace (env : Env) (store : Store) (nsId : String)
    (u : TbSecurityGroupReq) (option : String) (info : SpiderSecurityInfo)
    (trace deferred : List Event) :
    (storeSecurityGroup env store nsId u option info trace deferred).trace
        = trace ++ [Event.storePut
            (env.GenResourceKey nsId env.StrSecurityGroup u.Name)
            (env.marshalSecurityGroupInfo (securityGroupContent u option info))] ++ deferred ∨
      (storeSecurityGroup env store nsId u option info trace deferred).trace
        = trace ++ [Event.storePut
            (env.GenResourceKey nsId env.StrSecurityGroup u.Name)
            (env.marshalSecurityGroupInfo (securityGroupContent u option info)),
          Event.storeGet (env.GenResourceKey nsId env.StrSecurityGroup u.Name)] ++ deferred := by
  unfold storeSecurityGroup
  dsimp only
  split
  · left; rfl
  · split
    · right; rfl
    · right; rfl

/-- Either `CreateSecurityGroup` returns an error before any action, or it goes
on to the driver call with the resolved request and a vNet record. -/
theorem CreateSecurityGroup_cases (env : Env) (store : Store) (nsId : String)
    (u : TbSecurityGroupReq) (option : String) :
    (∃ e, CreateSecurityGroup env store nsId u option
        = ⟨Outcome.returned {} (some e), store, []⟩) ∨
    ∃ vNetInfo, CreateSecurityGroup env store nsId u option
        = callSecurityDriver env store nsId (resolvedReq env store nsId u option) option
            vNetInfo := by
  unfold CreateSecurityGroup resolvedReq
  split
  · exact Or.inl ⟨_, rfl⟩
  · split
    · exact Or.inl ⟨_, rfl⟩
    · split
      · exact Or.inl ⟨_, rfl⟩
      · split
        · exact Or.inl ⟨_, rfl⟩
        · split
          · exact Or.inl ⟨_, rfl⟩
          · split
            · split
              · exact Or.inl ⟨_, rfl⟩
              · split
                · exact Or.inl ⟨_, rfl⟩
                · unfold resolveVNet
                  split
                  · exact Or.inl ⟨_, rfl⟩
                  · split
                    · exact Or.inl ⟨_, rfl⟩
                    · exact Or.inr ⟨_, rfl⟩
            · unfold resolveVNet
              split
              · exact Or.inl ⟨_, rfl⟩
              · split
                · exact Or.inl ⟨_, rfl⟩
                · exact Or.inr ⟨_, rfl⟩

/-- When the driver invocation fails, the driver step of `CreateSecurityGroup`
returns an error, writes nothing and leaves the store as it was. -/
theorem callSecurityDriver_driver_failure (env : Env) (store : Store) (nsId : String)
    (u : TbSecurityGroupReq) (option : String) (vNetInfo : TbVNetInfo)
    (hfail : securityDriverFails env nsId u option vNetInfo) :
    returnedError (callSecurityDriver env store nsId u option vNetInfo).ret ∧
    (callSecurityDriver env store nsId u option vNetInfo).store = store ∧
    noStorePut (callSecurityDriver env store nsId u option vNetInfo).trace := by
  unfold securityDriverFails at hfail
  unfold callSecurityDriver returnedError noStorePut
  by_cases hrest : env.Getenv "SPIDER_CALL_METHOD" = "REST"
  · simp only [hrest, if_true] at hfail ⊢
    rcases hfail with herr | ⟨resp, hresp, hcode⟩
    · rcases h : (env.restSecurity (securityRestMethod u option) (securityRestUrl env u option)
        (securityReq nsId u vNetInfo)).err with _ | e
      · exact absurd h herr
      · simp
    · rcases h : (env.restSecurity (securityRestMethod u option) (securityRestUrl env u option)
        (securityReq nsId u vNetInfo)).err with _ | e
      · simp [hresp, hcode]
      · simp
  · simp only [hrest, if_false] at hfail ⊢
    split
    · simp
    · split
      · simp
      · rcases hfail with ⟨e, he⟩ | ⟨r, e, hr, he⟩
        · simp [he]
        · simp [hr, he]

/-- In register mode over REST the only driver request is the GET by name or
the POST to `/regsecuritygroup`. -/
theorem callSecurityDriver_register_rest (env : Env) (store : Store) (nsId : String)
    (u : TbSecurityGroupReq) (vNetInfo : TbVNetInfo)
    (hrest : env.Getenv "SPIDER_CALL_METHOD" = "REST") :
    (callSecurityDriver env store nsId u "register" vNetInfo).trace.head?
      = some (Event.restSecurity (securityRestMethod u "register")
          (securityRestUrl env u "register") (securityReq nsId u vNetInfo)) ∧
    ((securityRestMethod u "register" = "GET" ∧
        securityRestUrl env u "register" = env.SpiderRestUrl ++ "/securitygroup/" ++ u.Name) ∨
      (securityRestMethod u "register" = "POST" ∧
        securityRestUrl env u "register" = env.SpiderRestUrl ++ "/regsecuritygroup")) := by
  constructor
  · unfold callSecurityDriver
    simp only [hrest, if_true]
    split
    · rfl
    · split
      · rfl
      · split
        · rfl
        · rcases storeSecurityGroup_trace env store nsId u "register" _
            [Event.restSecurity (securityRestMethod u "register")
              (securityRestUrl env u "register") (securityReq nsId u vNetInfo)] [] with h | h
          · rw [h]; rfl
          · rw [h]; rfl
  · by_cases hid : u.CspSecurityGroupId = ""
    · left; simp [securityRestMethod, securityRestUrl, hid]
    · right; simp [securityRestMethod, securityRestUrl, hid]

/-- In register mode over RPC, once the handle is open, the method called on it
is `CreateVPC`. -/
theorem callSecurityDriver_register_rpc (env : Env) (store : Store) (nsId : String)
    (u : TbSecurityGroupReq) (vNetInfo : TbVNetInfo)
    (hrpc : env.Getenv "SPIDER_CALL_METHOD" ≠ "REST")
    (hpath : env.SetConfigPath (env.Getenv "CBTUMBLEBUG_ROOT" ++ "/conf/grpc_conf.yaml") = none)
    (hopen : env.Open = none) :
    (callSecurityDriver env store nsId u "register" vNetInfo).trace.take 3
      = [Event.rpcSetConfigPath (env.Getenv "CBTUMBLEBUG_ROOT" ++ "/conf/grpc_conf.yaml"),
          Event.rpcOpen,
          Event.rpcCall "CreateVPC" (env.marshalSecurityReq (securityReq nsId u vNetInfo))] := by
  unfold callSecurityDriver
  simp only [hrpc, if_false, hpath, hopen]
  have hverb : securityRpcVerb "register" = "CreateVPC" := by simp [securityRpcVerb]
  rw [hverb]
  split
  · rfl
  · split
    · rfl
    · rfl
    · rcases storeSecurityGroup_trace env store nsId u "register" _
        [Event.rpcSetConfigPath (env.Getenv "CBTUMBLEBUG_ROOT" ++ "/conf/grpc_conf.yaml"),
          Event.rpcOpen,
          Event.rpcCall "CreateVPC" (env.marshalSecurityReq (securityReq nsId u vNetInfo))]
        [Event.rpcClose] with h | h
      · rw [h]; rfl
      · rw [h]; rfl

/-- C10 (code defect): a register-mode call over the RPC transport
(`SPIDER_CALL_METHOD` is `gRPC`) calls `CreateVPC` on the handle, a
provisioning method; the same call over REST sends the POST to
`/regsecuritygroup`, and a create-mode call over RPC calls `GetVPC`: the two
branches of lines 323-327 are interchanged. -/
theorem CreateSecurityGroup_register_over_rpc_calls_CreateVPC :
    (CreateSecurityGroup (sampleEnv "gRPC") common.Store.empty "ns01"
        { Name := "sg01", ConnectionName := "conn01", VNetId := "vnet01",
          CspSecurityGroupId := "sg-0001" } "register").trace
      = [Event.rpcSetConfigPath "/tb/conf/grpc_conf.yaml", Event.rpcOpen,
          Event.rpcCall "CreateVPC" "ns01-sg01",
          Event.storePut "/ns/ns01/resources/securityGroup/sg01" "sg01",
          Event.storeGet "/ns/ns01/resources/securityGroup/sg01", Event.rpcClose] ∧
    (CreateSecurityGroup (sampleEnv "REST") common.Store.empty "ns01"
        { Name := "sg01", ConnectionName := "conn01", VNetId := "vnet01",
          CspSecurityGroupId := "sg-0001" } "register").trace.head?
      = some (Event.restSecurity "POST" "http://localhost:1024/spider/regsecuritygroup"
          { ConnectionName := "conn01",
            ReqInfo := { Name := "ns01-sg01", VPCName := "ns01-vnet01", CSPId := "sg-0001" } }) ∧
    (CreateSecurityGroup (sampleEnv "gRPC") common.Store.empty "ns01"
        { Name := "sg01", ConnectionName := "conn01", VNetId := "vnet01",
          FirewallRules := some [] } "").trace.take 3
      = [Event.rpcSetConfigPath "/tb/conf/grpc_conf.yaml", Event.rpcOpen,
          Event.rpcCall "GetVPC" "ns01-sg01"] := by
  decide

end mcir

namespace infra

open common (IID KeyValue Store Outcome RestResponse RestResult)

/-- A response status outside [200,400) makes `CreateVmSnapshot` return an
error before anything is registered; the store is as it was. -/
theorem CreateVmSnapshot_error_status (env : Env) (store : Store)
    (nsId mciId vmId snapshotName : String) (resp : RestResponse SpiderMyImageInfo)
    (hresp : ∀ body, (env.restMyImage "POST" (env.SpiderRestUrl ++ "/myimage") body).resp
      = some resp)
    (hcode : resp.statusCode ≥ 400 ∨ resp.statusCode < 200) :
    (∃ e, (CreateVmSnapshot env store nsId mciId vmId snapshotName).ret
      = Outcome.returned {} (some e)) ∧
    (CreateVmSnapshot env store nsId mciId vmId snapshotName).store = store := by
  unfold CreateVmSnapshot
  by_cases h : (env.GetKv store (env.GenMciKey nsId mciId vmId)).1 = {} ∨
      (env.GetKv store (env.GenMciKey nsId mciId vmId)).2.isSome
  · simp [h]
  · simp [h, hresp, hcode]

/-- C2 (code defect): `POST /myimage` fails with a transport error (a redirect
loop, the last response having status 302), and `CreateVmSnapshot`, which
does not inspect the error of `req.Post`, returns a record with a nil error
and leaves a new record in the key store. -/
theorem CreateVmSnapshot_transport_error_persists :
    (redirectEnv.restMyImage "POST" "http://localhost:1024/spider/myimage"
        { ConnectionName := "conn01", Name := "snap01", SourceVM := "vm01" }).err
      = some "stopped after 10 redirects" ∧
    (CreateVmSnapshot redirectEnv vmStore "ns01" "mci01" "vm01" "snap01").trace
      = [Event.restMyImage "POST" "http://localhost:1024/spider/myimage"
            { ConnectionName := "conn01", Name := "snap01", SourceVM := "vm01" },
          Event.registerCustomImage "ns01"
            { Namespace := "ns01", Name := "snap01", ConnectionName := "conn01",
              SourceVmId := "vm01" }] ∧
    (CreateVmSnapshot redirectEnv vmStore "ns01" "mci01" "vm01" "snap01").ret
      = Outcome.returned
          { Namespace := "ns01", Id := "snap01", Name := "snap01", ConnectionName := "conn01",
            SourceVmId := "vm01" } none ∧
    vmStore "/ns/ns01/resources/customImage/snap01" = none ∧
    (CreateVmSnapshot redirectEnv vmStore "ns01" "mci01" "vm01" "snap01").store
        "/ns/ns01/resources/customImage/snap01" = some "snap01" := by
  decide

end infra
end Tumblebug

namespace Tumblebug
namespace common

section failedGet

variable {B T : Type} (marshal : B → Except String String)
  (client : Request B → HttpResponse T) (now storeTime : Int) (cache : Cache T)
  (url : String) (headers : Option (List (String × String))) (useBody : Bool) (body : B)
  (result : Option T) (cacheDuration : Int) (key : String)

/-- A live GET request that ends in an error leaves the cache it started
from. -/
theorem performRequest_error_keeps_cache (e : String) (c : Cache T) (tr : List (Event B T))
    (hfail : (performRequest client storeTime "GET" url headers useBody body result
        cacheDuration key c tr).ret = Ret.returned (some e)) :
    (performRequest client storeTime "GET" url headers useBody body result
        cacheDuration key c tr).cache = c := by
  rcases herr : (client (liveRequest "GET" url headers useBody body)).err with _ | e2
  · by_cases hcode : 399 < (client (liveRequest "GET" url headers useBody body)).statusCode
    · rw [performRequest_status_error client storeTime c "GET" url headers useBody body
        result cacheDuration key tr supported_get herr hcode]
    · cases result with
      | none =>
        rw [performRequest_ok_get_nil client storeTime c url headers useBody body
          cacheDuration key tr herr (not_lt.mp hcode)] at hfail
        simp at hfail
      | some r0 =>
        rw [performRequest_ok_get client storeTime c url headers useBody body
          cacheDuration key tr r0 herr (not_lt.mp hcode)] at hfail
        simp at hfail
  · rw [performRequest_transport_error client storeTime c "GET" url headers useBody body
      result cacheDuration key tr supported_get e2 herr]

/-- C20: a GET call that reaches the live request and returns an error (the
transport failed or the status is an error status) leaves no entry under its
cache key, whether the key was absent or held a stale entry before, and
leaves the entry of every other key as it was. -/
theorem ExecuteHttpRequest_failed_get_leaves_no_entry (req : Request B) (e : String)
    (hkey : cacheKey marshal "GET" url useBody body = .ok key)
    (hlive : Event.remote req ∈ (ExecuteHttpRequest marshal client now storeTime cache "GET" url
        headers useBody body result cacheDuration).trace)
    (hfail : (ExecuteHttpRequest marshal client now storeTime cache "GET" url
        headers useBody body result cacheDuration).ret = Ret.returned (some e)) :
    (ExecuteHttpRequest marshal client now storeTime cache "GET" url
        headers useBody body result cacheDuration).cache key = none ∧
    (∀ k, k ≠ key →
      (ExecuteHttpRequest marshal client now storeTime cache "GET" url
        headers useBody body result cacheDuration).cache k = cache k) := by
  rcases hfound : cache key with _ | (item | expiresAt)
  · rw [ExecuteHttpRequest_of_absent marshal client now storeTime cache url headers useBody
      body result cacheDuration key hkey hfound] at hfail ⊢
    rw [performRequest_error_keeps_cache client storeTime url headers useBody body result
      cacheDuration key e cache [] hfail]
    exact ⟨hfound, fun _ _ => rfl⟩
  · by_cases hfresh : now < item.ExpiresAt
    · rw [(ExecuteHttpRequest_of_fresh marshal client now storeTime cache url headers useBody
        body result cacheDuration key item hkey hfound hfresh).1] at hlive
      simp at hlive
    · rw [ExecuteHttpRequest_of_expired marshal client now storeTime cache url headers useBody
        body result cacheDuration key item hkey hfound (not_lt.mp hfresh)] at hfail ⊢
      rw [performRequest_error_keeps_cache client storeTime url headers useBody body result
        cacheDuration key e (cache.Delete key) [Event.cacheDelete key] hfail]
      exact ⟨by simp [Cache.Delete], fun k hk => by simp [Cache.Delete, hk]⟩
  · rw [ExecuteHttpRequest_of_other marshal client now storeTime cache url headers useBody
      body result cacheDuration key expiresAt hkey hfound] at hlive
    simp at hlive

theorem ExecuteHttpRequest_failed_get_leaves_no_entry_witness :
    (ExecuteHttpRequest (B := Unit) (T := Nat) (fun _ => .ok "null")
        (fun _ => ⟨none, 503, "503 Service Unavailable", none⟩) 20 21
        (Cache.empty.Store "GET_http://spider/vpc" ⟨7, 10⟩)
        "GET" "http://spider/vpc" none false () (some 0) 2).cache "GET_http://spider/vpc"
      = none :=
  (ExecuteHttpRequest_failed_get_leaves_no_entry (fun _ => .ok "null")
    (fun _ => ⟨none, 503, "503 Service Unavailable", none⟩) 20 21
    (Cache.empty.Store "GET_http://spider/vpc" ⟨7, 10⟩) "http://spider/vpc" none false ()
    (some 0) 2 "GET_http://spider/vpc"
    (liveRequest "GET" "http://spider/vpc" none false ())
    "[Error from: http://spider/vpc] Status code: 503 Service Unavailable"
    rfl (by decide) (by decide)).1

end failedGet

section ledger

variable {Req Resp : Type}

theorem validStatus_handling : validStatus "Handling" := Or.inl rfl

theorem validStatus_success : validStatus "Success" := Or.inr (Or.inl rfl)

theorem validStatus_error : validStatus "Error" := Or.inr (Or.inr rfl)

theorem RequestMap.wellFormed_Store (m : RequestMap Req Resp) (reqID : String)
    (details : RequestDetails Req Resp) (hm : m.wellFormed)
    (hd : validStatus details.Status) : (m.Store reqID details).wellFormed := by
  intro k d hk
  unfold RequestMap.Store at hk
  by_cases h : k = reqID
  · simp [h] at hk
    rw [← hk]
    exact hd
  · simp [h] at hk
    exact hm k d hk

/-- C17: `StartRequest` stores under the id it returns a record with status
`Handling`; `EndRequest` on a known id stores status `Error` with the error
when the error is not nil, and status `Success` with the response data
otherwise; on an unknown id it stores nothing; and both keep the ledger
well-formed: every record has status `Handling`, `Success` or `Error`. -/
theorem request_ledger_status (m : RequestMap Req Resp) (unixNano now : Int) (request : Req)
    (reqID : String) (err : Option String) (responseData : Option Resp) :
    ((StartRequest m unixNano now request).2 (StartRequest m unixNano now request).1
      = some { StartTime := now, Status := "Handling", RequestData := some request }) ∧
    (∀ v e, m reqID = some v → err = some e →
      (EndRequest m now reqID err responseData).requestMap reqID
        = some { v with EndTime := now, Status := "Error", ErrorResponse := some e }) ∧
    (∀ v, m reqID = some v → err = none →
      (EndRequest m now reqID err responseData).requestMap reqID
        = some { v with EndTime := now, Status := "Success", ResponseData := responseData }) ∧
    (m reqID = none → (EndRequest m now reqID err responseData).requestMap = m) ∧
    (m.wellFormed → (StartRequest m unixNano now request).2.wellFormed) ∧
    (m.wellFormed → (EndRequest m now reqID err responseData).requestMap.wellFormed) := by
  refine ⟨?_, ?_, ?_, ?_, ?_, ?_⟩
  · simp [StartRequest, RequestMap.Store]
  · intro v e hv he
    simp [EndRequest, hv, he, RequestMap.Store]
  · intro v hv he
    simp [EndRequest, hv, he, RequestMap.Store]
  · intro hv
    simp [EndRequest, hv]
  · intro hm
    exact RequestMap.wellFormed_Store m _ _ hm validStatus_handling
  · intro hm
    unfold EndRequest
    rcases hv : m reqID with _ | v
    · exact hm
    · rcases err with _ | e
      · exact RequestMap.wellFormed_Store m _ _ hm validStatus_success
      · exact RequestMap.wellFormed_Store m _ _ hm validStatus_error

theorem request_ledger_status_witness :
    (EndRequest (StartRequest ((fun _ => none) : RequestMap String String) 1700 1701
        "GET /ns/ns01/control/mcis/mcis01").2 1800 "1700" (some "timeout") none).requestMap
        "1700"
      = some { StartTime := 1701, EndTime := 1800, Status := "Error",
               RequestData := some "GET /ns/ns01/control/mcis/mcis01",
               ErrorResponse := some "timeout" } :=
  (request_ledger_status (StartRequest ((fun _ => none) : RequestMap String String) 1700 1701
      "GET /ns/ns01/control/mcis/mcis01").2 0 1800 "" "1700" (some "timeout") none).2.1
    { StartTime := 1701, Status := "Handling",
      RequestData := some "GET /ns/ns01/control/mcis/mcis01" } "timeout" (by decide) rfl

end ledger

end common
end Tumblebug

namespace Tumblebug
namespace rest

/-- The actions `RestGetControlMcis` accepts. -/
theorem RestGetControlMcis_legal (core : Core) (c : Context)
    (hlegal : c.QueryParam "action" = "suspend" ∨ c.QueryParam "action" = "resume" ∨
      c.QueryParam "action" = "reboot" ∨ c.QueryParam "action" = "terminate" ∨
      c.QueryParam "action" = "refine") :
    (RestGetControlMcis core c).calls
      = [Call.handleMcisAction (c.Param "nsId") (c.Param "mcisId") (c.QueryParam "action")
          (if c.QueryParam "force" = "true" then true else false)] := by
  unfold RestGetControlMcis
  simp only [hlegal, if_true]
  split <;> rfl

theorem RestGetControlMcis_illegal (core : Core) (c : Context)
    (hillegal : ¬ (c.QueryParam "action" = "suspend" ∨ c.QueryParam "action" = "resume" ∨
      c.QueryParam "action" = "reboot" ∨ c.QueryParam "action" = "terminate" ∨
      c.QueryParam "action" = "refine")) :
    RestGetControlMcis core c
      = ⟨400, "'action' should be one of these: suspend, resume, reboot, terminate, refine",
          []⟩ := by
  unfold RestGetControlMcis
  simp only [hillegal, if_false]

theorem RestGetControlMcisVm_legal (core : Core) (c : Context)
    (hlegal : c.QueryParam "action" = "suspend" ∨ c.QueryParam "action" = "resume" ∨
      c.QueryParam "action" = "reboot" ∨ c.QueryParam "action" = "terminate") :
    (RestGetControlMcisVm core c).calls
      = [Call.coreGetMcisVmAction (c.Param "nsId") (c.Param "mcisId") (c.Param "vmId")
          (c.QueryParam "action")] := by
  unfold RestGetControlMcisVm
  simp only [hlegal, if_true]
  split <;> rfl

theorem RestGetControlMcisVm_illegal (core : Core) (c : Context)
    (hillegal : ¬ (c.QueryParam "action" = "suspend" ∨ c.QueryParam "action" = "resume" ∨
      c.QueryParam "action" = "reboot" ∨ c.QueryParam "action" = "terminate")) :
    RestGetControlMcisVm core c
      = ⟨400, "'action' should be one of these: suspend, resume, reboot, terminate", []⟩ := by
  unfold RestGetControlMcisVm
  simp only [hillegal, if_false]

/-- C12: `RestGetControlMcis` makes the call
`mcis.HandleMcisAction(nsId, mcisId, action, forceOption)`, and no other call
into the core, if and only if the action is one of suspend, resume, reboot,
terminate, refine; `RestGetControlMcisVm` makes the call
`mcis.CoreGetMcisVmAction(nsId, mcisId, vmId, action)`, and no other call into
the core, if and only if the action is one of suspend, resume, reboot,
terminate (refine is rejected for a single VM); for every other action the
handler answers 400 with its `'action' should be one of these` message and
makes no call into the core. -/
theorem control_handlers_reject_illegal_action (core : Core) (c : Context) :
    ((RestGetControlMcis core c).calls
        = [Call.handleMcisAction (c.Param "nsId") (c.Param "mcisId") (c.QueryParam "action")
            (if c.QueryParam "force" = "true" then true else false)] ↔
      (c.QueryParam "action" = "suspend" ∨ c.QueryParam "action" = "resume" ∨
        c.QueryParam "action" = "reboot" ∨ c.QueryParam "action" = "terminate" ∨
        c.QueryParam "action" = "refine")) ∧
    ((RestGetControlMcis core c).calls ≠ [] ↔
      (c.QueryParam "action" = "suspend" ∨ c.QueryParam "action" = "resume" ∨
        c.QueryParam "action" = "reboot" ∨ c.QueryParam "action" = "terminate" ∨
        c.QueryParam "action" = "refine")) ∧
    (¬ (c.QueryParam "action" = "suspend" ∨ c.QueryParam "action" = "resume" ∨
        c.QueryParam "action" = "reboot" ∨ c.QueryParam "action" = "terminate" ∨
        c.QueryParam "action" = "refine") →
      RestGetControlMcis core c
        = ⟨400, "'action' should be one of these: suspend, resume, reboot, terminate, refine",
            []⟩) ∧
    ((RestGetControlMcisVm core c).calls
        = [Call.coreGetMcisVmAction (c.Param "nsId") (c.Param "mcisId") (c.Param "vmId")
            (c.QueryParam "action")] ↔
      (c.QueryParam "action" = "suspend" ∨ c.QueryParam "action" = "resume" ∨
        c.QueryParam "action" = "reboot" ∨ c.QueryParam "action" = "terminate")) ∧
    ((RestGetControlMcisVm core c).calls ≠ [] ↔
      (c.QueryParam "action" = "suspend" ∨ c.QueryParam "action" = "resume" ∨
        c.QueryParam "action" = "reboot" ∨ c.QueryParam "action" = "terminate")) ∧
    (¬ (c.QueryParam "action" = "suspend" ∨ c.QueryParam "action" = "resume" ∨
        c.QueryParam "action" = "reboot" ∨ c.QueryParam "action" = "terminate") →
      RestGetControlMcisVm core c
        = ⟨400, "'action' should be one of these: suspend, resume, reboot, terminate", []⟩) ∧
    (c.QueryParam "action" = "refine" →
      RestGetControlMcisVm core c
        = ⟨400, "'action' should be one of these: suspend, resume, reboot, terminate", []⟩) := by
  refine ⟨?_, ?_, RestGetControlMcis_illegal core c, ?_, ?_,
    RestGetControlMcisVm_illegal core c, ?_⟩
  · constructor
    · intro hcalls
      by_contra hillegal
      rw [RestGetControlMcis_illegal core c hillegal] at hcalls
      simp at hcalls
    · exact RestGetControlMcis_legal core c
  · constructor
    · intro hcalls
      by_contra hillegal
      rw [RestGetControlMcis_illegal core c hillegal] at hcalls
      exact hcalls rfl
    · intro hlegal
      rw [RestGetControlMcis_legal core c hlegal]
      simp
  · constructor
    · intro hcalls
      by_contra hillegal
      rw [RestGetControlMcisVm_illegal core c hillegal] at hcalls
      simp at hcalls
    · exact RestGetControlMcisVm_legal core c
  · constructor
    · intro hcalls
      by_contra hillegal
      rw [RestGetControlMcisVm_illegal core c hillegal] at hcalls
      exact hcalls rfl
    · intro hlegal
      rw [RestGetControlMcisVm_legal core c hlegal]
      simp
  · intro hrefine
    apply RestGetControlMcisVm_illegal
    rw [hrefine]
    decide

theorem control_handlers_reject_illegal_action_witness :
    RestGetControlMcisVm terminatedCore (controlRequest "refine" none)
      = ⟨400, "'action' should be one of these: suspend, resume, reboot, terminate", []⟩ ∧
    (RestGetControlMcisVm terminatedCore (controlRequest "reboot" none)).calls
      = [Call.coreGetMcisVmAction "ns01" "mcis01" "vm01" "reboot"] ∧
    (RestGetControlMcis terminatedCore (controlRequest "refine" (some "true"))).calls
      = [Call.handleMcisAction "ns01" "mcis01" "refine" true] :=
  ⟨(control_handlers_reject_illegal_action terminatedCore
      (controlRequest "refine" none)).2.2.2.2.2.2 rfl,
   (control_handlers_reject_illegal_action terminatedCore
      (controlRequest "reboot" none)).2.2.2.1.2 (by decide),
   (control_handlers_reject_illegal_action terminatedCore
      (controlRequest "refine" (some "true"))).1.2 (by decide)⟩

/-- C13 (as stated, refuted): for VM `vm01`, recorded as `Terminated`, the
request `terminate` with `force=true` to `RestGetControlMcisVm` calls the core
without any force flag and gets the same failure, status 500 with the
precondition error, as the request with `force=false`; the dispatcher behind
it made no driver call.  The same pair of requests to `RestGetControlMcis`
does differ. -/
theorem RestGetControlMcisVm_force_true_still_fails :
    RestGetControlMcisVm terminatedCore (controlRequest "terminate" (some "true"))
      = ⟨500, "The VM is Terminated: cannot terminate",
          [Call.coreGetMcisVmAction "ns01" "mcis01" "vm01" "terminate"]⟩ ∧
    RestGetControlMcisVm terminatedCore (controlRequest "terminate" (some "false"))
      = RestGetControlMcisVm terminatedCore (controlRequest "terminate" (some "true")) ∧
    (dispatch notTerminatedTwice "Terminated" "terminate" false).2 = 0 ∧
    (RestGetControlMcis terminatedCore (controlRequest "terminate" (some "false"))).code = 500 ∧
    (RestGetControlMcis terminatedCore (controlRequest "terminate" (some "true"))).code = 200 := by
  decide

/-- C13 (amended): `RestGetControlMcisVm` does not read the query parameter
`force`: two requests with the same path parameters and the same `action` get
the same response and make the same call into the core, whatever their other
query parameters are, and the call `mcis.CoreGetMcisVmAction` carries no force
flag. -/
theorem RestGetControlMcisVm_ignores_force (core : Core) (c1 c2 : Context)
    (hparam : c1.Param = c2.Param)
    (haction : c1.query "action" = c2.query "action") :
    RestGetControlMcisVm core c1 = RestGetControlMcisVm core c2 := by
  have hq : c1.QueryParam "action" = c2.QueryParam "action" := by
    simp [Context.QueryParam, haction]
  unfold RestGetControlMcisVm
  rw [hparam, hq]

theorem RestGetControlMcisVm_ignores_force_witness :
    RestGetControlMcisVm terminatedCore (controlRequest "terminate" (some "true"))
      = RestGetControlMcisVm terminatedCore (controlRequest "terminate" none) :=
  RestGetControlMcisVm_ignores_force terminatedCore
    (controlRequest "terminate" (some "true")) (controlRequest "terminate" none) rfl rfl

/-- C19: the force flag `RestGetControlMcis` passes to `mcis.HandleMcisAction`
is true when the query parameter `force` is exactly the string `true`, and
false for every other value and for an absent parameter. -/
theorem RestGetControlMcis_force_flag (core : Core) (c : Context)
    (hlegal : c.QueryParam "action" = "suspend" ∨ c.QueryParam "action" = "resume" ∨
      c.QueryParam "action" = "reboot" ∨ c.QueryParam "action" = "terminate" ∨
      c.QueryParam "action" = "refine") :
    (c.query "force" = some "true" →
      (RestGetControlMcis core c).calls
        = [Call.handleMcisAction (c.Param "nsId") (c.Param "mcisId") (c.QueryParam "action")
            true]) ∧
    (c.query "force" ≠ some "true" →
      (RestGetControlMcis core c).calls
        = [Call.handleMcisAction (c.Param "nsId") (c.Param "mcisId") (c.QueryParam "action")
            false]) ∧
    (c.query "force" = none →
      (RestGetControlMcis core c).calls
        = [Call.handleMcisAction (c.Param "nsId") (c.Param "mcisId") (c.QueryParam "action")
            false]) := by
  have hcalls := RestGetControlMcis_legal core c hlegal
  have hother : c.query "force" ≠ some "true" →
      (RestGetControlMcis core c).calls
        = [Call.handleMcisAction (c.Param "nsId") (c.Param "mcisId") (c.QueryParam "action")
            false] := by
    intro hf
    rw [hcalls]
    rcases hq : c.query "force" with _ | v
    · simp [Context.QueryParam, hq]
    · have hv : v ≠ "true" := by
        intro hv
        exact hf (by rw [hq, hv])
      simp [Context.QueryParam, hq, hv]
  refine ⟨?_, hother, ?_⟩
  · intro hf
    rw [hcalls]
    simp [Context.QueryParam, hf]
  · intro hf
    exact hother (by rw [hf]; simp)

theorem RestGetControlMcis_force_flag_witness :
    (RestGetControlMcis terminatedCore (controlRequest "refine" (some "true"))).calls
      = [Call.handleMcisAction "ns01" "mcis01" "refine" true] ∧
    (RestGetControlMcis terminatedCore (controlRequest "refine" (some "TRUE"))).calls
      = [Call.handleMcisAction "ns01" "mcis01" "refine" false] ∧
    (RestGetControlMcis terminatedCore (controlRequest "refine" none)).calls
      = [Call.handleMcisAction "ns01" "mcis01" "refine" false] :=
  ⟨(RestGetControlMcis_force_flag terminatedCore (controlRequest "refine" (some "true"))
      (by decide)).1 rfl,
   (RestGetControlMcis_force_flag terminatedCore (controlRequest "refine" (some "TRUE"))
      (by decide)).2.1 (by decide),
   (RestGetControlMcis_force_flag terminatedCore (controlRequest "refine" none)
      (by decide)).2.2 rfl⟩

end rest
end Tumblebug

namespace Tumblebug
namespace mcir

open common (IID KeyValue Store Outcome RestResponse RestResult)

/-- Lines 191-218 change the field `VNetId` of the request and no other. -/
theorem resolvedReq_fields (env : Env) (store : Store) (nsId : String)
    (u : TbSecurityGroupReq) (option : String) :
    (resolvedReq env store nsId u option).Name = u.Name ∧
    (resolvedReq env store nsId u option).ConnectionName = u.ConnectionName ∧
    (resolvedReq env store nsId u option).Description = u.Description ∧
    (resolvedReq env store nsId u option).CspSecurityGroupId = u.CspSecurityGroupId ∧
    (resolvedReq env store nsId u option).FirewallRules = u.FirewallRules := by
  unfold resolvedReq
  split
  · split <;> exact ⟨rfl, rfl, rfl, rfl, rfl⟩
  · exact ⟨rfl, rfl, rfl, rfl, rfl⟩

/-- What a persist step that returns a nil error has done. -/
theorem storeSecurityGroup_success (env : Env) (store : Store) (nsId : String)
    (u : TbSecurityGroupReq) (option : String) (d : SpiderSecurityInfo)
    (trace deferred : List Event) (v : TbSecurityGroupInfo)
    (hok : (storeSecurityGroup env store nsId u option d trace deferred).ret
      = Outcome.returned v none) :
    v = securityGroupContent u option d ∧
    (storeSecurityGroup env store nsId u option d trace deferred).trace
      = trace ++ [Event.storePut (env.GenResourceKey nsId env.StrSecurityGroup u.Name)
            (env.marshalSecurityGroupInfo v),
          Event.storeGet (env.GenResourceKey nsId env.StrSecurityGroup u.Name)] ++ deferred ∧
    (storeSecurityGroup env store nsId u option d trace deferred).store
      = store.put (env.GenResourceKey nsId env.StrSecurityGroup u.Name)
          (env.marshalSecurityGroupInfo v) := by
  unfold storeSecurityGroup at hok ⊢
  dsimp only at hok ⊢
  split at hok
  · simp at hok
  · rename_i hput
    try rw [hput]
    try dsimp only
    split at hok
    · simp at hok
    · rename_i kv hget
      try rw [hget]
      simp only [Outcome.returned.injEq, and_true] at hok
      subst hok
      exact ⟨rfl, rfl, rfl⟩

/-- What a driver step that returns a nil error has done: the driver answered,
the record is built from the answer, and the one store write puts the
serialized record under the key of the name. -/
theorem callSecurityDriver_success (env : Env) (store : Store) (nsId : String)
    (u : TbSecurityGroupReq) (option : String) (vNetInfo : TbVNetInfo)
    (v : TbSecurityGroupInfo)
    (hok : (callSecurityDriver env store nsId u option vNetInfo).ret
      = Outcome.returned v none) :
    ∃ d, securityDriverAnswer env nsId u option vNetInfo d ∧
      v = securityGroupContent u option d ∧
      storePuts (callSecurityDriver env store nsId u option vNetInfo).trace
        = [Event.storePut (env.GenResourceKey nsId env.StrSecurityGroup u.Name)
            (env.marshalSecurityGroupInfo v)] ∧
      (callSecurityDriver env store nsId u option vNetInfo).store
        = store.put (env.GenResourceKey nsId env.StrSecurityGroup u.Name)
            (env.marshalSecurityGroupInfo v) := by
  unfold securityDriverAnswer
  unfold callSecurityDriver at hok ⊢
  by_cases hrest : env.Getenv "SPIDER_CALL_METHOD" = "REST"
  · simp only [hrest, if_true] at hok ⊢
    rcases herr : (env.restSecurity (securityRestMethod u option) (securityRestUrl env u option)
        (securityReq nsId u vNetInfo)).err with _ | e
    · rw [herr] at hok
      dsimp only at hok ⊢
      rcases hresp : (env.restSecurity (securityRestMethod u option)
          (securityRestUrl env u option) (securityReq nsId u vNetInfo)).resp with _ | resp
      · rw [hresp] at hok
        simp at hok
      · rw [hresp] at hok
        dsimp only at hok ⊢
        by_cases hcode : resp.statusCode ≥ 400 ∨ resp.statusCode < 200
        · simp only [hcode, if_true] at hok
          simp at hok
        · simp only [hcode, if_false] at hok ⊢
          obtain ⟨hv, htr, hst⟩ := storeSecurityGroup_success env store nsId u option
            resp.result _ _ v hok
          refine ⟨resp.result, ⟨by first | rfl | trivial, resp, rfl, hcode, rfl⟩, hv, ?_, hst⟩
          rw [htr]
          simp [storePuts]
    · rw [herr] at hok
      simp at hok
  · simp only [hrest, if_false] at hok ⊢
    rcases hpath : env.SetConfigPath (env.Getenv "CBTUMBLEBUG_ROOT" ++ "/conf/grpc_conf.yaml")
      with _ | e
    · rw [hpath] at hok
      dsimp only at hok ⊢
      rcases hopen : env.Open with _ | e
      · rw [hopen] at hok
        dsimp only at hok ⊢
        rcases hrpc : env.rpc (securityRpcVerb option)
            (env.marshalSecurityReq (securityReq nsId u vNetInfo)) with e | r
        · rw [hrpc] at hok
          simp at hok
        · rw [hrpc] at hok
          dsimp only at hok ⊢
          rcases hdec : env.unmarshalSecurityInfo r with e | od
          · rw [hdec] at hok
            simp at hok
          · rcases od with _ | d
            · rw [hdec] at hok
              simp at hok
            · rw [hdec] at hok
              dsimp only at hok ⊢
              obtain ⟨hv, htr, hst⟩ := storeSecurityGroup_success env store nsId u option
                d _ _ v hok
              refine ⟨d, ⟨rfl, rfl, r, rfl, hdec⟩, hv, ?_, hst⟩
              rw [htr]
              simp [storePuts]
      · rw [hopen] at hok
        simp at hok
    · rw [hpath] at hok
      simp at hok

/-- What a `CreateSecurityGroup` call that returns a nil error has done. -/
theorem CreateSecurityGroup_success (env : Env) (store : Store) (nsId : String)
    (u : TbSecurityGroupReq) (option : String) (v : TbSecurityGroupInfo)
    (hok : (CreateSecurityGroup env store nsId u option).ret = Outcome.returned v none) :
    ∃ vNetInfo d,
      securityDriverAnswer env nsId (resolvedReq env store nsId u option) option vNetInfo d ∧
      v = securityGroupContent (resolvedReq env store nsId u option) option d ∧
      storePuts (CreateSecurityGroup env store nsId u option).trace
        = [Event.storePut (env.GenResourceKey nsId env.StrSecurityGroup u.Name)
            (env.marshalSecurityGroupInfo v)] ∧
      (CreateSecurityGroup env store nsId u option).store
        = store.put (env.GenResourceKey nsId env.StrSecurityGroup u.Name)
            (env.marshalSecurityGroupInfo v) := by
  rcases CreateSecurityGroup_cases env store nsId u option with ⟨e, he⟩ | ⟨vNetInfo, hrun⟩
  · rw [he] at hok
    simp at hok
  · rw [hrun] at hok ⊢
    obtain ⟨d, hd, hv, hputs, hst⟩ := callSecurityDriver_success env store nsId _ option
      vNetInfo v hok
    rw [(resolvedReq_fields env store nsId u option).1] at hputs hst
    exact ⟨vNetInfo, d, hd, hv, hputs, hst⟩

/-- C11: the `SystemLabel` of the record a successful `CreateSecurityGroup`
call returns is `Registered from CB-Spider resource` in register mode with an
empty `CspSecurityGroupId`, `Registered from CSP resource` in register mode
with a non-empty `CspSecurityGroupId`, and empty in every other mode; the
three values are pairwise distinct. -/
theorem CreateSecurityGroup_system_label (env : Env) (store : Store) (nsId : String)
    (u : TbSecurityGroupReq) (option : String) (v : TbSecurityGroupInfo)
    (hok : (CreateSecurityGroup env store nsId u option).ret = Outcome.returned v none) :
    (option = "register" → u.CspSecurityGroupId = "" →
      v.SystemLabel = "Registered from CB-Spider resource") ∧
    (option = "register" → u.CspSecurityGroupId ≠ "" →
      v.SystemLabel = "Registered from CSP resource") ∧
    (option ≠ "register" → v.SystemLabel = "") ∧
    "Registered from CB-Spider resource" ≠ "Registered from CSP resource" ∧
    "Registered from CB-Spider resource" ≠ "" ∧
    "Registered from CSP resource" ≠ "" := by
  obtain ⟨vNetInfo, d, -, hv, -, -⟩ := CreateSecurityGroup_success env store nsId u option v hok
  have hid := (resolvedReq_fields env store nsId u option).2.2.2.1
  subst hv
  refine ⟨?_, ?_, ?_, by decide, by decide, by decide⟩
  · intro ho hempty
    subst ho
    simp [securityGroupContent, hid, hempty]
  · intro ho hne
    subst ho
    simp [securityGroupContent, hid, hne]
  · intro ho
    simp [securityGroupContent, ho]

theorem CreateSecurityGroup_system_label_witness :
    ({ Id := "sg01", Name := "sg01", ConnectionName := "conn01",
       CspSecurityGroupId := "sg-0001", CspSecurityGroupName := "ns01-sg01",
       SystemLabel := "Registered from CSP resource" } : TbSecurityGroupInfo).SystemLabel
      = "Registered from CSP resource" :=
  (CreateSecurityGroup_system_label (sampleEnv "REST") common.Store.empty "ns01"
    { Name := "sg01", ConnectionName := "conn01", VNetId := "vnet01",
      CspSecurityGroupId := "sg-0001" } "register"
    { Id := "sg01", Name := "sg01", ConnectionName := "conn01",
      CspSecurityGroupId := "sg-0001", CspSecurityGroupName := "ns01-sg01",
      SystemLabel := "Registered from CSP resource" } (by decide)).2.1 rfl (by decide)


/-- What a persist step of `CreateSshKey` that returns a nil error has done. -/
theorem storeSshKey_success (env : Env) (store : Store) (nsId : String)
    (u : TbSshKeyReq) (d : SpiderKeyPairInfo) (trace deferred : List Event) (v : TbSshKeyInfo)
    (hok : (storeSshKey env store nsId u d trace deferred).ret = Outcome.returned v none) :
    v = sshKeyContent u d ∧
    (storeSshKey env store nsId u d trace deferred).trace
      = trace ++ [Event.storePut (env.GenResourceKey nsId env.StrSSHKey u.Name)
            (env.marshalSshKeyInfo v)] ++ deferred ∧
    (storeSshKey env store nsId u d trace deferred).store
      = store.put (env.GenResourceKey nsId env.StrSSHKey u.Name) (env.marshalSshKeyInfo v) := by
  unfold storeSshKey at hok ⊢
  dsimp only at hok ⊢
  split at hok
  · simp at hok
  · rename_i hput
    try rw [hput]
    simp only [Outcome.returned.injEq, and_true] at hok
    subst hok
    exact ⟨rfl, rfl, rfl⟩

/-- Either `CreateSshKey` returns an error before any action, or it is the
driver step. -/
theorem CreateSshKey_cases (env : Env) (store : Store) (nsId : String) (u : TbSshKeyReq) :
    (∃ e, CreateSshKey env store nsId u = ⟨Outcome.returned {} (some e), store, []⟩) ∨
    CreateSshKey env store nsId u = callKeyPairDriver env store nsId u := by
  unfold CreateSshKey callKeyPairDriver
  split
  · exact Or.inl ⟨_, rfl⟩
  · split
    · exact Or.inl ⟨_, rfl⟩
    · split
      · exact Or.inl ⟨_, rfl⟩
      · split
        · exact Or.inl ⟨_, rfl⟩
        · exact Or.inr rfl

/-- What a driver step of `CreateSshKey` that returns a nil error has done. -/
theorem callKeyPairDriver_success (env : Env) (store : Store) (nsId : String)
    (u : TbSshKeyReq) (v : TbSshKeyInfo)
    (hok : (callKeyPairDriver env store nsId u).ret = Outcome.returned v none) :
    ∃ d, keyPairDriverAnswer env u d ∧
      v = sshKeyContent u d ∧
      storePuts (callKeyPairDriver env store nsId u).trace
        = [Event.storePut (env.GenResourceKey nsId env.StrSSHKey u.Name)
            (env.marshalSshKeyInfo v)] ∧
      (callKeyPairDriver env store nsId u).store
        = store.put (env.GenResourceKey nsId env.StrSSHKey u.Name)
            (env.marshalSshKeyInfo v) := by
  unfold keyPairDriverAnswer
  unfold callKeyPairDriver at hok ⊢
  by_cases hrest : env.Getenv "SPIDER_CALL_METHOD" = "REST"
  · simp only [hrest, if_true] at hok ⊢
    rcases herr : (env.restKeyPair "POST" (env.SpiderRestUrl ++ "/keypair")
        (keyPairReq u)).err with _ | e
    · rw [herr] at hok
      dsimp only at hok ⊢
      rcases hresp : (env.restKeyPair "POST" (env.SpiderRestUrl ++ "/keypair")
          (keyPairReq u)).resp with _ | resp
      · rw [hresp] at hok
        simp at hok
      · rw [hresp] at hok
        dsimp only at hok ⊢
        by_cases hcode : resp.statusCode ≥ 400 ∨ resp.statusCode < 200
        · simp only [hcode, if_true] at hok
          simp at hok
        · simp only [hcode, if_false] at hok ⊢
          obtain ⟨hv, htr, hst⟩ := storeSshKey_success env store nsId u
            resp.result _ _ v hok
          refine ⟨resp.result, ⟨by first | rfl | trivial, resp, rfl, hcode, rfl⟩,
            hv, ?_, hst⟩
          rw [htr]
          simp [storePuts]
    · rw [herr] at hok
      simp at hok
  · simp only [hrest, if_false] at hok ⊢
    rcases hpath : env.SetConfigPath
        (env.Getenv "CBTUMBLEBUG_ROOT" ++ "/conf/grpc_conf.yaml") with _ | e
    · rw [hpath] at hok
      dsimp only at hok ⊢
      rcases hopen : env.Open with _ | e
      · rw [hopen] at hok
        dsimp only at hok ⊢
        rcases hrpc : env.rpc "CreateKey" (env.marshalKeyPairReq (keyPairReq u))
          with e | r
        · rw [hrpc] at hok
          simp at hok
        · rw [hrpc] at hok
          dsimp only at hok ⊢
          rcases hdec : env.unmarshalKeyPairInfo r with e | od
          · rw [hdec] at hok
            simp at hok
          · rcases od with _ | d
            · rw [hdec] at hok
              simp at hok
            · rw [hdec] at hok
              dsimp only at hok ⊢
              obtain ⟨hv, htr, hst⟩ := storeSshKey_success env store nsId u
                d _ _ v hok
              refine ⟨d, ⟨rfl, rfl, r, rfl, hdec⟩, hv, ?_, hst⟩
              rw [htr]
              simp [storePuts]
      · rw [hopen] at hok
        simp at hok
    · rw [hpath] at hok
      simp at hok

/-- What a `CreateSshKey` call that returns a nil error has done. -/
theorem CreateSshKey_success (env : Env) (store : Store) (nsId : String)
    (u : TbSshKeyReq) (v : TbSshKeyInfo)
    (hok : (CreateSshKey env store nsId u).ret = Outcome.returned v none) :
    ∃ d, keyPairDriverAnswer env u d ∧
      v = sshKeyContent u d ∧
      storePuts (CreateSshKey env store nsId u).trace
        = [Event.storePut (env.GenResourceKey nsId env.StrSSHKey u.Name)
            (env.marshalSshKeyInfo v)] ∧
      (CreateSshKey env store nsId u).store
        = store.put (env.GenResourceKey nsId env.StrSSHKey u.Name)
            (env.marshalSshKeyInfo v) := by
  rcases CreateSshKey_cases env store nsId u with ⟨e, he⟩ | hrun
  · rw [he] at hok
    simp at hok
  · rw [hrun] at hok ⊢
    exact callKeyPairDriver_success env store nsId u v hok

/-- C14: a successful `CreateSecurityGroup` or `CreateSshKey` call with request
`u` that the driver answered with `d` makes exactly one store write, under the
key generated from the namespace, the kind and `u.Name`, whose value is the
serialization of the returned record; the returned record has `Id` and `Name`
equal to `u.Name`, the `ConnectionName` and `Description` of `u`, the CSP
identifiers of the identifier pair of `d` (`CspSecurityGroupId` its `SystemId`
and `CspSecurityGroupName` its `NameId`; for an SSH key `CspSshKeyName` its
`NameId`), the `KeyValueList` of `d` and an empty `AssociatedObjectList`. -/
theorem create_persists_translated_record (env : Env) (store : Store) (nsId : String)
    (us : TbSecurityGroupReq) (option : String) (uk : TbSshKeyReq) :
    (∀ v, (CreateSecurityGroup env store nsId us option).ret = Outcome.returned v none →
      ∃ vNetInfo d,
        securityDriverAnswer env nsId (resolvedReq env store nsId us option) option vNetInfo d ∧
        storePuts (CreateSecurityGroup env store nsId us option).trace
          = [Event.storePut (env.GenResourceKey nsId env.StrSecurityGroup us.Name)
              (env.marshalSecurityGroupInfo v)] ∧
        (CreateSecurityGroup env store nsId us option).store
          = store.put (env.GenResourceKey nsId env.StrSecurityGroup us.Name)
              (env.marshalSecurityGroupInfo v) ∧
        v.Id = us.Name ∧ v.Name = us.Name ∧ v.ConnectionName = us.ConnectionName ∧
        v.Description = us.Description ∧
        v.CspSecurityGroupId = d.IId.SystemId ∧ v.CspSecurityGroupName = d.IId.NameId ∧
        v.KeyValueList = d.KeyValueList ∧ v.AssociatedObjectList = []) ∧
    (∀ v, (CreateSshKey env store nsId uk).ret = Outcome.returned v none →
      ∃ d,
        keyPairDriverAnswer env uk d ∧
        storePuts (CreateSshKey env store nsId uk).trace
          = [Event.storePut (env.GenResourceKey nsId env.StrSSHKey uk.Name)
              (env.marshalSshKeyInfo v)] ∧
        (CreateSshKey env store nsId uk).store
          = store.put (env.GenResourceKey nsId env.StrSSHKey uk.Name)
              (env.marshalSshKeyInfo v) ∧
        v.Id = uk.Name ∧ v.Name = uk.Name ∧ v.ConnectionName = uk.ConnectionName ∧
        v.Description = uk.Description ∧
        v.CspSshKeyName = d.IId.NameId ∧
        v.KeyValueList = d.KeyValueList ∧ v.AssociatedObjectList = []) := by
  constructor
  · intro v hok
    obtain ⟨vNetInfo, d, hd, hv, hputs, hst⟩ :=
      CreateSecurityGroup_success env store nsId us option v hok
    obtain ⟨hname, hconn, hdesc, -, -⟩ := resolvedReq_fields env store nsId us option
    refine ⟨vNetInfo, d, hd, hputs, hst, ?_⟩
    subst hv
    simp [securityGroupContent, hname, hconn, hdesc]
  · intro v hok
    obtain ⟨d, hd, hv, hputs, hst⟩ := CreateSshKey_success env store nsId uk v hok
    refine ⟨d, hd, hputs, hst, ?_⟩
    subst hv
    simp [sshKeyContent]

theorem create_persists_translated_record_witness :
    (∃ d, keyPairDriverAnswer (sampleEnv "REST") { Name := "key01", ConnectionName := "conn01" } d ∧
      storePuts (CreateSshKey (sampleEnv "REST") common.Store.empty "ns01"
          { Name := "key01", ConnectionName := "conn01" }).trace
        = [Event.storePut "/ns/ns01/resources/sshKey/key01" "key01"] ∧
      ("key01" : String) = d.IId.NameId) ∧
    (∃ vNetInfo d, securityDriverAnswer (sampleEnv "gRPC") "ns01"
        (resolvedReq (sampleEnv "gRPC") common.Store.empty "ns01"
          { Name := "sg01", ConnectionName := "conn01", VNetId := "vnet01",
            FirewallRules := some [] } "")
        "" vNetInfo d ∧
      "sg-0001" = d.IId.SystemId) := by
  constructor
  · obtain ⟨d, hd, hputs, -, -, -, -, -, hcsp, -, -⟩ :=
      (create_persists_translated_record (sampleEnv "REST") common.Store.empty "ns01" {} ""
        { Name := "key01", ConnectionName := "conn01" }).2
        { Id := "key01", Name := "key01", ConnectionName := "conn01", CspSshKeyName := "key01" }
        (by decide)
    exact ⟨d, hd, hputs, hcsp⟩
  · obtain ⟨vNetInfo, d, hd, -, -, -, -, -, -, hid, -, -, -⟩ :=
      (create_persists_translated_record (sampleEnv "gRPC") common.Store.empty "ns01"
        { Name := "sg01", ConnectionName := "conn01", VNetId := "vnet01",
          FirewallRules := some [] } "" {}).1
        { Id := "sg01", Name := "sg01", ConnectionName := "conn01",
          CspSecurityGroupId := "sg-0001", CspSecurityGroupName := "ns01-sg01" }
        (by decide)
    exact ⟨vNetInfo, d, hd, hid⟩


/-- After a successful write the persist step makes one read and no further
write; it returns the record with a nil error when `CBStore.Get` hands back a
pointer, with or without an error, and panics when the pointer is nil. -/
theorem storeSecurityGroup_read_back (env : Env) (store : Store) (nsId : String)
    (u : TbSecurityGroupReq) (option : String) (d : SpiderSecurityInfo)
    (trace deferred : List Event)
    (hput : env.Put store (env.GenResourceKey nsId env.StrSecurityGroup u.Name)
      (env.marshalSecurityGroupInfo (securityGroupContent u option d)) = none) :
    (storeSecurityGroup env store nsId u option d trace deferred).trace
      = trace ++ [Event.storePut (env.GenResourceKey nsId env.StrSecurityGroup u.Name)
            (env.marshalSecurityGroupInfo (securityGroupContent u option d)),
          Event.storeGet (env.GenResourceKey nsId env.StrSecurityGroup u.Name)] ++ deferred ∧
    (storeSecurityGroup env store nsId u option d trace deferred).store
      = store.put (env.GenResourceKey nsId env.StrSecurityGroup u.Name)
          (env.marshalSecurityGroupInfo (securityGroupContent u option d)) ∧
    (∀ kv, (env.Get (store.put (env.GenResourceKey nsId env.StrSecurityGroup u.Name)
          (env.marshalSecurityGroupInfo (securityGroupContent u option d)))
        (env.GenResourceKey nsId env.StrSecurityGroup u.Name)).1 = some kv →
      (storeSecurityGroup env store nsId u option d trace deferred).ret
        = Outcome.returned (securityGroupContent u option d) none) ∧
    ((env.Get (store.put (env.GenResourceKey nsId env.StrSecurityGroup u.Name)
          (env.marshalSecurityGroupInfo (securityGroupContent u option d)))
        (env.GenResourceKey nsId env.StrSecurityGroup u.Name)).1 = none →
      (storeSecurityGroup env store nsId u option d trace deferred).ret = Outcome.panicked) := by
  have hid : (securityGroupContent u option d).Id = u.Name := rfl
  unfold storeSecurityGroup
  dsimp only
  rw [hid, hput]
  dsimp only
  rcases hget : (env.Get (store.put (env.GenResourceKey nsId env.StrSecurityGroup u.Name)
          (env.marshalSecurityGroupInfo (securityGroupContent u option d)))
        (env.GenResourceKey nsId env.StrSecurityGroup u.Name)).1 with _ | kv
  · simp
  · simp

/-- C15 (code defect): the driver call (REST, status 200) and the store write
succeed, the read-back fails with `CBStore.Get` returning a nil pointer and an
error, and `CreateSecurityGroup` does not return: line 385 reads through the
nil pointer and the call panics.  The write stays and no further store write
is made. -/
theorem CreateSecurityGroup_failed_read_back_panics :
    (unreadableEnv "REST").Get
        (common.Store.empty.put "/ns/ns01/resources/securityGroup/sg01" "sg01")
        "/ns/ns01/resources/securityGroup/sg01" = (none, some "store: read failed") ∧
    (CreateSecurityGroup (unreadableEnv "REST") common.Store.empty "ns01"
        { Name := "sg01", ConnectionName := "conn01", VNetId := "vnet01",
          FirewallRules := some [] } "").ret = Outcome.panicked ∧
    (CreateSecurityGroup (unreadableEnv "REST") common.Store.empty "ns01"
        { Name := "sg01", ConnectionName := "conn01", VNetId := "vnet01",
          FirewallRules := some [] } "").trace
      = [Event.restSecurity "POST" "http://localhost:1024/spider/securitygroup"
            { ConnectionName := "conn01",
              ReqInfo := { Name := "ns01-sg01", VPCName := "ns01-vnet01" } },
          Event.storePut "/ns/ns01/resources/securityGroup/sg01" "sg01",
          Event.storeGet "/ns/ns01/resources/securityGroup/sg01"] ∧
    (CreateSecurityGroup (unreadableEnv "REST") common.Store.empty "ns01"
        { Name := "sg01", ConnectionName := "conn01", VNetId := "vnet01",
          FirewallRules := some [] } "").store "/ns/ns01/resources/securityGroup/sg01"
      = some "sg01" := by
  decide

/-- The loop of lines 213-217 has no `break`: it leaves the id of the last
record of the connection, and the id it started from when there is none. -/
theorem assignVNetId_eq (vNets : List TbVNetInfo) (connectionName vNetId : String) :
    assignVNetId vNets connectionName vNetId
      = (((vNets.filter (fun r => r.ConnectionName = connectionName)).getLast?).map
          (fun r => r.Id)).getD vNetId := by
  unfold assignVNetId
  induction vNets generalizing vNetId with
  | nil => rfl
  | cons a l ih =>
    rw [List.foldl_cons, ih]
    by_cases ha : a.ConnectionName = connectionName
    · rw [if_pos ha, List.filter_cons_of_pos (by simpa using ha)]
      generalize List.filter (fun r => decide (r.ConnectionName = connectionName)) l = fl
      cases fl with
      | nil => rfl
      | cons b l2 =>
        rw [List.getLast?_cons_cons]
        rcases hlast : (b :: l2).getLast? with _ | x
        · simp at hlast
        · rfl
    · rw [if_neg ha, List.filter_cons_of_neg (by simpa using ha)]

/-- C16 (as stated, refuted): in register mode with `VNetId` set to
`not defined` and the vNets `vnet01`, `vnet02` of connection `conn01` listed in
this order, the request to the driver names the network of `vnet02`, the last
record of the connection, not that of `vnet01`, the first. -/
theorem CreateSecurityGroup_register_takes_last_vNet :
    twoVNetsEnv.ListResource common.Store.empty "ns01" "vNet"
      = .ok [{ Id := "vnet01", ConnectionName := "conn01", CspVNetName := "ns01-vnet01" },
             { Id := "vnet02", ConnectionName := "conn01", CspVNetName := "ns01-vnet02" }] ∧
    assignVNetId
        [{ Id := "vnet01", ConnectionName := "conn01", CspVNetName := "ns01-vnet01" },
         { Id := "vnet02", ConnectionName := "conn01", CspVNetName := "ns01-vnet02" }]
        "conn01" "not defined" = "vnet02" ∧
    (CreateSecurityGroup twoVNetsEnv common.Store.empty "ns01"
        { Name := "sg01", ConnectionName := "conn01", VNetId := "not defined" }
        "register").trace.head?
      = some (Event.restSecurity "GET" "http://localhost:1024/spider/securitygroup/sg01"
          { ConnectionName := "conn01",
            ReqInfo := { Name := "ns01-sg01", VPCName := "ns01-vnet02" } }) := by
  refine ⟨rfl, by decide, by decide⟩

/-- C16 (amended): in register mode with `VNetId` equal to `not defined` and a
non-empty list of vNet records in the namespace, a call that has passed its
checks goes on with `VNetId` set to the id of the last record of the list
whose `ConnectionName` equals that of the request; when no record of the list
has that `ConnectionName`, `VNetId` stays `not defined`. -/
theorem CreateSecurityGroup_register_vNet (env : Env) (store : Store) (nsId : String)
    (u : TbSecurityGroupReq) (vNets : List TbVNetInfo)
    (hns : env.CheckString nsId = none)
    (hval : env.validateSecurityGroupReq u = none)
    (hcheck : env.CheckResource store nsId env.StrSecurityGroup u.Name = (false, none))
    (hunset : u.VNetId = "not defined")
    (hlist : env.ListResource store nsId env.StrVNet = .ok vNets)
    (hne : vNets ≠ []) :
    CreateSecurityGroup env store nsId u "register"
      = resolveVNet env store nsId
          { u with VNetId := assignVNetId vNets u.ConnectionName "not defined" } "register" ∧
    (∀ r, (vNets.filter (fun r => r.ConnectionName = u.ConnectionName)).getLast? = some r →
      assignVNetId vNets u.ConnectionName "not defined" = r.Id) ∧
    (vNets.filter (fun r => r.ConnectionName = u.ConnectionName) = [] →
      assignVNetId vNets u.ConnectionName "not defined" = "not defined") := by
  refine ⟨?_, ?_, ?_⟩
  · have hlen : vNets.length ≠ 0 := by
      intro h
      exact hne (List.length_eq_zero.mp h)
    unfold CreateSecurityGroup
    simp [hns, hval, hcheck, hunset, hlist, hlen]
  · intro r hr
    rw [assignVNetId_eq, hr]
    rfl
  · intro hnone
    rw [assignVNetId_eq, hnone]
    rfl

theorem CreateSecurityGroup_register_vNet_witness :
    assignVNetId
        [{ Id := "vnet01", ConnectionName := "conn01", CspVNetName := "ns01-vnet01" },
         { Id := "vnet02", ConnectionName := "conn01", CspVNetName := "ns01-vnet02" }]
        "conn01" "not defined" = "vnet02" :=
  (CreateSecurityGroup_register_vNet twoVNetsEnv common.Store.empty "ns01"
    { Name := "sg01", ConnectionName := "conn01", VNetId := "not defined" }
    [{ Id := "vnet01", ConnectionName := "conn01", CspVNetName := "ns01-vnet01" },
     { Id := "vnet02", ConnectionName := "conn01", CspVNetName := "ns01-vnet02" }]
    rfl rfl rfl rfl rfl (by decide)).2.1
    { Id := "vnet02", ConnectionName := "conn01", CspVNetName := "ns01-vnet02" } (by decide)


/-- The actions of the persist step of `CreateSshKey`: one store write between
the earlier and the deferred actions. -/
theorem storeSshKey_trace (env : Env) (store : Store) (nsId : String) (u : TbSshKeyReq)
    (d : SpiderKeyPairInfo) (trace deferred : List Event) :
    (storeSshKey env store nsId u d trace deferred).trace
      = trace ++ [Event.storePut (env.GenResourceKey nsId env.StrSSHKey u.Name)
          (env.marshalSshKeyInfo (sshKeyContent u d))] ++ deferred := by
  unfold storeSshKey
  dsimp only
  split <;> rfl

/-- The actions of the driver step of `CreateSshKey` over the RPC transport. -/
theorem callKeyPairDriver_rpc_shape (env : Env) (store : Store) (nsId : String)
    (u : TbSshKeyReq) (hrpc : env.Getenv "SPIDER_CALL_METHOD" ≠ "REST") :
    (∃ e, env.SetConfigPath (env.Getenv "CBTUMBLEBUG_ROOT" ++ "/conf/grpc_conf.yaml") = some e ∧
      (callKeyPairDriver env store nsId u).ret = Outcome.returned {} (some e) ∧
      (callKeyPairDriver env store nsId u).trace
        = [Event.rpcSetConfigPath (env.Getenv "CBTUMBLEBUG_ROOT" ++ "/conf/grpc_conf.yaml")]) ∨
    (∃ e, env.SetConfigPath (env.Getenv "CBTUMBLEBUG_ROOT" ++ "/conf/grpc_conf.yaml") = none ∧
      env.Open = some e ∧
      (callKeyPairDriver env store nsId u).ret = Outcome.returned {} (some e) ∧
      (callKeyPairDriver env store nsId u).trace
        = [Event.rpcSetConfigPath (env.Getenv "CBTUMBLEBUG_ROOT" ++ "/conf/grpc_conf.yaml"),
            Event.rpcOpen]) ∨
    (env.SetConfigPath (env.Getenv "CBTUMBLEBUG_ROOT" ++ "/conf/grpc_conf.yaml") = none ∧
      env.Open = none ∧
      ∃ verb payload mid,
        (mid = [] ∨ (∃ k v, mid = [Event.storePut k v]) ∨
          ∃ k v, mid = [Event.storePut k v, Event.storeGet k]) ∧
        (callKeyPairDriver env store nsId u).trace
          = [Event.rpcSetConfigPath (env.Getenv "CBTUMBLEBUG_ROOT" ++ "/conf/grpc_conf.yaml"),
              Event.rpcOpen, Event.rpcCall verb payload] ++ mid ++ [Event.rpcClose]) := by
  unfold callKeyPairDriver
  simp only [hrpc, if_false]
  rcases hpath : env.SetConfigPath (env.Getenv "CBTUMBLEBUG_ROOT" ++ "/conf/grpc_conf.yaml")
    with _ | e
  · dsimp only
    rcases hopen : env.Open with _ | e
    · dsimp only
      refine Or.inr (Or.inr ⟨rfl, rfl, "CreateKey", env.marshalKeyPairReq (keyPairReq u), ?_⟩)
      rcases hcall : env.rpc "CreateKey" (env.marshalKeyPairReq (keyPairReq u)) with e | r
      · exact ⟨[], Or.inl rfl, rfl⟩
      · dsimp only
        rcases hdec : env.unmarshalKeyPairInfo r with e | od
        · exact ⟨[], Or.inl rfl, rfl⟩
        · rcases od with _ | d
          · exact ⟨[], Or.inl rfl, rfl⟩
          · dsimp only
            rw [storeSshKey_trace]
            exact ⟨_, Or.inr (Or.inl ⟨_, _, rfl⟩), rfl⟩
    · exact Or.inr (Or.inl ⟨e, rfl, rfl, rfl, rfl⟩)
  · exact Or.inl ⟨e, rfl, rfl, rfl⟩

/-- The actions of the driver step of `CreateSecurityGroup` over the RPC
transport. -/
theorem callSecurityDriver_rpc_shape (env : Env) (store : Store) (nsId : String)
    (u : TbSecurityGroupReq) (option : String) (vNetInfo : TbVNetInfo)
    (hrpc : env.Getenv "SPIDER_CALL_METHOD" ≠ "REST") :
    (∃ e, env.SetConfigPath (env.Getenv "CBTUMBLEBUG_ROOT" ++ "/conf/grpc_conf.yaml") = some e ∧
      (callSecurityDriver env store nsId u option vNetInfo).ret = Outcome.returned {} (some e) ∧
      (callSecurityDriver env store nsId u option vNetInfo).trace
        = [Event.rpcSetConfigPath (env.Getenv "CBTUMBLEBUG_ROOT" ++ "/conf/grpc_conf.yaml")]) ∨
    (∃ e, env.SetConfigPath (env.Getenv "CBTUMBLEBUG_ROOT" ++ "/conf/grpc_conf.yaml") = none ∧
      env.Open = some e ∧
      (callSecurityDriver env store nsId u option vNetInfo).ret = Outcome.returned {} (some e) ∧
      (callSecurityDriver env store nsId u option vNetInfo).trace
        = [Event.rpcSetConfigPath (env.Getenv "CBTUMBLEBUG_ROOT" ++ "/conf/grpc_conf.yaml"),
            Event.rpcOpen]) ∨
    (env.SetConfigPath (env.Getenv "CBTUMBLEBUG_ROOT" ++ "/conf/grpc_conf.yaml") = none ∧
      env.Open = none ∧
      ∃ verb payload mid,
        (mid = [] ∨ (∃ k v, mid = [Event.storePut k v]) ∨
          ∃ k v, mid = [Event.storePut k v, Event.storeGet k]) ∧
        (callSecurityDriver env store nsId u option vNetInfo).trace
          = [Event.rpcSetConfigPath (env.Getenv "CBTUMBLEBUG_ROOT" ++ "/conf/grpc_conf.yaml"),
              Event.rpcOpen, Event.rpcCall verb payload] ++ mid ++ [Event.rpcClose]) := by
  unfold callSecurityDriver
  simp only [hrpc, if_false]
  rcases hpath : env.SetConfigPath (env.Getenv "CBTUMBLEBUG_ROOT" ++ "/conf/grpc_conf.yaml")
    with _ | e
  · dsimp only
    rcases hopen : env.Open with _ | e
    · dsimp only
      refine Or.inr (Or.inr ⟨rfl, rfl, securityRpcVerb option,
        env.marshalSecurityReq (securityReq nsId u vNetInfo), ?_⟩)
      rcases hcall : env.rpc (securityRpcVerb option)
          (env.marshalSecurityReq (securityReq nsId u vNetInfo)) with e | r
      · exact ⟨[], Or.inl rfl, rfl⟩
      · dsimp only
        rcases hdec : env.unmarshalSecurityInfo r with e | od
        · exact ⟨[], Or.inl rfl, rfl⟩
        · rcases od with _ | d
          · exact ⟨[], Or.inl rfl, rfl⟩
          · dsimp only
            rcases storeSecurityGroup_trace env store nsId u option d
              [Event.rpcSetConfigPath (env.Getenv "CBTUMBLEBUG_ROOT" ++ "/conf/grpc_conf.yaml"),
                Event.rpcOpen,
                Event.rpcCall (securityRpcVerb option)
                  (env.marshalSecurityReq (securityReq nsId u vNetInfo))]
              [Event.rpcClose] with h | h
            · rw [h]
              exact ⟨_, Or.inr (Or.inl ⟨_, _, rfl⟩), rfl⟩
            · rw [h]
              exact ⟨_, Or.inr (Or.inr ⟨_, _, rfl⟩), rfl⟩
    · exact Or.inr (Or.inl ⟨e, rfl, rfl, rfl, rfl⟩)
  · exact Or.inl ⟨e, rfl, rfl, rfl⟩

/-- What the three shapes of the actions over the RPC transport say about the
handle: after a successful `Open` there is one `Close` and it comes last;
after a failed `SetConfigPath` or `Open` the error is returned and no call and
no `Close` is made on the handle. -/
theorem rpc_shape_closes {α : Type} (env : Env) (zero : α) (run : Run α) (path : String)
    (hshape :
      (∃ e, env.SetConfigPath path = some e ∧ run.ret = Outcome.returned zero (some e) ∧
        run.trace = [Event.rpcSetConfigPath path]) ∨
      (∃ e, env.SetConfigPath path = none ∧ env.Open = some e ∧
        run.ret = Outcome.returned zero (some e) ∧
        run.trace = [Event.rpcSetConfigPath path, Event.rpcOpen]) ∨
      (env.SetConfigPath path = none ∧ env.Open = none ∧
        ∃ verb payload mid,
          (mid = [] ∨ (∃ k v, mid = [Event.storePut k v]) ∨
            ∃ k v, mid = [Event.storePut k v, Event.storeGet k]) ∧
          run.trace = [Event.rpcSetConfigPath path, Event.rpcOpen, Event.rpcCall verb payload]
            ++ mid ++ [Event.rpcClose])) :
    (env.Open = none → Event.rpcOpen ∈ run.trace →
      run.trace.count Event.rpcOpen = 1 ∧ run.trace.count Event.rpcClose = 1 ∧
      run.trace.getLast? = some Event.rpcClose) ∧
    (∀ e, env.SetConfigPath path = some e →
      run.ret = Outcome.returned zero (some e) ∧ rpcCalls run.trace = [] ∧
      Event.rpcOpen ∉ run.trace ∧ Event.rpcClose ∉ run.trace) ∧
    (∀ e, env.SetConfigPath path = none → env.Open = some e →
      run.ret = Outcome.returned zero (some e) ∧ rpcCalls run.trace = [] ∧
      Event.rpcClose ∉ run.trace) := by
  rcases hshape with ⟨e, hpath, hret, htr⟩ | ⟨e, hpath, hopen, hret, htr⟩ |
    ⟨hpath, hopen, verb, payload, mid, hmid, htr⟩
  · refine ⟨?_, ?_, ?_⟩
    · intro _ hmem
      rw [htr] at hmem
      simp at hmem
    · intro e2 he2
      rw [hpath] at he2
      simp only [Option.some.injEq] at he2
      subst he2
      rw [htr]
      exact ⟨hret, by simp [rpcCalls], by simp, by simp⟩
    · intro e2 he2
      rw [hpath] at he2
      simp at he2
  · refine ⟨?_, ?_, ?_⟩
    · intro h
      rw [hopen] at h
      simp at h
    · intro e2 he2
      rw [hpath] at he2
      simp at he2
    · intro e2 _ he2
      rw [hopen] at he2
      simp only [Option.some.injEq] at he2
      subst he2
      rw [htr]
      exact ⟨hret, by simp [rpcCalls], by simp⟩
  · refine ⟨?_, ?_, ?_⟩
    · intro _ _
      rw [htr]
      rcases hmid with rfl | ⟨k, v, rfl⟩ | ⟨k, v, rfl⟩
      · exact ⟨by simp [List.count_cons], by simp [List.count_cons], by simp⟩
      · exact ⟨by simp [List.count_cons], by simp [List.count_cons], by simp⟩
      · exact ⟨by simp [List.count_cons], by simp [List.count_cons], by simp⟩
    · intro e2 he2
      rw [hpath] at he2
      simp at he2
    · intro e2 _ he2
      rw [hopen] at he2
      simp at he2

/-- The shape of the actions of `CreateSshKey` over the RPC transport, or no
action at all. -/
theorem CreateSshKey_rpc (env : Env) (store : Store) (nsId : String) (u : TbSshKeyReq)
    (hrpc : env.Getenv "SPIDER_CALL_METHOD" ≠ "REST") :
    (env.Open = none → Event.rpcOpen ∈ (CreateSshKey env store nsId u).trace →
      (CreateSshKey env store nsId u).trace.count Event.rpcOpen = 1 ∧
      (CreateSshKey env store nsId u).trace.count Event.rpcClose = 1 ∧
      (CreateSshKey env store nsId u).trace.getLast? = some Event.rpcClose) ∧
    (∀ e, env.SetConfigPath (env.Getenv "CBTUMBLEBUG_ROOT" ++ "/conf/grpc_conf.yaml") = some e →
      Event.rpcSetConfigPath (env.Getenv "CBTUMBLEBUG_ROOT" ++ "/conf/grpc_conf.yaml")
        ∈ (CreateSshKey env store nsId u).trace →
      (CreateSshKey env store nsId u).ret = Outcome.returned {} (some e) ∧
      rpcCalls (CreateSshKey env store nsId u).trace = [] ∧
      Event.rpcOpen ∉ (CreateSshKey env store nsId u).trace ∧
      Event.rpcClose ∉ (CreateSshKey env store nsId u).trace) ∧
    (∀ e, env.Open = some e → Event.rpcOpen ∈ (CreateSshKey env store nsId u).trace →
      (CreateSshKey env store nsId u).ret = Outcome.returned {} (some e) ∧
      rpcCalls (CreateSshKey env store nsId u).trace = [] ∧
      Event.rpcClose ∉ (CreateSshKey env store nsId u).trace) := by
  rcases CreateSshKey_cases env store nsId u with ⟨e, he⟩ | hrun
  · rw [he]
    simp
  · rw [hrun]
    have hshape := callKeyPairDriver_rpc_shape env store nsId u hrpc
    obtain ⟨h1, h2, h3⟩ := rpc_shape_closes env {} (callKeyPairDriver env store nsId u) _ hshape
    refine ⟨h1, fun e he _ => h2 e he, ?_⟩
    intro e he hmem
    rcases hpath : env.SetConfigPath (env.Getenv "CBTUMBLEBUG_ROOT" ++ "/conf/grpc_conf.yaml")
      with _ | e2
    · exact h3 e hpath he
    · exact absurd hmem (h2 e2 hpath).2.2.1

/-- The shape of the actions of `CreateSecurityGroup` over the RPC transport,
or no action at all. -/
theorem CreateSecurityGroup_rpc (env : Env) (store : Store) (nsId : String)
    (u : TbSecurityGroupReq) (option : String)
    (hrpc : env.Getenv "SPIDER_CALL_METHOD" ≠ "REST") :
    (env.Open = none → Event.rpcOpen ∈ (CreateSecurityGroup env store nsId u option).trace →
      (CreateSecurityGroup env store nsId u option).trace.count Event.rpcOpen = 1 ∧
      (CreateSecurityGroup env store nsId u option).trace.count Event.rpcClose = 1 ∧
      (CreateSecurityGroup env store nsId u option).trace.getLast? = some Event.rpcClose) ∧
    (∀ e, env.SetConfigPath (env.Getenv "CBTUMBLEBUG_ROOT" ++ "/conf/grpc_conf.yaml") = some e →
      Event.rpcSetConfigPath (env.Getenv "CBTUMBLEBUG_ROOT" ++ "/conf/grpc_conf.yaml")
        ∈ (CreateSecurityGroup env store nsId u option).trace →
      (CreateSecurityGroup env store nsId u option).ret = Outcome.returned {} (some e) ∧
      rpcCalls (CreateSecurityGroup env store nsId u option).trace = [] ∧
      Event.rpcOpen ∉ (CreateSecurityGroup env store nsId u option).trace ∧
      Event.rpcClose ∉ (CreateSecurityGroup env store nsId u option).trace) ∧
    (∀ e, env.Open = some e →
      Event.rpcOpen ∈ (CreateSecurityGroup env store nsId u option).trace →
      (CreateSecurityGroup env store nsId u option).ret = Outcome.returned {} (some e) ∧
      rpcCalls (CreateSecurityGroup env store nsId u option).trace = [] ∧
      Event.rpcClose ∉ (CreateSecurityGroup env store nsId u option).trace) := by
  rcases CreateSecurityGroup_cases env store nsId u option with ⟨e, he⟩ | ⟨vNetInfo, hrun⟩
  · rw [he]
    simp
  · rw [hrun]
    have hshape := callSecurityDriver_rpc_shape env store nsId
      (resolvedReq env store nsId u option) option vNetInfo hrpc
    obtain ⟨h1, h2, h3⟩ := rpc_shape_closes env {}
      (callSecurityDriver env store nsId (resolvedReq env store nsId u option) option vNetInfo)
      _ hshape
    refine ⟨h1, fun e he _ => h2 e he, ?_⟩
    intro e he hmem
    rcases hpath : env.SetConfigPath (env.Getenv "CBTUMBLEBUG_ROOT" ++ "/conf/grpc_conf.yaml")
      with _ | e2
    · exact h3 e hpath he
    · exact absurd hmem (h2 e2 hpath).2.2.1

/-- C18: under the RPC transport (`SPIDER_CALL_METHOD` is not `REST`), in
`CreateSshKey` and in `CreateSecurityGroup`: when `Open` is called and
succeeds, the handle is opened once, closed once, and the `Close` is the last
action before the return, on every path (error of the RPC call, payload that
does not decode, store write error, success); when `SetConfigPath` is called
and fails, or `Open` is called and fails, the function returns that error and
makes no call and no `Close` on the handle. -/
theorem rpc_handle_released (env : Env) (store : Store) (nsId : String)
    (uk : TbSshKeyReq) (us : TbSecurityGroupReq) (option : String)
    (hrpc : env.Getenv "SPIDER_CALL_METHOD" ≠ "REST") :
    ((env.Open = none → Event.rpcOpen ∈ (CreateSshKey env store nsId uk).trace →
        (CreateSshKey env store nsId uk).trace.count Event.rpcOpen = 1 ∧
        (CreateSshKey env store nsId uk).trace.count Event.rpcClose = 1 ∧
        (CreateSshKey env store nsId uk).trace.getLast? = some Event.rpcClose) ∧
      (∀ e, env.SetConfigPath (env.Getenv "CBTUMBLEBUG_ROOT" ++ "/conf/grpc_conf.yaml") = some e →
        Event.rpcSetConfigPath (env.Getenv "CBTUMBLEBUG_ROOT" ++ "/conf/grpc_conf.yaml")
          ∈ (CreateSshKey env store nsId uk).trace →
        (CreateSshKey env store nsId uk).ret = Outcome.returned {} (some e) ∧
        rpcCalls (CreateSshKey env store nsId uk).trace = [] ∧
        Event.rpcOpen ∉ (CreateSshKey env store nsId uk).trace ∧
        Event.rpcClose ∉ (CreateSshKey env store nsId uk).trace) ∧
      (∀ e, env.Open = some e → Event.rpcOpen ∈ (CreateSshKey env store nsId uk).trace →
        (CreateSshKey env store nsId uk).ret = Outcome.returned {} (some e) ∧
        rpcCalls (CreateSshKey env store nsId uk).trace = [] ∧
        Event.rpcClose ∉ (CreateSshKey env store nsId uk).trace)) ∧
    ((env.Open = none → Event.rpcOpen ∈ (CreateSecurityGroup env store nsId us option).trace →
        (CreateSecurityGroup env store nsId us option).trace.count Event.rpcOpen = 1 ∧
        (CreateSecurityGroup env store nsId us option).trace.count Event.rpcClose = 1 ∧
        (CreateSecurityGroup env store nsId us option).trace.getLast? = some Event.rpcClose) ∧
      (∀ e, env.SetConfigPath (env.Getenv "CBTUMBLEBUG_ROOT" ++ "/conf/grpc_conf.yaml") = some e →
        Event.rpcSetConfigPath (env.Getenv "CBTUMBLEBUG_ROOT" ++ "/conf/grpc_conf.yaml")
          ∈ (CreateSecurityGroup env store nsId us option).trace →
        (CreateSecurityGroup env store nsId us option).ret = Outcome.returned {} (some e) ∧
        rpcCalls (CreateSecurityGroup env store nsId us option).trace = [] ∧
        Event.rpcOpen ∉ (CreateSecurityGroup env store nsId us option).trace ∧
        Event.rpcClose ∉ (CreateSecurityGroup env store nsId us option).trace) ∧
      (∀ e, env.Open = some e →
        Event.rpcOpen ∈ (CreateSecurityGroup env store nsId us option).trace →
        (CreateSecurityGroup env store nsId us option).ret = Outcome.returned {} (some e) ∧
        rpcCalls (CreateSecurityGroup env store nsId us option).trace = [] ∧
        Event.rpcClose ∉ (CreateSecurityGroup env store nsId us option).trace)) :=
  ⟨CreateSshKey_rpc env store nsId uk hrpc, CreateSecurityGroup_rpc env store nsId us option hrpc⟩

theorem rpc_handle_released_witness :
    (CreateSshKey (sampleEnv "gRPC") common.Store.empty "ns01"
        { Name := "key01", ConnectionName := "conn01" }).trace.getLast?
      = some Event.rpcClose ∧
    (CreateSecurityGroup (sampleEnv "gRPC") common.Store.empty "ns01"
        { Name := "sg01", ConnectionName := "conn01", VNetId := "vnet01",
          FirewallRules := some [] } "").trace.count Event.rpcClose = 1 :=
  ⟨((rpc_handle_released (sampleEnv "gRPC") common.Store.empty "ns01"
      { Name := "key01", ConnectionName := "conn01" } {} "" (by decide)).1.1 rfl
      (by decide)).2.2,
   ((rpc_handle_released (sampleEnv "gRPC") common.Store.empty "ns01" {}
      { Name := "sg01", ConnectionName := "conn01", VNetId := "vnet01",
        FirewallRules := some [] } "" (by decide)).2.1 rfl (by decide)).2.1⟩

end mcir
end Tumblebug

namespace Tumblebug
namespace rest

/-- A sequence without the separator is one segment. -/
theorem splitChars_of_not_mem (sep : Char) :
    ∀ l : List Char, sep ∉ l → splitChars sep l = [l]
  | [], _ => rfl
  | c :: cs, h => by
    have hc : c ≠ sep := fun e => h (by simp [e])
    have hcs : sep ∉ cs := fun m => h (by simp [m])
    simp [splitChars, hc, splitChars_of_not_mem sep cs hcs]

/-- The first segment ends at the first separator. -/
theorem splitChars_append_sep (sep : Char) (rest : List Char) :
    ∀ l : List Char, sep ∉ l → splitChars sep (l ++ sep :: rest) = l :: splitChars sep rest
  | [], _ => by simp [splitChars]
  | c :: cs, h => by
    have hc : c ≠ sep := fun e => h (by simp [e])
    have hcs : sep ∉ cs := fun m => h (by simp [m])
    simp [splitChars, hc, splitChars_append_sep sep rest cs hcs]

/-- The segments of a route path with the leading segment `tumblebug`. -/
theorem Split_prefixedRoute (a b c cmd : String)
    (ha : slashFree a) (hb : slashFree b) (hc : slashFree c) (hcmd : slashFree cmd) :
    Split (prefixedRoute a b c cmd) '/'
      = ["", "tumblebug", "ns", a, "mcis", b, "vm", c, cmd] := by
  have hdata : (prefixedRoute a b c cmd).data
      = [] ++ '/' :: ("tumblebug".data ++ '/' :: ("ns".data ++ '/' :: (a.data ++ '/' ::
          ("mcis".data ++ '/' :: (b.data ++ '/' :: ("vm".data ++ '/' :: (c.data ++ '/' ::
            cmd.data))))))) := by
    simp [prefixedRoute, String.data_append]
  unfold slashFree at ha hb hc hcmd
  unfold Split
  rw [hdata,
    splitChars_append_sep '/' _ [] (by simp),
    splitChars_append_sep '/' _ "tumblebug".data (by decide),
    splitChars_append_sep '/' _ "ns".data (by decide),
    splitChars_append_sep '/' _ a.data ha,
    splitChars_append_sep '/' _ "mcis".data (by decide),
    splitChars_append_sep '/' _ b.data hb,
    splitChars_append_sep '/' _ "vm".data (by decide),
    splitChars_append_sep '/' _ c.data hc,
    splitChars_of_not_mem '/' cmd.data hcmd]
  rfl

/-- The segments of a route path without a leading segment. -/
theorem Split_bareRoute (a b c cmd : String)
    (ha : slashFree a) (hb : slashFree b) (hc : slashFree c) (hcmd : slashFree cmd) :
    Split (bareRoute a b c cmd) '/' = ["", "ns", a, "mcis", b, "vm", c, cmd] := by
  have hdata : (bareRoute a b c cmd).data
      = [] ++ '/' :: ("ns".data ++ '/' :: (a.data ++ '/' ::
          ("mcis".data ++ '/' :: (b.data ++ '/' :: ("vm".data ++ '/' :: (c.data ++ '/' ::
            cmd.data)))))) := by
    simp [bareRoute, String.data_append]
  unfold slashFree at ha hb hc hcmd
  unfold Split
  rw [hdata,
    splitChars_append_sep '/' _ [] (by simp),
    splitChars_append_sep '/' _ "ns".data (by decide),
    splitChars_append_sep '/' _ a.data ha,
    splitChars_append_sep '/' _ "mcis".data (by decide),
    splitChars_append_sep '/' _ b.data hb,
    splitChars_append_sep '/' _ "vm".data (by decide),
    splitChars_append_sep '/' _ c.data hc,
    splitChars_of_not_mem '/' cmd.data hcmd]
  rfl

/-- C21 (as stated, refuted): the router path as documented on lines 121 and
169, `/ns/` nsId `/mcis/` mcisId `/vm/` vmId `/` command with no leading
segment, splits into 8 segments, so it has no index 8, and both handlers panic
on it. -/
theorem documentedRoute_has_no_index_8 :
    Split documentedRoute '/'
      = ["", "ns", "\x7bnsId\x7d", "mcis", "\x7bmcisId\x7d", "vm", "\x7bvmId\x7d",
          "\x7bcommand\x7d"] ∧
    (Split documentedRoute '/').length = 8 ∧
    commandOf documentedRoute = none ∧
    RestPutMcisVmWithCmd sampleCommandCore (commandRequest documentedRoute "disk01")
      = CommandHandled.panicked ∧
    RestPostMcisVmWithCmd sampleCommandCore (commandRequest documentedRoute "snap01")
      = CommandHandled.panicked := by
  decide

/-- C21 (amended): in `RestPutMcisVmWithCmd` and `RestPostMcisVmWithCmd` the
command is the segment at index 8 of the route path split on `/`.  For a route
path `/tumblebug/ns/a/mcis/b/vm/c/cmd` with slash-free segments the split has
9 segments, index 8 is in range and the command is `cmd`: the handlers go on
to bind the body and dispatch on `cmd`.  For a route path `/ns/a/mcis/b/vm/c/cmd`
without the leading segment, the form of the documented router path, the
split has 8 segments, index 8 is out of range and both handlers panic. -/
theorem command_is_segment_8 (core : CommandCore) (ctx : CommandContext)
    (a b c cmd : String)
    (ha : slashFree a) (hb : slashFree b) (hc : slashFree c) (hcmd : slashFree cmd) :
    (Split (prefixedRoute a b c cmd) '/').length = 9 ∧
    commandOf (prefixedRoute a b c cmd) = some cmd ∧
    (ctx.Path = prefixedRoute a b c cmd →
      RestPutMcisVmWithCmd core ctx ≠ CommandHandled.panicked ∧
      RestPostMcisVmWithCmd core ctx ≠ CommandHandled.panicked ∧
      (∀ name, ctx.Bind = .ok name → cmd = "snapshot" →
        ∃ code body, RestPostMcisVmWithCmd core ctx
          = CommandHandled.responded code body
              [CommandCall.createVmSnapshot (ctx.Param "nsId") (ctx.Param "mcisId")
                (ctx.Param "vmId") name]) ∧
      (∀ dataDiskId, ctx.Bind = .ok dataDiskId →
        cmd = core.AttachDataDisk ∨ cmd = core.DetachDataDisk →
        ∃ code body, RestPutMcisVmWithCmd core ctx
          = CommandHandled.responded code body
              [CommandCall.attachDetachDataDisk (ctx.Param "nsId") (ctx.Param "mcisId")
                (ctx.Param "vmId") cmd dataDiskId])) ∧
    (Split (bareRoute a b c cmd) '/').length = 8 ∧
    commandOf (bareRoute a b c cmd) = none ∧
    (ctx.Path = bareRoute a b c cmd →
      RestPutMcisVmWithCmd core ctx = CommandHandled.panicked ∧
      RestPostMcisVmWithCmd core ctx = CommandHandled.panicked) := by
  have hsome : commandOf (prefixedRoute a b c cmd) = some cmd := by
    unfold commandOf
    rw [Split_prefixedRoute a b c cmd ha hb hc hcmd]
    rfl
  have hnone : commandOf (bareRoute a b c cmd) = none := by
    unfold commandOf
    rw [Split_bareRoute a b c cmd ha hb hc hcmd]
    rfl
  refine ⟨?_, hsome, ?_, ?_, hnone, ?_⟩
  · rw [Split_prefixedRoute a b c cmd ha hb hc hcmd]
    rfl
  · intro hpath
    refine ⟨?_, ?_, ?_, ?_⟩
    · unfold RestPutMcisVmWithCmd
      rw [hpath, hsome]
      dsimp only
      split
      · simp
      · split
        · split <;> simp
        · simp
    · unfold RestPostMcisVmWithCmd
      rw [hpath, hsome]
      dsimp only
      split
      · simp
      · split
        · split <;> simp
        · simp
    · intro name hbind hsnap
      unfold RestPostMcisVmWithCmd
      rw [hpath, hsome, hbind]
      dsimp only
      rw [if_pos hsnap]
      split
      · exact ⟨_, _, rfl⟩
      · exact ⟨_, _, rfl⟩
    · intro dataDiskId hbind hcmd2
      unfold RestPutMcisVmWithCmd
      rw [hpath, hsome, hbind]
      dsimp only
      rw [if_pos hcmd2]
      split
      · exact ⟨_, _, rfl⟩
      · exact ⟨_, _, rfl⟩
  · rw [Split_bareRoute a b c cmd ha hb hc hcmd]
    rfl
  · intro hpath
    constructor
    · unfold RestPutMcisVmWithCmd
      rw [hpath, hnone]
    · unfold RestPostMcisVmWithCmd
      rw [hpath, hnone]

theorem command_is_segment_8_witness :
    commandOf (prefixedRoute ":nsId" ":mcisId" ":vmId" "snapshot") = some "snapshot" ∧
    RestPostMcisVmWithCmd sampleCommandCore
        (commandRequest (bareRoute ":nsId" ":mcisId" ":vmId" "snapshot") "snap01")
      = CommandHandled.panicked :=
  ⟨(command_is_segment_8 sampleCommandCore
      (commandRequest (prefixedRoute ":nsId" ":mcisId" ":vmId" "snapshot") "snap01")
      ":nsId" ":mcisId" ":vmId" "snapshot"
      (by decide) (by decide) (by decide) (by decide)).2.1,
   ((command_is_segment_8 sampleCommandCore
      (commandRequest (bareRoute ":nsId" ":mcisId" ":vmId" "snapshot") "snap01")
      ":nsId" ":mcisId" ":vmId" "snapshot"
      (by decide) (by decide) (by decide) (by decide)).2.2.2.2.2 rfl).2⟩

end rest

namespace infra

/-- The loop over `a` appends, in order, the elements that pass the test. -/
theorem foldl_append_filter {β : Type} (p : β → Bool) (a : List β) :
    ∀ acc : List β,
      a.foldl (fun diff x => if p x then diff else diff ++ [x]) acc
        = acc ++ a.filter (fun x => !p x) := by
  induction a with
  | nil => intro acc; simp
  | cons x xs ih =>
    intro acc
    rw [List.foldl_cons, ih]
    by_cases hp : p x = true
    · simp [hp]
    · simp [hp]

section difference

variable {α : Type} [DecidableEq α]

/-- The map built from `b` has exactly the elements of `b` as keys. -/
theorem keysOf_eq_true (b : List α) (y : α) : keysOf b y = true ↔ y ∈ b := by
  have main : ∀ (l : List α) (m : α → Bool),
      (l.foldl (fun mb x => fun z => if z = x then true else mb z) m) y = true
        ↔ y ∈ l ∨ m y = true := by
    intro l
    induction l with
    | nil => intro m; simp
    | cons x xs ih =>
      intro m
      rw [List.foldl_cons, ih]
      by_cases hyx : y = x
      · simp [hyx]
      · simp [hyx]
  unfold keysOf
  rw [main]
  simp

/-- C22: for all lists `a` and `b`, `Difference_dataDisks(a, b)` is `a`
filtered to the elements that do not occur in `b`, in the order and with the
multiplicities of `a`; `Difference_dataDisks(a, a)` is empty and
`Difference_dataDisks(a, [])` is `a`. -/
theorem Difference_dataDisks_eq_filter (a b : List α) :
    Difference_dataDisks a b = differenceSpec a b ∧
    Difference_dataDisks a a = [] ∧
    Difference_dataDisks a [] = a := by
  have hspec : ∀ a b : List α, Difference_dataDisks a b = differenceSpec a b := by
    intro a b
    unfold Difference_dataDisks differenceSpec
    dsimp only
    rw [foldl_append_filter, List.nil_append]
    apply List.filter_congr
    intro x _
    by_cases hx : x ∈ b
    · simp [hx, (keysOf_eq_true b x).mpr hx]
    · have hk : keysOf b x = false := by
        rcases hkx : keysOf b x with _ | _
        · rfl
        · exact absurd ((keysOf_eq_true b x).mp hkx) hx
      simp [hx, hk]
  refine ⟨hspec a b, ?_, ?_⟩
  · rw [hspec]
    unfold differenceSpec
    simp
  · rw [hspec]
    unfold differenceSpec
    simp

end difference

end infra
end Tumblebug
